import Mathlib

/-!
# ViewAlyzer recorder: a shallow embedding of `ViewAlyzer.c`

The recorder of `Example-Projects/Nucleo_F446RE/ViewAlyzer/ViewAlyzer.c` is embedded as
pure functions over an explicit recorder state.

* Machine integers are `Nat` (or `Int` for `int32_t`), with an explicit `% 2 ^ w` wherever
  the C code casts or an unsigned counter can wrap.
* Handles (`TaskHandle_t`, `void *`) are `Nat`, `NULL` is `0`.
* A C string (`const char *`) is the list of bytes found at the pointer; the bytes are
  followed by the terminating NUL, so `strlen` stops at the first `0` byte or at the end of
  the list.  A `char name[VA_MAX_TASK_NAME_LEN]` buffer is a list of bytes.
* Whatever the recorder asks the kernel or the hardware (current task, task names, mutex
  holders, the cycle counter) is answered by an environment `Env`.
* `_va_send_bytes` appends the buffer it is given to the field `tx` of the state, one list
  per call that reaches the transport backend.
* Configuration: `VA_ENABLED == 1`, `VA_TRACE_FREERTOS == 1`, `LOG_PENDSV == 0`, DWT present.
  The critical-section macros have no effect on a sequential run and are left out.
-/

namespace ViewAlyzer

/-! ## Constants of `ViewAlyzer.h` -/

def VA_MAX_TASKS : Nat := 32
def VA_MAX_TASK_NAME_LEN : Nat := 16

def VA_EVENT_FLAG_START_END : Nat := 0x80
def VA_EVENT_TASK_SWITCH : Nat := 0x01
def VA_EVENT_ISR : Nat := 0x02
def VA_EVENT_TASK_CREATE : Nat := 0x03
def VA_EVENT_USER_TRACE : Nat := 0x04
def VA_EVENT_TASK_NOTIFY : Nat := 0x05
def VA_EVENT_SEMAPHORE : Nat := 0x06
def VA_EVENT_MUTEX : Nat := 0x07
def VA_EVENT_QUEUE : Nat := 0x08
def VA_EVENT_TASK_STACK_USAGE : Nat := 0x09
def VA_EVENT_USER_TOGGLE : Nat := 0x0A
def VA_EVENT_USER_FUNCTION : Nat := 0x0B
def VA_EVENT_MUTEX_CONTENTION : Nat := 0x0C

def VA_SETUP_TASK_MAP : Nat := 0x70
def VA_SETUP_ISR_MAP : Nat := 0x71
def VA_SETUP_INFO : Nat := 0x7F
def VA_SETUP_USER_TRACE : Nat := 0x72
def VA_SETUP_SEMAPHORE_MAP : Nat := 0x73
def VA_SETUP_MUTEX_MAP : Nat := 0x74
def VA_SETUP_QUEUE_MAP : Nat := 0x75
def VA_SETUP_USER_FUNCTION_MAP : Nat := 0x76
def VA_SETUP_CONFIG_FLAGS : Nat := 0x77

def VA_OBJECT_TYPE_QUEUE : Nat := 0
def VA_OBJECT_TYPE_MUTEX : Nat := 1
def VA_OBJECT_TYPE_COUNTING_SEM : Nat := 2
def VA_OBJECT_TYPE_BINARY_SEM : Nat := 3
def VA_OBJECT_TYPE_RECURSIVE_MUTEX : Nat := 4

def VA_USER_TYPE_ISR : Nat := 8

def VA_ISR_ID_SYSTICK : Nat := 1

/-- The stream sync marker: 'V' 'A' 'Z' 0x01 'S' 'Y' 'N' 'C' '0' '1' 0xAA 0x55. -/
def VA_SYNC_MARKER : List Nat :=
  [0x56, 0x41, 0x5A, 0x01, 0x53, 0x59, 0x4E, 0x43, 0x30, 0x31, 0xAA, 0x55]

/-! ## C strings -/

/-- The characters of a C string: the bytes before the first NUL. -/
def cstr (s : List Nat) : List Nat := s.takeWhile (fun b => b != 0)

/-- The C library `strlen`. -/
def strlen (s : List Nat) : Nat := (cstr s).length

/-- The `n` bytes that `strncpy(dest, src, n)` writes to `dest`: at most `n` characters of
`src`, padded with NUL bytes up to `n`. -/
def strncpy (src : List Nat) (n : Nat) : List Nat :=
  (cstr src).take n ++ List.replicate (n - ((cstr src).take n).length) 0

/-- The content of a `char name[VA_MAX_TASK_NAME_LEN]` buffer after
`strncpy(name, src, VA_MAX_TASK_NAME_LEN - 1); name[VA_MAX_TASK_NAME_LEN - 1] = 0;`. -/
def storeName (src : List Nat) : List Nat :=
  strncpy src (VA_MAX_TASK_NAME_LEN - 1) ++ [0]

/-- The test `strstr(hay, needle) != NULL`: `needle` occurs in `hay` as a substring. -/
def strstr (hay needle : List Nat) : Bool :=
  (cstr hay).tails.any (fun t => (cstr needle).isPrefixOf t)

/-- The string that `snprintf(buf, size, "%s<suffix>", s)` leaves in `buf`: the formatted
text cut to `size - 1` characters. -/
def snprintf_s (size : Nat) (s suffix : List Nat) : List Nat :=
  (cstr s ++ suffix).take (size - 1)

/-- The decimal digits of `n` in ASCII, as `%lu` prints them. -/
def decimalBytes (n : Nat) : List Nat := (Nat.toDigits 10 n).map Char.toNat

/-! ## Recorder state -/

/-- One `VA_TaskMapEntry_t`. -/
structure VA_TaskMapEntry_t where
  handle : Nat
  id : Nat
  name : List Nat
  active : Bool
  last_notifier : Nat
  pxStack : Nat
  pxEndOfStack : Nat
  uxPriority : Nat
  uxBasePriority : Nat
  ulStackDepth : Nat
deriving DecidableEq, Repr

/-- One `VA_UserFunctionMapEntry_t`. -/
structure VA_UserFunctionMapEntry_t where
  id : Nat
  name : List Nat
  active : Bool
deriving DecidableEq, Repr

/-- One `VA_QueueObjectMapEntry_t`; `type` is the numeric `VA_QueueObjectType_t`. -/
structure VA_QueueObjectMapEntry_t where
  handle : Nat
  id : Nat
  name : List Nat
  type : Nat
  active : Bool
deriving DecidableEq, Repr

/-- The globals and function-local statics of `ViewAlyzer.c`, together with two fields of
the model: `nreads`, the number of reads of `DWT->CYCCNT` made so far, and `tx`, the
buffers handed to the transport backend so far. -/
structure State where
  VA_IS_INIT : Bool
  g_dwt_overflow_count : Nat
  last_dwt_value : Nat
  taskMap : List VA_TaskMapEntry_t
  next_task_id : Nat
  _va_cpu_freq : Nat
  notificationValue : Nat
  g_task_pxStack : Nat
  g_task_pxEndOfStack : Nat
  g_task_uxPriority : Nat
  g_task_uxBasePriority : Nat
  g_task_ulStackDepth : Nat
  userFunctionMap : List VA_UserFunctionMapEntry_t
  next_queue_object_id : Nat
  queueObjectMap : List VA_QueueObjectMapEntry_t
  nreads : Nat
  tx : List (List Nat)
deriving DecidableEq, Repr

/-- What the kernel and the hardware answer during one recorder call. -/
structure Env where
  /-- The value seen by the `k`-th read of `DWT->CYCCNT`. -/
  cyccnt : Nat → Nat
  xTaskGetCurrentTaskHandle : Nat
  /-- The result of `pcTaskGetName`; `none` is a NULL pointer. -/
  pcTaskGetName : Nat → Option (List Nat)
  /-- The result of `xQueueGetMutexHolder`; `0` is NULL (no holder). -/
  xQueueGetMutexHolder : Nat → Nat
  /-- The byte `ucQueueType` of the kernel queue structure behind a handle. -/
  ucQueueType : Nat → Nat
  uxTaskGetStackHighWaterMark : Nat → Nat
  INCLUDE_xQueueGetMutexHolder : Bool
  INCLUDE_uxTaskGetStackHighWaterMark : Bool

/-- A zero-initialised task slot (static storage). -/
def emptyTaskEntry : VA_TaskMapEntry_t :=
  { handle := 0, id := 0, name := List.replicate VA_MAX_TASK_NAME_LEN 0, active := false,
    last_notifier := 0, pxStack := 0, pxEndOfStack := 0, uxPriority := 0,
    uxBasePriority := 0, ulStackDepth := 0 }

/-- A zero-initialised user-function slot. -/
def emptyUserFunctionEntry : VA_UserFunctionMapEntry_t :=
  { id := 0, name := List.replicate VA_MAX_TASK_NAME_LEN 0, active := false }

/-- A zero-initialised sync-object slot. -/
def emptyQueueObjectEntry : VA_QueueObjectMapEntry_t :=
  { handle := 0, id := 0, name := List.replicate VA_MAX_TASK_NAME_LEN 0, type := 0,
    active := false }

/-- The state at power-on: the static initialisers of `ViewAlyzer.c`. -/
def powerOn : State :=
  { VA_IS_INIT := false, g_dwt_overflow_count := 0, last_dwt_value := 0,
    taskMap := List.replicate VA_MAX_TASKS emptyTaskEntry, next_task_id := 1,
    _va_cpu_freq := 0, notificationValue := 0, g_task_pxStack := 0,
    g_task_pxEndOfStack := 0, g_task_uxPriority := 0, g_task_uxBasePriority := 0,
    g_task_ulStackDepth := 0,
    userFunctionMap := List.replicate VA_MAX_TASKS emptyUserFunctionEntry,
    next_queue_object_id := 1,
    queueObjectMap := List.replicate VA_MAX_TASKS emptyQueueObjectEntry,
    nreads := 0, tx := [] }

/-! ## Transport and packet encoders -/

/-- The function `_va_send_bytes(data, length)`: nothing before initialisation, otherwise
the first `length` bytes of `data` go to the backend. -/
def _va_send_bytes (s : State) (data : List Nat) (length : Nat) : State :=
  if !s.VA_IS_INIT then s else { s with tx := s.tx ++ [data.take length] }

/-- The eight bytes `(uint8_t)(timestamp >> 0)`, ..., `(uint8_t)(timestamp >> 56)`. -/
def timestampBytes (timestamp : Nat) : List Nat :=
  [(timestamp >>> 0) % 256, (timestamp >>> 8) % 256, (timestamp >>> 16) % 256,
   (timestamp >>> 24) % 256, (timestamp >>> 32) % 256, (timestamp >>> 40) % 256,
   (timestamp >>> 48) % 256, (timestamp >>> 56) % 256]

/-- The function `_va_send_event_packet`. -/
def _va_send_event_packet (s : State) (type_byte id timestamp : Nat) : State :=
  _va_send_bytes s ([type_byte, id] ++ timestampBytes timestamp) 10

/-- The function `_va_send_setup_packet`; `name_len` is `(uint8_t)strlen(name)`, clamped. -/
def _va_send_setup_packet (s : State) (setupCode id : Nat) (name : List Nat) : State :=
  let name_len := strlen name % 256
  let name_len := if name_len ≥ VA_MAX_TASK_NAME_LEN then VA_MAX_TASK_NAME_LEN - 1 else name_len
  let s := _va_send_bytes s [setupCode, id, name_len] 3
  _va_send_bytes s name name_len

/-- The function `_va_send_user_setup_packet`. -/
def _va_send_user_setup_packet (s : State) (id type : Nat) (name : List Nat) : State :=
  let name_len := strlen name % 256
  let name_len := if name_len ≥ VA_MAX_TASK_NAME_LEN then VA_MAX_TASK_NAME_LEN - 1 else name_len
  let s := _va_send_bytes s [VA_SETUP_USER_TRACE, id, type, name_len] 4
  _va_send_bytes s name name_len

/-- The four bytes `(uint8_t)(value >> 0)`, ..., `(uint8_t)(value >> 24)` of an `int32_t`;
the shift of a negative value is arithmetic. -/
def int32Bytes (value : Int) : List Nat :=
  [((value >>> (0 : Nat)) % 256).toNat, ((value >>> (8 : Nat)) % 256).toNat,
   ((value >>> (16 : Nat)) % 256).toNat, ((value >>> (24 : Nat)) % 256).toNat]

/-- The four bytes `(uint8_t)(value >> 0)`, ..., `(uint8_t)(value >> 24)` of a `uint32_t`. -/
def uint32Bytes (value : Nat) : List Nat :=
  [(value >>> 0) % 256, (value >>> 8) % 256, (value >>> 16) % 256, (value >>> 24) % 256]

/-- The function `_va_send_user_event_packet`. -/
def _va_send_user_event_packet (s : State) (id : Nat) (value : Int) (timestamp : Nat) : State :=
  _va_send_bytes s ([VA_EVENT_USER_TRACE, id] ++ timestampBytes timestamp ++ int32Bytes value) 14

/-- The function `_va_send_user_toggle_event_packet`. -/
def _va_send_user_toggle_event_packet (s : State) (id state timestamp : Nat) : State :=
  _va_send_bytes s ([VA_EVENT_USER_TOGGLE, id] ++ timestampBytes timestamp ++ [state % 256]) 11

/-- The function `_va_send_notification_event_packet`. -/
def _va_send_notification_event_packet (s : State) (type_byte id other_id value timestamp : Nat) :
    State :=
  _va_send_bytes s ([type_byte, id, other_id] ++ timestampBytes timestamp ++ uint32Bytes value) 15

/-- The function `_va_send_mutex_contention_packet`. -/
def _va_send_mutex_contention_packet (s : State)
    (mutex_id waiting_task_id holder_task_id timestamp : Nat) : State :=
  _va_send_bytes s
    ([VA_EVENT_MUTEX_CONTENTION, mutex_id, waiting_task_id, holder_task_id] ++
      timestampBytes timestamp) 12

/-- The function `_va_send_task_create_packet`. -/
def _va_send_task_create_packet (s : State)
    (id timestamp priority base_priority stack_size : Nat) : State :=
  _va_send_bytes s
    ([VA_EVENT_TASK_CREATE, id] ++ timestampBytes timestamp ++ uint32Bytes priority ++
      uint32Bytes base_priority ++ uint32Bytes stack_size) 22

/-- The function `_va_send_stack_usage_packet`. -/
def _va_send_stack_usage_packet (s : State) (id timestamp stack_used stack_total : Nat) : State :=
  _va_send_bytes s
    ([VA_EVENT_TASK_STACK_USAGE, id] ++ timestampBytes timestamp ++ uint32Bytes stack_used ++
      uint32Bytes stack_total) 18

/-! ## Timestamp source -/

/-- One read of the 32-bit register `DWT->CYCCNT`. -/
def readCYCCNT (e : Env) (k : Nat) : Nat := e.cyccnt k % 2 ^ 32

/-- The function `_va_get_timestamp`: the returned 64-bit value and the state after the
call.  The call reads `DWT->CYCCNT` twice. -/
def _va_get_timestamp (e : Env) (s : State) : Nat × State :=
  let current_dwt := readCYCCNT e s.nreads
  let overflow :=
    if current_dwt < s.last_dwt_value then (s.g_dwt_overflow_count + 1) % 2 ^ 32
    else s.g_dwt_overflow_count
  let high_part := overflow
  let low_part := current_dwt
  let temp_low := readCYCCNT e (s.nreads + 1)
  let high_part := if temp_low < low_part then overflow else high_part
  let low_part := if temp_low < low_part then temp_low else low_part
  (((high_part <<< 32) % 2 ^ 64) ||| low_part,
   { s with g_dwt_overflow_count := overflow, last_dwt_value := current_dwt,
            nreads := s.nreads + 2 })

/-! ## String literals of `ViewAlyzer.c`, as ASCII bytes -/

/-- The literal "Queue". -/
def str_Queue : List Nat := [81, 117, 101, 117, 101]
/-- The literal "Mutex". -/
def str_Mutex : List Nat := [77, 117, 116, 101, 120]
/-- The literal "CountingSem". -/
def str_CountingSem : List Nat := [67, 111, 117, 110, 116, 105, 110, 103, 83, 101, 109]
/-- The literal "BinarySem". -/
def str_BinarySem : List Nat := [66, 105, 110, 97, 114, 121, 83, 101, 109]
/-- The literal "RecursiveMutex". -/
def str_RecursiveMutex : List Nat :=
  [82, 101, 99, 117, 114, 115, 105, 118, 101, 77, 117, 116, 101, 120]
/-- The literal "Unknown". -/
def str_Unknown : List Nat := [85, 110, 107, 110, 111, 119, 110]
/-- The literal "RecMutex". -/
def str_RecMutex : List Nat := [82, 101, 99, 77, 117, 116, 101, 120]
/-- The literal "CountSem". -/
def str_CountSem : List Nat := [67, 111, 117, 110, 116, 83, 101, 109]
/-- The literal "BinSem". -/
def str_BinSem : List Nat := [66, 105, 110, 83, 101, 109]
/-- The literal "???". -/
def str_unnamed : List Nat := [63, 63, 63]
/-- The literal "SysTick". -/
def str_SysTick : List Nat := [83, 121, 115, 84, 105, 99, 107]
/-- The literal "CLK:". -/
def str_CLK : List Nat := [67, 76, 75, 58]

/-! ## Task table -/

/-- The scan `for (i = 0; i < VA_MAX_TASKS; ++i) if (p(table[i])) { slot = i; break; }`:
the first index whose entry satisfies `p`, `none` for `-1`. -/
def firstIndex {α : Type} (p : α → Bool) : List α → Option Nat
  | [] => none
  | x :: xs => if p x then some 0 else (firstIndex p xs).map (fun i => i + 1)

/-- The function `_va_find_task_id`. -/
def _va_find_task_id (s : State) (handle : Nat) : Nat :=
  match s.taskMap.find? (fun t => t.active && t.handle == handle) with
  | some t => t.id
  | none => 0

/-- The function `_va_find_task_index`; `none` is `-1`. -/
def _va_find_task_index (s : State) (handle : Nat) : Option Nat :=
  firstIndex (fun t => t.active && t.handle == handle) s.taskMap

/-- The function `_va_assign_task_id`; `name = none` is a NULL pointer.  Returns the
assigned ID (0 on failure) and the state after the call. -/
def _va_assign_task_id (s : State) (handle : Nat) (name : Option (List Nat)) : Nat × State :=
  match name with
  | none => (0, s)
  | some name =>
    if handle == 0 then (0, s) else
    match firstIndex (fun t => !t.active) s.taskMap with
    | none => (0, s)
    | some empty_slot =>
      if s.next_task_id == 0 then (0, s) else
      let new_id := s.next_task_id
      let entry : VA_TaskMapEntry_t :=
        { handle := handle, id := new_id, name := storeName name, active := true,
          last_notifier := 0, pxStack := s.g_task_pxStack,
          pxEndOfStack := s.g_task_pxEndOfStack, uxPriority := s.g_task_uxPriority,
          uxBasePriority := s.g_task_uxBasePriority, ulStackDepth := s.g_task_ulStackDepth }
      let s := { s with next_task_id := (s.next_task_id + 1) % 256,
                        taskMap := s.taskMap.set empty_slot entry }
      (new_id, _va_send_setup_packet s VA_SETUP_TASK_MAP new_id entry.name)

/-- The hook `VA_TaskCreated`. -/
def VA_TaskCreated (e : Env) (s : State) (pxCreatedTask : Nat) : State :=
  let name := e.pcTaskGetName pxCreatedTask
  let r := _va_assign_task_id s pxCreatedTask (some (name.getD str_unnamed))
  let assigned_id := r.1
  let s := r.2
  if assigned_id > 0 then
    let t := _va_get_timestamp e s
    _va_send_task_create_packet t.2 assigned_id t.1 s.g_task_uxPriority
      s.g_task_uxBasePriority s.g_task_ulStackDepth
  else s

/-! ## Sync-object table -/

/-- The function `_va_get_queue_object_type`: the kind read from the kernel structure. -/
def _va_get_queue_object_type (e : Env) (handle : Nat) : Nat :=
  if handle == 0 then VA_OBJECT_TYPE_QUEUE else e.ucQueueType handle % 256

/-- The function `_va_get_object_type_name`. -/
def _va_get_object_type_name (type : Nat) : List Nat :=
  if type == VA_OBJECT_TYPE_QUEUE then str_Queue
  else if type == VA_OBJECT_TYPE_MUTEX then str_Mutex
  else if type == VA_OBJECT_TYPE_COUNTING_SEM then str_CountingSem
  else if type == VA_OBJECT_TYPE_BINARY_SEM then str_BinarySem
  else if type == VA_OBJECT_TYPE_RECURSIVE_MUTEX then str_RecursiveMutex
  else str_Unknown

/-- The function `_va_get_setup_packet_type`. -/
def _va_get_setup_packet_type (type : Nat) : Nat :=
  if type == VA_OBJECT_TYPE_QUEUE then VA_SETUP_QUEUE_MAP
  else if type == VA_OBJECT_TYPE_MUTEX || type == VA_OBJECT_TYPE_RECURSIVE_MUTEX then
    VA_SETUP_MUTEX_MAP
  else if type == VA_OBJECT_TYPE_COUNTING_SEM || type == VA_OBJECT_TYPE_BINARY_SEM then
    VA_SETUP_SEMAPHORE_MAP
  else VA_SETUP_QUEUE_MAP

/-- The function `_va_find_queue_object_id`. -/
def _va_find_queue_object_id (s : State) (handle : Nat) : Nat :=
  match s.queueObjectMap.find? (fun q => q.active && q.handle == handle) with
  | some q => q.id
  | none => 0

/-- The function `_va_get_stored_queue_object_type`: the kind stored in the table, with the
kernel structure as fallback. -/
def _va_get_stored_queue_object_type (e : Env) (s : State) (handle : Nat) : Nat :=
  match s.queueObjectMap.find? (fun q => q.active && q.handle == handle) with
  | some q => q.type
  | none => _va_get_queue_object_type e handle

/-- The function `_va_assign_queue_object_id`; `name = none` is a NULL pointer. -/
def _va_assign_queue_object_id (s : State) (handle : Nat) (name : Option (List Nat))
    (type : Nat) : Nat × State :=
  if handle == 0 then (0, s) else
  match firstIndex (fun q => !q.active) s.queueObjectMap with
  | none => (0, s)
  | some empty_slot =>
    if s.next_queue_object_id == 0 then (0, s) else
    let new_id := s.next_queue_object_id
    let stored :=
      match name with
      | some n => if strlen n > 0 then storeName n else storeName (_va_get_object_type_name type)
      | none => storeName (_va_get_object_type_name type)
    let entry : VA_QueueObjectMapEntry_t :=
      { handle := handle, id := new_id, name := stored, type := type, active := true }
    let s := { s with next_queue_object_id := (s.next_queue_object_id + 1) % 256,
                      queueObjectMap := s.queueObjectMap.set empty_slot entry }
    (new_id, _va_send_setup_packet s (_va_get_setup_packet_type type) new_id entry.name)

/-- The kind that `VA_UpdateQueueObjectType` reads off the hint text. -/
def typeOfHint (typeHint : Option (List Nat)) : Nat :=
  match typeHint with
  | none => VA_OBJECT_TYPE_QUEUE
  | some h =>
    if strstr h str_RecMutex || strstr h str_RecursiveMutex then VA_OBJECT_TYPE_RECURSIVE_MUTEX
    else if strstr h str_Mutex then VA_OBJECT_TYPE_MUTEX
    else if strstr h str_CountSem || strstr h str_CountingSem then VA_OBJECT_TYPE_COUNTING_SEM
    else if strstr h str_BinSem || strstr h str_BinarySem then VA_OBJECT_TYPE_BINARY_SEM
    else VA_OBJECT_TYPE_QUEUE

/-- The hook `VA_UpdateQueueObjectType`; `typeHint = none` is a NULL pointer.  The result is
`none` where the C code passes a NULL `finalName` to `strncpy` (undefined behaviour): a NULL
hint for a handle that is in the table. -/
def VA_UpdateQueueObjectType (s : State) (queueObject : Nat) (typeHint : Option (List Nat)) :
    Option State :=
  if queueObject == 0 then some s else
  match firstIndex (fun q => q.active && q.handle == queueObject) s.queueObjectMap with
  | none => some s
  | some idx =>
    let type := typeOfHint typeHint
    match typeHint with
    | none => none
    | some hint =>
      let finalName :=
        if strlen hint > 0 then
          if type == VA_OBJECT_TYPE_MUTEX then
            if !strstr hint str_Mutex then
              snprintf_s VA_MAX_TASK_NAME_LEN hint ([95] ++ str_Mutex)
            else hint
          else if type == VA_OBJECT_TYPE_RECURSIVE_MUTEX then
            snprintf_s VA_MAX_TASK_NAME_LEN hint ([95] ++ str_RecMutex)
          else hint
        else hint
      match s.queueObjectMap[idx]? with
      | none => some s
      | some old =>
        let entry := { old with type := type, name := storeName finalName }
        let s := { s with queueObjectMap := s.queueObjectMap.set idx entry }
        some (_va_send_setup_packet s (_va_get_setup_packet_type type) entry.id entry.name)

/-- The hook `VA_LogQueueObjectCreateWithType`; `typeHint = none` is a NULL pointer. -/
def VA_LogQueueObjectCreateWithType (e : Env) (s : State) (queueObject : Nat)
    (typeHint : Option (List Nat)) : State :=
  if queueObject == 0 then s else
  let type := _va_get_queue_object_type e queueObject
  let finalName : Option (List Nat) :=
    match typeHint with
    | none => none
    | some hint =>
      if strlen hint > 0 then
        if type == VA_OBJECT_TYPE_QUEUE then
          if !strstr hint str_Queue then
            some (snprintf_s VA_MAX_TASK_NAME_LEN hint ([95] ++ str_Queue))
          else some hint
        else if type == VA_OBJECT_TYPE_MUTEX then
          if !strstr hint str_Mutex then
            some (snprintf_s VA_MAX_TASK_NAME_LEN hint ([95] ++ str_Mutex))
          else some hint
        else if type == VA_OBJECT_TYPE_RECURSIVE_MUTEX then
          some (snprintf_s VA_MAX_TASK_NAME_LEN hint ([95] ++ str_RecMutex))
        else if type == VA_OBJECT_TYPE_COUNTING_SEM then
          some (snprintf_s VA_MAX_TASK_NAME_LEN hint ([95] ++ str_CountSem))
        else if type == VA_OBJECT_TYPE_BINARY_SEM then
          some (snprintf_s VA_MAX_TASK_NAME_LEN hint ([95] ++ str_BinSem))
        else some hint
      else some hint
  (_va_assign_queue_object_id s queueObject finalName type).2

/-- The hook `VA_LogQueueObjectCreate`. -/
def VA_LogQueueObjectCreate (e : Env) (s : State) (queueObject : Nat)
    (name : Option (List Nat)) : State :=
  VA_LogQueueObjectCreateWithType e s queueObject name

/-- The event code that `VA_LogQueueObjectGive` and `VA_LogQueueObjectTake` choose for a
stored kind (their `switch`). -/
def eventTypeOfKind (type : Nat) : Nat :=
  if type == VA_OBJECT_TYPE_MUTEX || type == VA_OBJECT_TYPE_RECURSIVE_MUTEX then VA_EVENT_MUTEX
  else if type == VA_OBJECT_TYPE_COUNTING_SEM || type == VA_OBJECT_TYPE_BINARY_SEM then
    VA_EVENT_SEMAPHORE
  else VA_EVENT_QUEUE

/-- The lookup with lazy registration at the head of the give, take and blocking hooks:
`id = _va_find_queue_object_id(h); if (id == 0) id = _va_assign_queue_object_id(h, NULL, type);`. -/
def findOrAssignQueueObject (e : Env) (s : State) (queueObject : Nat) : Nat × State :=
  let id := _va_find_queue_object_id s queueObject
  if id == 0 then
    _va_assign_queue_object_id s queueObject none (_va_get_queue_object_type e queueObject)
  else (id, s)

/-- The hook `VA_LogQueueObjectGive`. -/
def VA_LogQueueObjectGive (e : Env) (s : State) (queueObject : Nat) (_timeout : Nat) : State :=
  if queueObject == 0 then s else
  let r := findOrAssignQueueObject e s queueObject
  let id := r.1
  let s := r.2
  let type := _va_get_stored_queue_object_type e s queueObject
  let event_type := eventTypeOfKind type
  let t := _va_get_timestamp e s
  _va_send_event_packet t.2 (VA_EVENT_FLAG_START_END ||| event_type) id t.1

/-- The hook `VA_LogQueueObjectTake`. -/
def VA_LogQueueObjectTake (e : Env) (s : State) (queueObject : Nat) (_timeout : Nat) : State :=
  if queueObject == 0 then s else
  let r := findOrAssignQueueObject e s queueObject
  let id := r.1
  let s := r.2
  let type := _va_get_stored_queue_object_type e s queueObject
  let event_type := eventTypeOfKind type
  let t := _va_get_timestamp e s
  _va_send_event_packet t.2 event_type id t.1

/-- The hook `VA_LogQueueObjectBlocking` (the contention detector). -/
def VA_LogQueueObjectBlocking (e : Env) (s : State) (queueObject : Nat) : State :=
  if queueObject == 0 then s else
  let r := findOrAssignQueueObject e s queueObject
  let id := r.1
  let s := r.2
  let type := _va_get_stored_queue_object_type e s queueObject
  if type == VA_OBJECT_TYPE_MUTEX || type == VA_OBJECT_TYPE_RECURSIVE_MUTEX then
    if e.INCLUDE_xQueueGetMutexHolder then
      let holder := e.xQueueGetMutexHolder queueObject
      if holder != 0 then
        let current := e.xTaskGetCurrentTaskHandle
        if holder != current then
          let holder_id := _va_find_task_id s holder
          let waiter_id := _va_find_task_id s current
          if holder_id != 0 && waiter_id != 0 then
            let t := _va_get_timestamp e s
            _va_send_mutex_contention_packet t.2 id waiter_id holder_id t.1
          else s
        else s
      else s
    else s
  else s

/-! ## Task switch, ISR, user-trace and notification hooks -/

/-- The function `_va_calculate_stack_usage`; the subtraction is on `uint32_t`. -/
def _va_calculate_stack_usage (e : Env) (s : State) (handle : Nat) : Nat :=
  if e.INCLUDE_uxTaskGetStackHighWaterMark then
    let free_stack_words := e.uxTaskGetStackHighWaterMark handle % 2 ^ 32
    match _va_find_task_index s handle with
    | some idx =>
      match s.taskMap[idx]? with
      | some t =>
        if t.ulStackDepth > 0 then (t.ulStackDepth + 2 ^ 32 - free_stack_words) % 2 ^ 32
        else free_stack_words
      | none => free_stack_words
    | none => free_stack_words
  else 0

/-- The function `_va_get_total_stack_size`. -/
def _va_get_total_stack_size (s : State) (handle : Nat) : Nat :=
  match _va_find_task_index s handle with
  | some idx =>
    match s.taskMap[idx]? with
    | some t => t.ulStackDepth
    | none => 0
  | none => 0

/-- The common body of `VA_TaskSwitchedIn` and `VA_TaskSwitchedOut`: the event packet with
the given type byte, then the stack-usage packet if the task is known and has a depth. -/
def taskSwitched (e : Env) (s : State) (type_byte : Nat) : State :=
  let handle := e.xTaskGetCurrentTaskHandle
  let id := _va_find_task_id s handle
  let t := _va_get_timestamp e s
  let s := _va_send_event_packet t.2 type_byte id t.1
  if id != 0 then
    let stack_used := _va_calculate_stack_usage e s handle
    let stack_total := _va_get_total_stack_size s handle
    if stack_total > 0 then
      let t := _va_get_timestamp e s
      _va_send_stack_usage_packet t.2 id t.1 stack_used stack_total
    else s
  else s

/-- The hook `VA_TaskSwitchedIn`. -/
def VA_TaskSwitchedIn (e : Env) (s : State) : State :=
  taskSwitched e s (VA_EVENT_FLAG_START_END ||| VA_EVENT_TASK_SWITCH)

/-- The hook `VA_TaskSwitchedOut`. -/
def VA_TaskSwitchedOut (e : Env) (s : State) : State :=
  taskSwitched e s VA_EVENT_TASK_SWITCH

/-- The hook `VA_LogISRStart`. -/
def VA_LogISRStart (e : Env) (s : State) (isrId : Nat) : State :=
  if !s.VA_IS_INIT then s else
  let t := _va_get_timestamp e s
  _va_send_event_packet t.2 (VA_EVENT_FLAG_START_END ||| VA_EVENT_ISR) isrId t.1

/-- The hook `VA_LogISREnd`. -/
def VA_LogISREnd (e : Env) (s : State) (isrId : Nat) : State :=
  if !s.VA_IS_INIT then s else
  let t := _va_get_timestamp e s
  _va_send_event_packet t.2 VA_EVENT_ISR isrId t.1

/-- The hook `VA_RegisterUserTrace`; `name = none` is a NULL pointer, `type` is the numeric
`VA_UserTraceType_t`. -/
def VA_RegisterUserTrace (s : State) (id : Nat) (name : Option (List Nat)) (type : Nat) :
    State :=
  match name with
  | none => s
  | some name =>
    if id == 0 then s
    else if type == VA_USER_TYPE_ISR then _va_send_setup_packet s VA_SETUP_ISR_MAP id name
    else _va_send_user_setup_packet s id (type % 256) name

/-- The hook `VA_LogUserTrace`. -/
def VA_LogUserTrace (e : Env) (s : State) (id : Nat) (value : Int) : State :=
  let t := _va_get_timestamp e s
  _va_send_user_event_packet t.2 id value t.1

/-- The hook `VA_LogUserToggleEvent`; the `bool` state converts to 0 or 1. -/
def VA_LogUserToggleEvent (e : Env) (s : State) (id : Nat) (state : Bool) : State :=
  let t := _va_get_timestamp e s
  _va_send_user_toggle_event_packet t.2 id (if state then 1 else 0) t.1

/-- The hook `VA_LogTaskNotifyGive`. -/
def VA_LogTaskNotifyGive (e : Env) (s : State) (dest value : Nat) : State :=
  let src := e.xTaskGetCurrentTaskHandle
  let src_id := _va_find_task_id s src
  let dest_id := _va_find_task_id s dest
  let s :=
    match _va_find_task_index s dest with
    | some idx =>
      match s.taskMap[idx]? with
      | some t => { s with taskMap := s.taskMap.set idx { t with last_notifier := src } }
      | none => s
    | none => s
  let t := _va_get_timestamp e s
  _va_send_notification_event_packet t.2 (VA_EVENT_FLAG_START_END ||| VA_EVENT_TASK_NOTIFY)
    src_id dest_id value t.1

/-- The hook `VA_LogTaskNotifyTake`. -/
def VA_LogTaskNotifyTake (e : Env) (s : State) (value : Nat) : State :=
  let dest := e.xTaskGetCurrentTaskHandle
  let dest_id := _va_find_task_id s dest
  let r : Nat × State :=
    match _va_find_task_index s dest with
    | some idx =>
      match s.taskMap[idx]? with
      | some t =>
        (t.last_notifier, { s with taskMap := s.taskMap.set idx { t with last_notifier := 0 } })
      | none => (0, s)
    | none => (0, s)
  let src := r.1
  let s := r.2
  let src_id := _va_find_task_id s src
  let t := _va_get_timestamp e s
  _va_send_notification_event_packet t.2 VA_EVENT_TASK_NOTIFY dest_id src_id value t.1

/-! ## User-function table -/

/-- The function `_va_find_user_function_id`. -/
def _va_find_user_function_id (s : State) (function_id : Nat) : Nat :=
  match s.userFunctionMap.find? (fun u => u.active && u.id == function_id) with
  | some u => u.id
  | none => 0

/-- The function `_va_assign_user_function_id`; `name = none` is a NULL pointer. -/
def _va_assign_user_function_id (s : State) (function_id : Nat) (name : Option (List Nat)) :
    Nat × State :=
  match name with
  | none => (0, s)
  | some name =>
    if function_id == 0 then (0, s)
    else if _va_find_user_function_id s function_id != 0 then (function_id, s)
    else
      match firstIndex (fun u => !u.active) s.userFunctionMap with
      | none => (0, s)
      | some empty_slot =>
        let entry : VA_UserFunctionMapEntry_t :=
          { id := function_id, name := storeName name, active := true }
        let s := { s with userFunctionMap := s.userFunctionMap.set empty_slot entry }
        (function_id, _va_send_setup_packet s VA_SETUP_USER_FUNCTION_MAP function_id entry.name)

/-- The hook `VA_RegisterUserFunction`. -/
def VA_RegisterUserFunction (s : State) (id : Nat) (name : Option (List Nat)) : State :=
  match name with
  | none => s
  | some name => if id == 0 then s else (_va_assign_user_function_id s id (some name)).2

/-- The hook `VA_LogUserEvent`; `state = false` is `USER_EVENT_START`. -/
def VA_LogUserEvent (e : Env) (s : State) (id : Nat) (state : Bool) : State :=
  if id == 0 then s else
  let event_flags :=
    if state == false then VA_EVENT_FLAG_START_END ||| VA_EVENT_USER_FUNCTION
    else VA_EVENT_USER_FUNCTION
  let t := _va_get_timestamp e s
  _va_send_event_packet t.2 event_flags id t.1

/-! ## Initialisation -/

/-- The hook `VA_Init`.  `_va_enable_dwt_counter` and the ITM/RTT set-up only touch hardware
registers; the counter values read afterwards come from the environment. -/
def VA_Init (s : State) (cpu_freq : Nat) : State :=
  let s := { s with _va_cpu_freq := cpu_freq }
  let s := { s with
    taskMap := s.taskMap.map (fun (t : VA_TaskMapEntry_t) =>
      { t with active := false, handle := 0, id := 0, last_notifier := 0 }),
    next_task_id := 1, notificationValue := 0 }
  let s := { s with
    userFunctionMap := s.userFunctionMap.map (fun (u : VA_UserFunctionMapEntry_t) =>
      { u with active := false, id := 0, name := u.name.set 0 0 }) }
  let s := { s with VA_IS_INIT := true }
  let s := _va_send_bytes s VA_SYNC_MARKER 12
  let info_buf := (str_CLK ++ decimalBytes s._va_cpu_freq).take 39
  let s := _va_send_setup_packet s VA_SETUP_INFO 0 info_buf
  _va_send_setup_packet s VA_SETUP_ISR_MAP VA_ISR_ID_SYSTICK str_SysTick

/-! ## Sequences of calls -/

/-- The values returned by `n` successive calls of `_va_get_timestamp`. -/
def timestampSeq (e : Env) : State → Nat → List Nat
  | _, 0 => []
  | s, n + 1 => (_va_get_timestamp e s).1 :: timestampSeq e (_va_get_timestamp e s).2 n

/-- The state after `n` successive calls of `_va_get_timestamp`. -/
def timestampState (e : Env) : State → Nat → State
  | s, 0 => s
  | s, n + 1 => timestampState e (_va_get_timestamp e s).2 n

/-- Successive `VA_TaskCreated` calls, one per handle of the list. -/
def createTasks (e : Env) (s : State) (handles : List Nat) : State :=
  handles.foldl (VA_TaskCreated e) s

/-! ## Definitions used to state the properties -/

/-- The value of a little-endian byte sequence. -/
def leValue : List Nat → Nat
  | [] => 0
  | b :: bs => b + 256 * leValue bs

/-- The 32-bit two's-complement representation of a signed value. -/
def twosComplement32 (value : Int) : Nat := (value % 2 ^ 32).toNat

/-- The entry that `_va_assign_task_id` writes into the free slot. -/
def newTaskEntry (s : State) (handle : Nat) (name : List Nat) : VA_TaskMapEntry_t :=
  { handle := handle, id := s.next_task_id, name := storeName name, active := true,
    last_notifier := 0, pxStack := s.g_task_pxStack, pxEndOfStack := s.g_task_pxEndOfStack,
    uxPriority := s.g_task_uxPriority, uxBasePriority := s.g_task_uxBasePriority,
    ulStackDepth := s.g_task_ulStackDepth }

/-- Counter reads around a wrap: the second call reads `0xFFFFFFFE` and then, after the
counter has wrapped, `0x00000003`. -/
def wrapBetweenReads : Env :=
  { cyccnt := fun k => [0xFFFFFFF0, 0xFFFFFFF5, 0xFFFFFFFE, 0x00000003, 0x00000010, 0x00000015].getD k 0,
    xTaskGetCurrentTaskHandle := 0, pcTaskGetName := fun _ => none,
    xQueueGetMutexHolder := fun _ => 0, ucQueueType := fun _ => 0,
    uxTaskGetStackHighWaterMark := fun _ => 0, INCLUDE_xQueueGetMutexHolder := true,
    INCLUDE_uxTaskGetStackHighWaterMark := true }


/-- A sample environment: task `0x102` is running, every mutex is held by task `0x101`,
every task is named "T", kernel objects are plain queues, and the cycle counter advances by
ten between reads. -/
def demoEnv : Env :=
  { cyccnt := fun k => 1000 + 10 * k, xTaskGetCurrentTaskHandle := 0x102,
    pcTaskGetName := fun _ => some [84], xQueueGetMutexHolder := fun _ => 0x101,
    ucQueueType := fun _ => 0, uxTaskGetStackHighWaterMark := fun _ => 0,
    INCLUDE_xQueueGetMutexHolder := true, INCLUDE_uxTaskGetStackHighWaterMark := true }

/-- The environment `demoEnv` with the running task `0x101`, the holder of every mutex. -/
def demoSelfBlockEnv : Env := { demoEnv with xTaskGetCurrentTaskHandle := 0x101 }

/-- A sample state: initialised, tasks `0x101` and `0x102` registered, and the sync object
`0x500` registered as a queue. -/
def demoState : State :=
  VA_LogQueueObjectCreateWithType demoEnv
    (createTasks demoEnv (VA_Init powerOn 168000000) [0x101, 0x102]) 0x500 (some str_Queue)

/-- The sample state after the kind of `0x500` has been revised to mutex. -/
def demoMutexState : State :=
  (VA_UpdateQueueObjectType demoState 0x500 (some str_Mutex)).getD demoState

/-- A 20-character task name, "ABCDEFGHIJKLMNOPQRST". -/
def demoLongName : List Nat :=
  [65, 66, 67, 68, 69, 70, 71, 72, 73, 74, 75, 76, 77, 78, 79, 80, 81, 82, 83, 84]

/-- The notifier recorded for a task: the `last_notifier` field of the first active table
entry with that handle, NULL when there is none. -/
def lastNotifier (s : State) (handle : Nat) : Nat :=
  match s.taskMap.find? (fun t => t.active && t.handle == handle) with
  | some t => t.last_notifier
  | none => 0

/-- The number of positions of a byte stream at which the pattern occurs. -/
def countOccurrences (pat bytes : List Nat) : Nat :=
  bytes.tails.countP (fun t => pat.isPrefixOf t)

/-- The `name_len` byte that `_va_send_setup_packet` and `_va_send_user_setup_packet`
compute for a name: `(uint8_t)strlen(name)`, replaced by `VA_MAX_TASK_NAME_LEN - 1` when it
is `VA_MAX_TASK_NAME_LEN` or more. -/
def nameLenByte (name : List Nat) : Nat :=
  if strlen name % 256 ≥ VA_MAX_TASK_NAME_LEN then VA_MAX_TASK_NAME_LEN - 1
  else strlen name % 256

/-- The display name that `VA_UpdateQueueObjectType` derives from a non-NULL hint (its
`finalName`). -/
def revisedName (hint : List Nat) : List Nat :=
  if strlen hint > 0 then
    if typeOfHint (some hint) == VA_OBJECT_TYPE_MUTEX then
      if !strstr hint str_Mutex then snprintf_s VA_MAX_TASK_NAME_LEN hint ([95] ++ str_Mutex)
      else hint
    else if typeOfHint (some hint) == VA_OBJECT_TYPE_RECURSIVE_MUTEX then
      snprintf_s VA_MAX_TASK_NAME_LEN hint ([95] ++ str_RecMutex)
    else hint
  else hint

/-- The sample state after task `0x102` has notified task `0x101` with value 7. -/
def demoNotifiedState : State := VA_LogTaskNotifyGive demoEnv demoMutexState 0x101 7

/-- A name of 256 characters 'A'. -/
def demoName256 : List Nat := List.replicate 256 65

/-! ## Legacy API and sequences of entry-point calls -/

/-- The hook `VA_TrackDWTOverflow` (left intentionally empty in the source). -/
def VA_TrackDWTOverflow (s : State) : State := s

/-- The function `VA_IsInit`. -/
def VA_IsInit (s : State) : Bool := s.VA_IS_INIT

/-- The legacy hook `VA_LogSemaphoreGive`. -/
def VA_LogSemaphoreGive (e : Env) (s : State) (semaphore : Nat) : State :=
  VA_LogQueueObjectGive e s semaphore 0

/-- The legacy hook `VA_LogSemaphoreTake`. -/
def VA_LogSemaphoreTake (e : Env) (s : State) (semaphore timeout : Nat) : State :=
  VA_LogQueueObjectTake e s semaphore timeout

/-- The legacy hook `VA_LogSemaphoreCreate`. -/
def VA_LogSemaphoreCreate (e : Env) (s : State) (semaphore : Nat) (name : Option (List Nat)) :
    State :=
  VA_LogQueueObjectCreate e s semaphore name

/-- The legacy hook `VA_LogMutexAcquire`. -/
def VA_LogMutexAcquire (e : Env) (s : State) (mutex timeout : Nat) : State :=
  VA_LogQueueObjectTake e s mutex timeout

/-- The legacy hook `VA_LogMutexRelease`. -/
def VA_LogMutexRelease (e : Env) (s : State) (mutex : Nat) : State :=
  VA_LogQueueObjectGive e s mutex 0

/-- The legacy hook `VA_LogMutexCreate`. -/
def VA_LogMutexCreate (e : Env) (s : State) (mutex : Nat) (name : Option (List Nat)) : State :=
  VA_LogQueueObjectCreate e s mutex name

/-- The legacy hook `VA_LogQueueSend`. -/
def VA_LogQueueSend (e : Env) (s : State) (queue timeout : Nat) : State :=
  VA_LogQueueObjectGive e s queue timeout

/-- The legacy hook `VA_LogQueueReceive`. -/
def VA_LogQueueReceive (e : Env) (s : State) (queue timeout : Nat) : State :=
  VA_LogQueueObjectTake e s queue timeout

/-- The legacy hook `VA_LogQueueCreate`. -/
def VA_LogQueueCreate (e : Env) (s : State) (queue : Nat) (name : Option (List Nat)) : State :=
  VA_LogQueueObjectCreate e s queue name

/-- One call of a public entry point of `ViewAlyzer.h`, with its arguments. -/
inductive Call where
  | init (cpu_freq : Nat)
  | logISRStart (isrId : Nat)
  | logISREnd (isrId : Nat)
  | taskSwitchedIn
  | taskSwitchedOut
  | taskCreated (pxCreatedTask : Nat)
  | trackDWTOverflow
  | isInit
  | registerUserTrace (id : Nat) (name : Option (List Nat)) (type : Nat)
  | logUserTrace (id : Nat) (value : Int)
  | logUserToggleEvent (id : Nat) (state : Bool)
  | registerUserFunction (id : Nat) (name : Option (List Nat))
  | logUserEvent (id : Nat) (state : Bool)
  | logTaskNotifyGive (destTask value : Nat)
  | logTaskNotifyTake (value : Nat)
  | logQueueObjectCreate (queueObject : Nat) (name : Option (List Nat))
  | logQueueObjectCreateWithType (queueObject : Nat) (typeHint : Option (List Nat))
  | updateQueueObjectType (queueObject : Nat) (typeHint : Option (List Nat))
  | logQueueObjectGive (queueObject timeout : Nat)
  | logQueueObjectTake (queueObject timeout : Nat)
  | logQueueObjectBlocking (queueObject : Nat)
  | logSemaphoreGive (semaphore : Nat)
  | logSemaphoreTake (semaphore timeout : Nat)
  | logSemaphoreCreate (semaphore : Nat) (name : Option (List Nat))
  | logMutexAcquire (mutex timeout : Nat)
  | logMutexRelease (mutex : Nat)
  | logMutexCreate (mutex : Nat) (name : Option (List Nat))
  | logQueueSend (queue timeout : Nat)
  | logQueueReceive (queue timeout : Nat)
  | logQueueCreate (queue : Nat) (name : Option (List Nat))

/-- The state after one entry-point call; `none` where the call has undefined behaviour
(see `VA_UpdateQueueObjectType`).  `VA_IsInit` only reads the flag. -/
def runCall (e : Env) (s : State) : Call → Option State
  | .init cpu_freq => some (VA_Init s cpu_freq)
  | .logISRStart isrId => some (VA_LogISRStart e s isrId)
  | .logISREnd isrId => some (VA_LogISREnd e s isrId)
  | .taskSwitchedIn => some (VA_TaskSwitchedIn e s)
  | .taskSwitchedOut => some (VA_TaskSwitchedOut e s)
  | .taskCreated h => some (VA_TaskCreated e s h)
  | .trackDWTOverflow => some (VA_TrackDWTOverflow s)
  | .isInit => some s
  | .registerUserTrace id name type => some (VA_RegisterUserTrace s id name type)
  | .logUserTrace id value => some (VA_LogUserTrace e s id value)
  | .logUserToggleEvent id state => some (VA_LogUserToggleEvent e s id state)
  | .registerUserFunction id name => some (VA_RegisterUserFunction s id name)
  | .logUserEvent id state => some (VA_LogUserEvent e s id state)
  | .logTaskNotifyGive dest value => some (VA_LogTaskNotifyGive e s dest value)
  | .logTaskNotifyTake value => some (VA_LogTaskNotifyTake e s value)
  | .logQueueObjectCreate h name => some (VA_LogQueueObjectCreate e s h name)
  | .logQueueObjectCreateWithType h hint => some (VA_LogQueueObjectCreateWithType e s h hint)
  | .updateQueueObjectType h hint => VA_UpdateQueueObjectType s h hint
  | .logQueueObjectGive h timeout => some (VA_LogQueueObjectGive e s h timeout)
  | .logQueueObjectTake h timeout => some (VA_LogQueueObjectTake e s h timeout)
  | .logQueueObjectBlocking h => some (VA_LogQueueObjectBlocking e s h)
  | .logSemaphoreGive h => some (VA_LogSemaphoreGive e s h)
  | .logSemaphoreTake h timeout => some (VA_LogSemaphoreTake e s h timeout)
  | .logSemaphoreCreate h name => some (VA_LogSemaphoreCreate e s h name)
  | .logMutexAcquire h timeout => some (VA_LogMutexAcquire e s h timeout)
  | .logMutexRelease h => some (VA_LogMutexRelease e s h)
  | .logMutexCreate h name => some (VA_LogMutexCreate e s h name)
  | .logQueueSend h timeout => some (VA_LogQueueSend e s h timeout)
  | .logQueueReceive h timeout => some (VA_LogQueueReceive e s h timeout)
  | .logQueueCreate h name => some (VA_LogQueueCreate e s h name)

/-- The state after a sequence of entry-point calls, each with the environment it runs in. -/
def runCalls (s : State) : List (Env × Call) → Option State
  | [] => some s
  | (e, c) :: rest =>
    match runCall e s c with
    | some s' => runCalls s' rest
    | none => none

/-- A call sequence from power-on: the queue `0x500` is created before `VA_Init`, and a give
on it follows the initialisation. -/
def createBeforeInit : List (Env × Call) :=
  [(demoEnv, .logQueueObjectCreateWithType 0x500 (some str_Queue)),
   (demoEnv, .init 168000000),
   (demoEnv, .logQueueObjectGive 0x500 0)]

/-- Whether a transport call is the header of a sync-object setup packet (queue, mutex or
semaphore map) that advertises the given ID. -/
def isSyncSetupHeader (id : Nat) (chunk : List Nat) : Bool :=
  match chunk with
  | [code, i, _] =>
    (code == VA_SETUP_QUEUE_MAP || code == VA_SETUP_MUTEX_MAP ||
      code == VA_SETUP_SEMAPHORE_MAP) && i == id
  | _ => false

/-- The entry that lazy registration writes for a handle: the next free ID, the kind read
from the kernel object and the default name of that kind. -/
def lazyQueueEntry (e : Env) (s : State) (handle : Nat) : VA_QueueObjectMapEntry_t :=
  { handle := handle, id := s.next_queue_object_id,
    name := storeName (_va_get_object_type_name (_va_get_queue_object_type e handle)),
    type := _va_get_queue_object_type e handle, active := true }

/-- The state after lazy registration of a handle into the given slot, before its setup packet
is sent. -/
def lazyRegistered (e : Env) (s : State) (handle slot : Nat) : State :=
  { s with next_queue_object_id := (s.next_queue_object_id + 1) % 256,
           queueObjectMap := s.queueObjectMap.set slot (lazyQueueEntry e s handle) }

/-- The recorder after `VA_Init` and the creation of 32 queues with the handles
`0x500 .. 0x51F`: every slot of the sync-object table is taken, no task is registered. -/
def demoFullSyncState : State :=
  (List.range 32).foldl
    (fun s i => VA_LogQueueObjectCreateWithType demoEnv s (0x500 + i) (some str_Queue))
    (VA_Init powerOn 168000000)

/-! ## Further sample states -/

/-- The environment `demoEnv` with a reported stack high-water mark of 40 words. -/
def demoStackEnv : Env := { demoEnv with uxTaskGetStackHighWaterMark := fun _ => 40 }

/-- The recorder after `VA_Init`, the stores of `traceTASK_CREATE` for a task of priority 3
with a stack of 128 words, and `VA_TaskCreated(0x102)`. -/
def demoStackState : State :=
  VA_TaskCreated demoEnv
    { VA_Init powerOn 168000000 with
      g_task_uxPriority := 3, g_task_uxBasePriority := 3, g_task_ulStackDepth := 128 }
    0x102

/-! ## The ITM backend of `_va_send_bytes` (ST-Link transport) -/

/-- One write to the ITM stimulus port: a 32-bit word or a single byte. -/
inductive ITMWrite where
  | u32 (value : Nat)
  | u8 (value : Nat)
deriving DecidableEq, Repr

/-- The function `ITM_SendU32`, on the sequence of writes made so far.  `ITM_WaitReady` polls the
port until the hardware reports it ready; the write follows. -/
def ITM_SendU32 (port : List ITMWrite) (value : Nat) : List ITMWrite :=
  port ++ [ITMWrite.u32 (value % 2 ^ 32)]

/-- The function `ITM_SendU8`. -/
def ITM_SendU8 (port : List ITMWrite) (value : Nat) : List ITMWrite :=
  port ++ [ITMWrite.u8 (value % 256)]

/-- The loop `while (length >= 4)` of `_va_send_bytes`: the index, the remaining length and
the writes after the loop.  `data[k]` outside the buffer reads as 0. -/
def itmWordLoop (data : List Nat) : Nat → Nat → List ITMWrite → Nat × Nat × List ITMWrite
  | i, length + 4, port =>
    let word := (data.getD (i + 3) 0 <<< 24) ||| (data.getD (i + 2) 0 <<< 16) |||
      (data.getD (i + 1) 0 <<< 8) ||| (data.getD (i + 0) 0 <<< 0)
    itmWordLoop data (i + 4) length (ITM_SendU32 port word)
  | i, length, port => (i, length, port)

/-- The loop `while (length > 0)` of `_va_send_bytes`. -/
def itmByteLoop (data : List Nat) : Nat → Nat → List ITMWrite → List ITMWrite
  | i, length + 1, port => itmByteLoop data (i + 1) length (ITM_SendU8 port (data.getD i 0))
  | _, 0, port => port

/-- The function `_va_send_bytes` of the ST-Link transport, on the sequence of port writes. -/
def _va_send_bytes_ITM (init : Bool) (port : List ITMWrite) (data : List Nat) (length : Nat) :
    List ITMWrite :=
  if !init then port else
  let r := itmWordLoop data 0 length port
  itmByteLoop data r.1 r.2.1 r.2.2

/-- The bytes that one port write puts on the wire: a word goes out least significant byte
first. -/
def itmBytes : ITMWrite → List Nat
  | ITMWrite.u32 v => [v % 256, (v >>> 8) % 256, (v >>> 16) % 256, (v >>> 24) % 256]
  | ITMWrite.u8 v => [v]

/-- Whether a port write is a 32-bit word. -/
def ITMWrite.isWord : ITMWrite → Bool
  | ITMWrite.u32 _ => true
  | ITMWrite.u8 _ => false

/-! ## Reachable states and table invariants -/

/-- The states the recorder can be in: the power-on state, closed under the entry points of
`ViewAlyzer.h` and under the stores that the trace macros of `ViewAlyzerFreeRTOSHook.h` make
to the exported globals before they call a hook. -/
inductive Reachable : State → Prop where
  | start : Reachable powerOn
  | call (e : Env) (c : Call) (s s' : State) :
      Reachable s → runCall e s c = some s' → Reachable s'
  | store (s : State) (pxStack pxEndOfStack uxPriority uxBasePriority ulStackDepth value : Nat) :
      Reachable s →
      Reachable { s with g_task_pxStack := pxStack, g_task_pxEndOfStack := pxEndOfStack,
                         g_task_uxPriority := uxPriority,
                         g_task_uxBasePriority := uxBasePriority,
                         g_task_ulStackDepth := ulStackDepth, notificationValue := value }

/-- The three registries and the two ID counters of a state. -/
structure Tables where
  taskMap : List VA_TaskMapEntry_t
  next_task_id : Nat
  queueObjectMap : List VA_QueueObjectMapEntry_t
  next_queue_object_id : Nat
  userFunctionMap : List VA_UserFunctionMapEntry_t

/-- The registries of a state. -/
def tablesOf (s : State) : Tables :=
  { taskMap := s.taskMap, next_task_id := s.next_task_id, queueObjectMap := s.queueObjectMap,
    next_queue_object_id := s.next_queue_object_id, userFunctionMap := s.userFunctionMap }

/-- The ways in which one entry-point call changes the registries. -/
inductive TableStep : Tables → Tables → Prop where
  | same (T : Tables) : TableStep T T
  | taskAssign (T : Tables) (slot : Nat) (entry : VA_TaskMapEntry_t) :
      firstIndex (fun t => !t.active) T.taskMap = some slot → T.next_task_id ≠ 0 →
      entry.active = true → entry.id = T.next_task_id →
      (∃ x, entry.name = storeName x) →
      TableStep T { T with taskMap := T.taskMap.set slot entry,
                           next_task_id := (T.next_task_id + 1) % 256 }
  | taskNotifier (T : Tables) (idx : Nat) (t : VA_TaskMapEntry_t) (x : Nat) :
      T.taskMap[idx]? = some t →
      TableStep T { T with taskMap := T.taskMap.set idx { t with last_notifier := x } }
  | queueAssign (T : Tables) (slot : Nat) (entry : VA_QueueObjectMapEntry_t) :
      firstIndex (fun q => !q.active) T.queueObjectMap = some slot →
      T.next_queue_object_id ≠ 0 →
      entry.active = true → entry.id = T.next_queue_object_id →
      (∃ x, entry.name = storeName x) →
      TableStep T { T with queueObjectMap := T.queueObjectMap.set slot entry,
                           next_queue_object_id := (T.next_queue_object_id + 1) % 256 }
  | queueUpdate (T : Tables) (idx : Nat) (old : VA_QueueObjectMapEntry_t) (type : Nat)
      (x : List Nat) :
      T.queueObjectMap[idx]? = some old →
      TableStep T { T with queueObjectMap :=
        T.queueObjectMap.set idx { old with type := type, name := storeName x } }
  | userAssign (T : Tables) (slot id : Nat) (x : List Nat) :
      TableStep T { T with userFunctionMap :=
        T.userFunctionMap.set slot { id := id, name := storeName x, active := true } }
  | reset (T : Tables) :
      TableStep T { T with
        taskMap := T.taskMap.map (fun (t : VA_TaskMapEntry_t) =>
          { t with active := false, handle := 0, id := 0, last_notifier := 0 }),
        next_task_id := 1,
        userFunctionMap := T.userFunctionMap.map (fun (u : VA_UserFunctionMapEntry_t) =>
          { u with active := false, id := 0, name := u.name.set 0 0 }) }

/-- The active flag and the ID of every slot of the task table. -/
def taskKeys (s : State) : List (Bool × Nat) := s.taskMap.map (fun t => (t.active, t.id))

/-- The active flag and the ID of every slot of the sync-object table. -/
def queueKeys (s : State) : List (Bool × Nat) :=
  s.queueObjectMap.map (fun q => (q.active, q.id))

/-- The flags and IDs of a dense table with `n` registrations: slots `0 .. n-1` active with the
IDs `1 .. n`, the remaining slots inactive with ID 0. -/
def denseKeys (n : Nat) : List (Bool × Nat) :=
  (List.range n).map (fun i => (true, i + 1)) ++ List.replicate (VA_MAX_TASKS - n) (false, 0)

/-- A name buffer of 16 bytes that holds a NUL-terminated string of at most 15 bytes. -/
def nameBounded (name : List Nat) : Prop :=
  name.length = VA_MAX_TASK_NAME_LEN ∧ strlen name ≤ VA_MAX_TASK_NAME_LEN - 1

/-- The dense-table property of the task table and of the sync-object table: with `n`
registrations the flags and IDs are `denseKeys n` and the next-ID counter is `n + 1`. -/
def tablesDense (T : Tables) : Prop :=
  (∃ n, n ≤ VA_MAX_TASKS ∧ T.next_task_id = n + 1 ∧
    T.taskMap.map (fun t => (t.active, t.id)) = denseKeys n) ∧
  (∃ m, m ≤ VA_MAX_TASKS ∧ T.next_queue_object_id = m + 1 ∧
    T.queueObjectMap.map (fun q => (q.active, q.id)) = denseKeys m)

/-- The name property of the three registries: every active entry stores a name that
`strncpy` with the bound 15 and the terminating NUL produced. -/
def tablesNamed (T : Tables) : Prop :=
  (∀ t ∈ T.taskMap, t.active = true → ∃ x, t.name = storeName x) ∧
  (∀ q ∈ T.queueObjectMap, q.active = true → ∃ x, q.name = storeName x) ∧
  (∀ u ∈ T.userFunctionMap, u.active = true → ∃ x, u.name = storeName x)

/-! ## Auxiliary lemmas -/

/-! ### Encoders -/

theorem leValue_timestampBytes (t : Nat) (ht : t < 2 ^ 64) : leValue (timestampBytes t) = t := by
  simp only [timestampBytes, leValue, Nat.shiftRight_eq_div_pow]
  omega

theorem send_bytes_init (s : State) (data : List Nat) (n : Nat) (h : s.VA_IS_INIT = true) :
    _va_send_bytes s data n = { s with tx := s.tx ++ [data.take n] } := by
  simp [_va_send_bytes, h]

theorem int32_byte (value : Int) (k : Nat) (hk : k = 1 ∨ k = 256 ∨ k = 65536 ∨ k = 16777216) :
    (value / (k : Int) % 256).toNat = (value % 4294967296).toNat / k % 256 := by
  rcases hk with rfl | rfl | rfl | rfl <;> omega

theorem int32Bytes_eq (value : Int) :
    int32Bytes value = uint32Bytes (twosComplement32 value) := by
  simp only [int32Bytes, uint32Bytes, twosComplement32, Int.shiftRight_eq_div_pow,
    Nat.shiftRight_eq_div_pow]
  norm_num
  refine ⟨?_, ?_, ?_, ?_⟩
  · simpa using int32_byte value 1 (by simp)
  · simpa using int32_byte value 256 (by simp)
  · simpa using int32_byte value 65536 (by simp)
  · simpa using int32_byte value 16777216 (by simp)

/-! ### Timestamp source -/

theorem readCYCCNT_lt (e : Env) (k : Nat) : readCYCCNT e k < 2 ^ 32 :=
  Nat.mod_lt _ (by norm_num)

theorem compose64 (high low : Nat) (hh : high < 2 ^ 32) (hl : low < 2 ^ 32) :
    ((high <<< 32) % 2 ^ 64) ||| low = 2 ^ 32 * high + low := by
  have h1 : high <<< 32 = 2 ^ 32 * high := by rw [Nat.shiftLeft_eq, Nat.mul_comm]
  have h2 : 2 ^ 32 * high < 2 ^ 64 := by omega
  rw [h1, Nat.mod_eq_of_lt h2, ← Nat.mul_add_lt_is_or hl]

theorem timestamp_overflow_lt (e : Env) (s : State) (h : s.g_dwt_overflow_count < 2 ^ 32) :
    (_va_get_timestamp e s).2.g_dwt_overflow_count < 2 ^ 32 := by
  simp only [_va_get_timestamp]
  split
  · exact Nat.mod_lt _ (by norm_num)
  · exact h

theorem timestampState_overflow_lt (e : Env) (n : Nat) :
    ∀ s : State, s.g_dwt_overflow_count < 2 ^ 32 →
      (timestampState e s n).g_dwt_overflow_count < 2 ^ 32 := by
  induction n with
  | zero => intro s h; simpa [timestampState] using h
  | succ n ih =>
    intro s h
    simp only [timestampState]
    exact ih _ (timestamp_overflow_lt e s h)

theorem timestamp_value (e : Env) (s : State) (h : s.g_dwt_overflow_count < 2 ^ 32) :
    (_va_get_timestamp e s).1 =
      2 ^ 32 * (_va_get_timestamp e s).2.g_dwt_overflow_count +
        (if readCYCCNT e (s.nreads + 1) < readCYCCNT e s.nreads then readCYCCNT e (s.nreads + 1)
         else readCYCCNT e s.nreads) := by
  have hov := timestamp_overflow_lt e s h
  simp only [_va_get_timestamp] at hov ⊢
  simp only [ite_self]
  rw [compose64 _ _ hov]
  split <;> exact readCYCCNT_lt _ _

/-- The value returned by a call is at most the counter state it leaves behind. -/
theorem timestamp_le_state (e : Env) (s : State) (h : s.g_dwt_overflow_count < 2 ^ 32) :
    (_va_get_timestamp e s).1 ≤
      2 ^ 32 * (_va_get_timestamp e s).2.g_dwt_overflow_count +
        (_va_get_timestamp e s).2.last_dwt_value := by
  rw [timestamp_value e s h]
  have hl : (_va_get_timestamp e s).2.last_dwt_value = readCYCCNT e s.nreads := rfl
  rw [hl]
  split <;> omega

/-- A call whose second read is not below its first returns at least the counter state it
started from, as long as the overflow counter itself does not wrap. -/
theorem timestamp_ge_state (e : Env) (s : State) (h : s.g_dwt_overflow_count + 1 < 2 ^ 32)
    (hlast : s.last_dwt_value < 2 ^ 32)
    (hreads : readCYCCNT e s.nreads ≤ readCYCCNT e (s.nreads + 1)) :
    2 ^ 32 * s.g_dwt_overflow_count + s.last_dwt_value ≤ (_va_get_timestamp e s).1 := by
  rw [timestamp_value e s (by omega)]
  have hno : ¬ readCYCCNT e (s.nreads + 1) < readCYCCNT e s.nreads := by omega
  simp only [hno, if_false]
  simp only [_va_get_timestamp]
  split
  · rw [Nat.mod_eq_of_lt h]; omega
  · omega

/-- Two successive calls return non-decreasing values whenever the second call does not see
the counter wrap between its two reads (and the 32-bit overflow counter does not wrap). -/
theorem timestamp_monotone_without_inner_wrap (e : Env) (s : State)
    (h : s.g_dwt_overflow_count + 2 < 2 ^ 32)
    (hreads : readCYCCNT e ((_va_get_timestamp e s).2.nreads) ≤
      readCYCCNT e ((_va_get_timestamp e s).2.nreads + 1)) :
    (_va_get_timestamp e s).1 ≤ (_va_get_timestamp e (_va_get_timestamp e s).2).1 := by
  have h1 := timestamp_le_state e s (by omega)
  have hov : (_va_get_timestamp e s).2.g_dwt_overflow_count ≤ s.g_dwt_overflow_count + 1 := by
    simp only [_va_get_timestamp]
    split
    · exact Nat.mod_le _ _
    · omega
  have h2 := timestamp_ge_state e (_va_get_timestamp e s).2 (by omega)
    (readCYCCNT_lt e s.nreads) hreads
  omega

/-! ### Table scans -/

theorem firstIndex_none {α : Type} (p : α → Bool) (l : List α) :
    firstIndex p l = none ↔ ∀ x ∈ l, p x = false := by
  induction l with
  | nil => simp [firstIndex]
  | cons x xs ih =>
    simp only [firstIndex, List.mem_cons, forall_eq_or_imp]
    by_cases hx : p x = true
    · simp [hx]
    · simp [hx, ih]

theorem firstIndex_some {α : Type} (p : α → Bool) (l : List α) (i : Nat)
    (h : firstIndex p l = some i) :
    ∃ front x back, l = front ++ x :: back ∧ front.length = i ∧ p x = true ∧
      ∀ y ∈ front, p y = false := by
  induction l generalizing i with
  | nil => simp [firstIndex] at h
  | cons a as ih =>
    simp only [firstIndex] at h
    by_cases ha : p a = true
    · simp only [ha, if_true, Option.some.injEq] at h
      exact ⟨[], a, as, rfl, by simpa using h, ha, by simp⟩
    · simp only [ha, Bool.false_eq_true, if_false, Option.map_eq_some'] at h
      obtain ⟨j, hj, rfl⟩ := h
      obtain ⟨front, x, back, rfl, hlen, hx, hfront⟩ := ih j hj
      refine ⟨a :: front, x, back, rfl, by simp [hlen], hx, ?_⟩
      intro y hy
      rcases List.mem_cons.mp hy with rfl | hy
      · simpa using ha
      · exact hfront y hy

theorem firstIndex_append {α : Type} (p : α → Bool) (front : List α) (x : α) (back : List α)
    (hfront : ∀ y ∈ front, p y = false) (hx : p x = true) :
    firstIndex p (front ++ x :: back) = some front.length := by
  induction front with
  | nil => simp [firstIndex, hx]
  | cons a as ih =>
    have ha : p a = false := hfront a (by simp)
    have := ih (fun y hy => hfront y (by simp [hy]))
    simp [firstIndex, ha, this]

theorem find?_append_hit {α : Type} (p : α → Bool) (front : List α) (x : α) (back : List α)
    (hfront : ∀ y ∈ front, p y = false) (hx : p x = true) :
    (front ++ x :: back).find? p = some x := by
  induction front with
  | nil => simp [List.find?, hx]
  | cons a as ih =>
    have ha : p a = false := hfront a (by simp)
    have := ih (fun y hy => hfront y (by simp [hy]))
    simp [List.find?, ha, this]

theorem set_append_length {α : Type} (front : List α) (x y : α) (back : List α) :
    (front ++ x :: back).set front.length y = front ++ y :: back := by
  induction front with
  | nil => simp
  | cons a as ih => simp [ih]

/-! ### Frame facts -/

theorem send_bytes_eq (s : State) (data : List Nat) (n : Nat) :
    _va_send_bytes s data n =
      { s with tx := if s.VA_IS_INIT then s.tx ++ [data.take n] else s.tx } := by
  cases s
  simp only [_va_send_bytes]
  split <;> simp_all

@[simp]
theorem send_bytes_taskMap (s : State) (data : List Nat) (n : Nat) :
    (_va_send_bytes s data n).taskMap = s.taskMap := by
  rw [send_bytes_eq]

@[simp]
theorem send_bytes_next_task_id (s : State) (data : List Nat) (n : Nat) :
    (_va_send_bytes s data n).next_task_id = s.next_task_id := by
  rw [send_bytes_eq]

@[simp]
theorem send_bytes_queueObjectMap (s : State) (data : List Nat) (n : Nat) :
    (_va_send_bytes s data n).queueObjectMap = s.queueObjectMap := by
  rw [send_bytes_eq]

@[simp]
theorem send_bytes_next_queue_object_id (s : State) (data : List Nat) (n : Nat) :
    (_va_send_bytes s data n).next_queue_object_id = s.next_queue_object_id := by
  rw [send_bytes_eq]

@[simp]
theorem send_bytes_init_flag (s : State) (data : List Nat) (n : Nat) :
    (_va_send_bytes s data n).VA_IS_INIT = s.VA_IS_INIT := by
  rw [send_bytes_eq]

@[simp]
theorem timestamp_taskMap (e : Env) (s : State) :
    (_va_get_timestamp e s).2.taskMap = s.taskMap := rfl

@[simp]
theorem timestamp_next_task_id (e : Env) (s : State) :
    (_va_get_timestamp e s).2.next_task_id = s.next_task_id := rfl

@[simp]
theorem timestamp_queueObjectMap (e : Env) (s : State) :
    (_va_get_timestamp e s).2.queueObjectMap = s.queueObjectMap := rfl

@[simp]
theorem timestamp_init_flag (e : Env) (s : State) :
    (_va_get_timestamp e s).2.VA_IS_INIT = s.VA_IS_INIT := rfl

@[simp]
theorem timestamp_tx (e : Env) (s : State) :
    (_va_get_timestamp e s).2.tx = s.tx := rfl

theorem assign_task_success (s : State) (handle : Nat) (name : List Nat) (slot : Nat)
    (hidx : firstIndex (fun t => !t.active) s.taskMap = some slot)
    (hh : handle ≠ 0) (hid : s.next_task_id ≠ 0) :
    _va_assign_task_id s handle (some name) =
      (s.next_task_id,
       _va_send_setup_packet
         { s with next_task_id := (s.next_task_id + 1) % 256,
                  taskMap := s.taskMap.set slot (newTaskEntry s handle name) }
         VA_SETUP_TASK_MAP s.next_task_id (storeName name)) := by
  simp [_va_assign_task_id, hidx, hh, hid, newTaskEntry]

theorem assign_task_full (s : State) (handle : Nat) (name : Option (List Nat))
    (hfull : ∀ t ∈ s.taskMap, t.active = true) :
    _va_assign_task_id s handle name = (0, s) := by
  have hidx : firstIndex (fun t => !t.active) s.taskMap = none :=
    (firstIndex_none _ _).mpr (fun t ht => by simp [hfull t ht])
  cases name with
  | none => simp [_va_assign_task_id]
  | some n => simp [_va_assign_task_id, hidx]

@[simp]
theorem setup_packet_taskMap (s : State) (c i : Nat) (n : List Nat) :
    (_va_send_setup_packet s c i n).taskMap = s.taskMap := by
  simp [_va_send_setup_packet]

@[simp]
theorem setup_packet_next_task_id (s : State) (c i : Nat) (n : List Nat) :
    (_va_send_setup_packet s c i n).next_task_id = s.next_task_id := by
  simp [_va_send_setup_packet]

/-- One registration into a table whose first free slot follows `front`. -/
theorem taskCreated_step (e : Env) (s : State) (h : Nat) (front back : List VA_TaskMapEntry_t)
    (x : VA_TaskMapEntry_t) (hmap : s.taskMap = front ++ x :: back)
    (hfront : ∀ t ∈ front, t.active = true) (hx : x.active = false)
    (hid : s.next_task_id ≠ 0) (hh : h ≠ 0) :
    (VA_TaskCreated e s h).taskMap =
        front ++ newTaskEntry s h ((e.pcTaskGetName h).getD str_unnamed) :: back ∧
      (VA_TaskCreated e s h).next_task_id = (s.next_task_id + 1) % 256 := by
  have hidx : firstIndex (fun t => !t.active) s.taskMap = some front.length := by
    rw [hmap]
    exact firstIndex_append _ front x back (fun t ht => by simp [hfront t ht]) (by simp [hx])
  have hpos : s.next_task_id > 0 := Nat.pos_of_ne_zero hid
  simp only [VA_TaskCreated, assign_task_success s h _ _ hidx hh hid, hpos, if_true]
  simp [_va_send_task_create_packet, hmap, set_append_length]


/-- Registering a list of non-null handles fills the free slots in order. -/
theorem createTasks_fill (e : Env) (handles : List Nat) :
    ∀ (s : State) (front back : List VA_TaskMapEntry_t),
      s.taskMap = front ++ back → (∀ t ∈ front, t.active = true) →
      (∀ t ∈ back, t.active = false) → s.next_task_id = front.length + 1 →
      handles.length ≤ back.length → front.length + handles.length ≤ 254 →
      (∀ h ∈ handles, h ≠ 0) →
      ∃ new : List VA_TaskMapEntry_t,
        (createTasks e s handles).taskMap = front ++ new ++ back.drop handles.length ∧
        new.map (fun t => t.handle) = handles ∧ (∀ t ∈ new, t.active = true) ∧
        new.map (fun t => t.id) = List.range' (front.length + 1) handles.length ∧
        (createTasks e s handles).next_task_id = front.length + handles.length + 1 := by
  induction handles with
  | nil =>
    intro s front back hmap _ _ hid _ _ _
    exact ⟨[], by simp [createTasks, hmap], rfl, by simp, by simp, by simp [createTasks, hid]⟩
  | cons h hs ih =>
    intro s front back hmap hfront hback hid hlen hbound hnz
    cases back with
    | nil => simp at hlen
    | cons x back' =>
      have hx : x.active = false := hback x (by simp)
      have hh : h ≠ 0 := hnz h (by simp)
      have hid0 : s.next_task_id ≠ 0 := by rw [hid]; omega
      obtain ⟨hmap1, hid1⟩ := taskCreated_step e s h front back' x hmap hfront hx hid0 hh
      simp only [List.length_cons] at hlen hbound
      have hid1' : (VA_TaskCreated e s h).next_task_id =
          (front ++ [newTaskEntry s h ((e.pcTaskGetName h).getD str_unnamed)]).length + 1 := by
        rw [hid1, hid]
        simp only [List.length_append, List.length_singleton]
        omega
      obtain ⟨new, hnew, hhandles, hactive, hids, hnext⟩ :=
        ih (VA_TaskCreated e s h)
          (front ++ [newTaskEntry s h ((e.pcTaskGetName h).getD str_unnamed)]) back'
          (by simp [hmap1])
          (by
            intro t ht
            rcases List.mem_append.mp ht with ht | ht
            · exact hfront t ht
            · simp only [List.mem_singleton] at ht
              subst ht
              rfl)
          (fun t ht => hback t (by simp [ht]))
          hid1'
          (by omega)
          (by simp only [List.length_append, List.length_singleton]; omega)
          (fun h' hh' => hnz h' (by simp [hh']))
      refine ⟨newTaskEntry s h ((e.pcTaskGetName h).getD str_unnamed) :: new, ?_, ?_, ?_, ?_, ?_⟩
      · simpa [createTasks] using hnew
      · simp [hhandles, newTaskEntry]
      · intro t ht
        rcases List.mem_cons.mp ht with rfl | ht
        · rfl
        · exact hactive t ht
      · simp only [List.map_cons, List.length_cons, List.range'_succ]
        simp only [List.length_append, List.length_singleton] at hids
        simp [hids, newTaskEntry, hid]
      · simp only [List.length_append, List.length_singleton] at hnext
        simp only [createTasks, List.foldl_cons, List.length_cons] at hnext ⊢
        omega

theorem find_task_id_absent (s : State) (h : Nat)
    (habs : ∀ t ∈ s.taskMap, t.handle ≠ h) : _va_find_task_id s h = 0 := by
  have : s.taskMap.find? (fun t => t.active && t.handle == h) = none := by
    rw [List.find?_eq_none]
    intro t ht
    simp [habs t ht]
  simp [_va_find_task_id, this]

theorem taskCreated_full (e : Env) (s : State) (h : Nat)
    (hfull : ∀ t ∈ s.taskMap, t.active = true) : VA_TaskCreated e s h = s := by
  simp [VA_TaskCreated, assign_task_full s h _ hfull]

/-- The task table right after `VA_Init`: every slot is free. -/
theorem init_taskMap (s : State) (cpu_freq : Nat) :
    (VA_Init s cpu_freq).taskMap.length = s.taskMap.length ∧
      (∀ t ∈ (VA_Init s cpu_freq).taskMap, t.active = false) ∧
      (VA_Init s cpu_freq).next_task_id = 1 := by
  simp only [VA_Init, setup_packet_taskMap, send_bytes_taskMap, setup_packet_next_task_id,
    send_bytes_next_task_id]
  refine ⟨by simp, ?_, trivial⟩
  intro t ht
  simp only [List.mem_map] at ht
  obtain ⟨u, _, rfl⟩ := ht
  rfl

/-! ### Names -/

theorem cstr_of_no_nul (name : List Nat) (h : ∀ b ∈ name, b ≠ 0) : cstr name = name := by
  simp only [cstr]
  rw [List.takeWhile_eq_self_iff]
  intro b hb
  simpa using h b hb

theorem cstr_append_zero (a rest : List Nat) (h : ∀ b ∈ a, b ≠ 0) :
    cstr (a ++ 0 :: rest) = a := by
  induction a with
  | nil => simp [cstr, List.takeWhile]
  | cons x xs ih =>
    have hx : x ≠ 0 := h x (by simp)
    have := ih (fun b hb => h b (by simp [hb]))
    simp only [cstr] at this ⊢
    have hx' : (x != 0) = true := by simpa using hx
    simp [List.takeWhile_cons, hx', this]

/-- The buffer written for a name without NUL bytes. -/
theorem storeName_of_no_nul (name : List Nat) (h : ∀ b ∈ name, b ≠ 0) :
    storeName name =
      name.take (min name.length 15) ++ List.replicate (16 - min name.length 15) 0 := by
  simp only [storeName, strncpy, cstr_of_no_nul name h, VA_MAX_TASK_NAME_LEN]
  have h1 : List.take (min name.length 15) name = List.take 15 name := by
    rcases Nat.le_total name.length 15 with hle | hle
    · rw [Nat.min_eq_left hle, List.take_of_length_le hle, List.take_of_length_le (Nat.le_refl _)]
    · rw [Nat.min_eq_right hle]
  rw [h1, List.append_assoc]
  congr 1
  have h2 : (List.take 15 name).length = min name.length 15 := by
    simp [List.length_take, Nat.min_comm]
  simp only [Nat.add_one_sub_one, h2]
  rw [← List.replicate_succ']
  congr 1
  omega

theorem strlen_storeName (name : List Nat) (h : ∀ b ∈ name, b ≠ 0) :
    strlen (storeName name) = min name.length 15 ∧
      (storeName name).take (min name.length 15) = name.take (min name.length 15) := by
  rw [storeName_of_no_nul name h]
  have hpos : 16 - min name.length 15 = (15 - min name.length 15) + 1 := by omega
  have hmem : ∀ b ∈ name.take (min name.length 15), b ≠ 0 :=
    fun b hb => h b (List.mem_of_mem_take hb)
  have hlen : (name.take (min name.length 15)).length = min name.length 15 := by
    simp [List.length_take]
  constructor
  · rw [hpos, List.replicate_succ, strlen, cstr_append_zero _ _ hmem, hlen]
  · rw [List.take_append_of_le_length (by rw [hlen])]
    rw [List.take_take]
    simp

/-! ### Registration and sync objects -/

theorem getElem?_append_length {α : Type} (front : List α) (y : α) (back : List α) :
    (front ++ y :: back)[front.length]? = some y := by
  rw [List.getElem?_append_right (Nat.le_refl _)]
  simp

theorem setup_packet_tx (s : State) (c i : Nat) (n : List Nat) (hinit : s.VA_IS_INIT = true) :
    (_va_send_setup_packet s c i n).tx =
      s.tx ++ [[c, i, if strlen n % 256 ≥ VA_MAX_TASK_NAME_LEN then VA_MAX_TASK_NAME_LEN - 1
                      else strlen n % 256],
               n.take (if strlen n % 256 ≥ VA_MAX_TASK_NAME_LEN then VA_MAX_TASK_NAME_LEN - 1
                       else strlen n % 256)] := by
  simp [_va_send_setup_packet, send_bytes_eq, hinit]

theorem assign_task_ok (s : State) (handle : Nat) (name : List Nat)
    (hok : (_va_assign_task_id s handle (some name)).1 ≠ 0) :
    handle ≠ 0 ∧ s.next_task_id ≠ 0 ∧
      ∃ slot, firstIndex (fun t => !t.active) s.taskMap = some slot := by
  by_cases hh : handle = 0
  · simp [_va_assign_task_id, hh] at hok
  · cases hidx : firstIndex (fun t => !t.active) s.taskMap with
    | none => simp [_va_assign_task_id, hh, hidx] at hok
    | some slot =>
      by_cases hid : s.next_task_id = 0
      · simp [_va_assign_task_id, hh, hidx, hid] at hok
      · exact ⟨hh, hid, slot, rfl⟩

/-- A handle that `_va_find_queue_object_id` resolves sits in the first matching slot. -/
theorem find_queue_object_registered (s : State) (h : Nat)
    (hreg : _va_find_queue_object_id s h ≠ 0) :
    ∃ front q back, s.queueObjectMap = front ++ q :: back ∧
      (∀ y ∈ front, (y.active && y.handle == h) = false) ∧
      (q.active && q.handle == h) = true ∧ q.id = _va_find_queue_object_id s h ∧
      s.queueObjectMap.find? (fun q => q.active && q.handle == h) = some q := by
  cases hidx : firstIndex (fun q => q.active && q.handle == h) s.queueObjectMap with
  | none =>
    have hnone : s.queueObjectMap.find? (fun q => q.active && q.handle == h) = none := by
      rw [List.find?_eq_none]
      intro q hq
      simpa using (firstIndex_none _ _).mp hidx q hq
    simp [_va_find_queue_object_id, hnone] at hreg
  | some i =>
    obtain ⟨front, q, back, hmap, -, hq, hfront⟩ := firstIndex_some _ _ _ hidx
    have hfind : s.queueObjectMap.find? (fun q => q.active && q.handle == h) = some q := by
      rw [hmap]
      exact find?_append_hit _ front q back hfront hq
    exact ⟨front, q, back, hmap, hfront, hq, by simp [_va_find_queue_object_id, hfind], hfind⟩

theorem findOrAssign_registered (e : Env) (s : State) (h : Nat)
    (hreg : _va_find_queue_object_id s h ≠ 0) :
    findOrAssignQueueObject e s h = (_va_find_queue_object_id s h, s) := by
  simp [findOrAssignQueueObject, hreg]

theorem event_packet_eq (s : State) (type_byte id timestamp : Nat)
    (hinit : s.VA_IS_INIT = true) :
    _va_send_event_packet s type_byte id timestamp =
      { s with tx := s.tx ++ [[type_byte, id] ++ timestampBytes timestamp] } := by
  simp [_va_send_event_packet, send_bytes_eq, hinit, timestampBytes]

/-- The give hook on a registered handle: one timestamp, one event packet. -/
theorem give_registered (e : Env) (s : State) (h timeout : Nat) (hh : h ≠ 0)
    (hreg : _va_find_queue_object_id s h ≠ 0) :
    VA_LogQueueObjectGive e s h timeout =
      _va_send_event_packet (_va_get_timestamp e s).2
        (0x80 ||| eventTypeOfKind (_va_get_stored_queue_object_type e s h))
        (_va_find_queue_object_id s h) (_va_get_timestamp e s).1 := by
  simp [VA_LogQueueObjectGive, findOrAssign_registered e s h hreg, hh, VA_EVENT_FLAG_START_END]

/-- The take hook on a registered handle: one timestamp, one event packet. -/
theorem take_registered (e : Env) (s : State) (h timeout : Nat) (hh : h ≠ 0)
    (hreg : _va_find_queue_object_id s h ≠ 0) :
    VA_LogQueueObjectTake e s h timeout =
      _va_send_event_packet (_va_get_timestamp e s).2
        (eventTypeOfKind (_va_get_stored_queue_object_type e s h))
        (_va_find_queue_object_id s h) (_va_get_timestamp e s).1 := by
  simp [VA_LogQueueObjectTake, findOrAssign_registered e s h hreg, hh]

@[simp]
theorem event_packet_queueObjectMap (s : State) (type_byte id timestamp : Nat) :
    (_va_send_event_packet s type_byte id timestamp).queueObjectMap = s.queueObjectMap := by
  simp [_va_send_event_packet]

@[simp]
theorem event_packet_init_flag (s : State) (type_byte id timestamp : Nat) :
    (_va_send_event_packet s type_byte id timestamp).VA_IS_INIT = s.VA_IS_INIT := by
  simp [_va_send_event_packet]

theorem event_packet_tx (s : State) (type_byte id timestamp : Nat)
    (hinit : s.VA_IS_INIT = true) :
    (_va_send_event_packet s type_byte id timestamp).tx =
      s.tx ++ [[type_byte, id] ++ timestampBytes timestamp] := by
  rw [event_packet_eq s type_byte id timestamp hinit]

@[simp]
theorem setup_packet_queueObjectMap (s : State) (c i : Nat) (n : List Nat) :
    (_va_send_setup_packet s c i n).queueObjectMap = s.queueObjectMap := by
  simp [_va_send_setup_packet]

@[simp]
theorem setup_packet_init_flag (s : State) (c i : Nat) (n : List Nat) :
    (_va_send_setup_packet s c i n).VA_IS_INIT = s.VA_IS_INIT := by
  simp [_va_send_setup_packet]

/-- The kind revision with the hint "Mutex" on a registered handle. -/
theorem update_to_mutex (s : State) (h : Nat) (hh : h ≠ 0)
    (front back : List VA_QueueObjectMapEntry_t) (q : VA_QueueObjectMapEntry_t)
    (hmap : s.queueObjectMap = front ++ q :: back)
    (hfront : ∀ y ∈ front, (y.active && y.handle == h) = false)
    (hq : (q.active && q.handle == h) = true) :
    VA_UpdateQueueObjectType s h (some str_Mutex) =
      some (_va_send_setup_packet
        { s with queueObjectMap :=
            front ++ { q with type := VA_OBJECT_TYPE_MUTEX, name := storeName str_Mutex } :: back }
        VA_SETUP_MUTEX_MAP q.id (storeName str_Mutex)) := by
  have hidx : firstIndex (fun q => q.active && q.handle == h) s.queueObjectMap =
      some front.length := by
    rw [hmap]; exact firstIndex_append _ front q back hfront hq
  have hty : typeOfHint (some str_Mutex) = VA_OBJECT_TYPE_MUTEX := by decide
  have hstr : strstr str_Mutex str_Mutex = true := by decide
  have hlen : strlen str_Mutex > 0 := by decide
  have hget : s.queueObjectMap[front.length]? = some q := by
    rw [hmap]; exact getElem?_append_length front q back
  have hset : s.queueObjectMap.set front.length
      { q with type := VA_OBJECT_TYPE_MUTEX, name := storeName str_Mutex } =
      front ++ { q with type := VA_OBJECT_TYPE_MUTEX, name := storeName str_Mutex } :: back := by
    rw [hmap]; exact set_append_length front q _ back
  have hsetup : _va_get_setup_packet_type VA_OBJECT_TYPE_MUTEX = VA_SETUP_MUTEX_MAP := by decide
  simp only [VA_UpdateQueueObjectType, hidx, hty, hstr, hlen, hget]
  simp [hh, hset, hsetup]

theorem contention_packet_eq (s : State) (m w hd timestamp : Nat)
    (hinit : s.VA_IS_INIT = true) :
    _va_send_mutex_contention_packet s m w hd timestamp =
      { s with tx := s.tx ++ [[0x0C, m, w, hd] ++ timestampBytes timestamp] } := by
  simp [_va_send_mutex_contention_packet, send_bytes_eq, hinit, timestampBytes,
    VA_EVENT_MUTEX_CONTENTION]


/-! ### Names of any length -/

theorem cstr_no_nul (s : List Nat) : ∀ b ∈ cstr s, b ≠ 0 := by
  intro b hb
  have := List.mem_takeWhile_imp hb
  simpa using this

theorem cstr_idem (s : List Nat) : cstr (cstr s) = cstr s :=
  cstr_of_no_nul _ (cstr_no_nul s)

theorem storeName_cstr (name : List Nat) : storeName (cstr name) = storeName name := by
  simp only [storeName, strncpy, cstr_idem]

/-- The stored copy of any name holds the first 15 characters of the name. -/
theorem strlen_storeName_any (name : List Nat) :
    strlen (storeName name) = min (strlen name) 15 ∧
      (storeName name).take (min (strlen name) 15) = (cstr name).take (min (strlen name) 15) := by
  rw [← storeName_cstr]
  exact strlen_storeName (cstr name) (cstr_no_nul name)

theorem nameLenByte_storeName (name : List Nat) :
    nameLenByte (storeName name) = min (strlen name) 15 := by
  have h := (strlen_storeName_any name).1
  simp only [nameLenByte, h, VA_MAX_TASK_NAME_LEN]
  have : min (strlen name) 15 % 256 = min (strlen name) 15 := by omega
  rw [this]
  have hno : ¬ (min (strlen name) 15 ≥ 16) := by omega
  simp [hno]

theorem nameLenByte_short (name : List Nat) (hlen : strlen name < 256) :
    nameLenByte name = min (strlen name) 15 := by
  simp only [nameLenByte, VA_MAX_TASK_NAME_LEN, Nat.mod_eq_of_lt hlen]
  split <;> omega

/-- The setup packet as two transport calls, header and name bytes. -/
theorem setup_packet_tx_nameLen (s : State) (c i : Nat) (n : List Nat)
    (hinit : s.VA_IS_INIT = true) :
    (_va_send_setup_packet s c i n).tx =
      s.tx ++ [[c, i, nameLenByte n], n.take (nameLenByte n)] := by
  rw [setup_packet_tx s c i n hinit]
  rfl

theorem setup_packet_eq (s : State) (c i : Nat) (n : List Nat)
    (hinit : s.VA_IS_INIT = true) :
    _va_send_setup_packet s c i n =
      { s with tx := s.tx ++ [[c, i, nameLenByte n], n.take (nameLenByte n)] } := by
  simp [_va_send_setup_packet, send_bytes_eq, hinit, nameLenByte]

theorem user_setup_packet_eq (s : State) (i t : Nat) (n : List Nat)
    (hinit : s.VA_IS_INIT = true) :
    _va_send_user_setup_packet s i t n =
      { s with tx := s.tx ++ [[0x72, i, t, nameLenByte n], n.take (nameLenByte n)] } := by
  simp [_va_send_user_setup_packet, send_bytes_eq, hinit, nameLenByte, VA_SETUP_USER_TRACE]

/-! ### User traces -/

/-- Every accepted `VA_RegisterUserTrace` call on an initialised recorder appends one setup
packet and touches nothing else. -/
theorem registerUserTrace_eq (s : State) (id : Nat) (name : List Nat) (type : Nat)
    (hid : id ≠ 0) (hinit : s.VA_IS_INIT = true) :
    VA_RegisterUserTrace s id (some name) type =
      { s with tx := s.tx ++
          [if type = VA_USER_TYPE_ISR then [0x71, id, nameLenByte name]
           else [0x72, id, type % 256, nameLenByte name],
           name.take (nameLenByte name)] } := by
  by_cases ht : type = VA_USER_TYPE_ISR
  · simp [VA_RegisterUserTrace, hid, ht, setup_packet_eq _ _ _ _ hinit, VA_SETUP_ISR_MAP]
  · simp [VA_RegisterUserTrace, hid, ht, user_setup_packet_eq _ _ _ _ hinit]

@[simp]
theorem registerUserTrace_init_flag (s : State) (id : Nat) (name : Option (List Nat))
    (type : Nat) : (VA_RegisterUserTrace s id name type).VA_IS_INIT = s.VA_IS_INIT := by
  cases name with
  | none => rfl
  | some n =>
    simp only [VA_RegisterUserTrace]
    split
    · rfl
    · split <;> simp [_va_send_setup_packet, _va_send_user_setup_packet]

theorem demoName256_no_nul : ∀ b ∈ demoName256, b ≠ 0 := by
  intro b hb
  rw [demoName256, List.mem_replicate] at hb
  omega

theorem nameLenByte_demoName256 : nameLenByte demoName256 = 0 := by
  have h : strlen demoName256 = 256 := by
    rw [strlen, cstr_of_no_nul _ demoName256_no_nul, demoName256, List.length_replicate]
  simp [nameLenByte, h, VA_MAX_TASK_NAME_LEN]

/-! ### Initialisation output -/

theorem digitChar_toNat (d : Nat) (hd : d < 10) :
    48 ≤ (Nat.digitChar d).toNat ∧ (Nat.digitChar d).toNat ≤ 57 := by
  interval_cases d <;> decide

theorem toDigitsCore_digits (fuel : Nat) :
    ∀ (n : Nat) (ds : List Char), (∀ c ∈ ds, 48 ≤ c.toNat ∧ c.toNat ≤ 57) →
      ∀ c ∈ Nat.toDigitsCore 10 fuel n ds, 48 ≤ c.toNat ∧ c.toNat ≤ 57 := by
  induction fuel with
  | zero => intro n ds hds c hc; exact hds c (by simpa [Nat.toDigitsCore] using hc)
  | succ fuel ih =>
    intro n ds hds c hc
    have hd := digitChar_toNat (n % 10) (Nat.mod_lt _ (by norm_num))
    have hds' : ∀ c ∈ Nat.digitChar (n % 10) :: ds, 48 ≤ c.toNat ∧ c.toNat ≤ 57 := by
      intro c hc
      rcases List.mem_cons.mp hc with rfl | hc
      · exact hd
      · exact hds c hc
    simp only [Nat.toDigitsCore] at hc
    split at hc
    · exact hds' c hc
    · exact ih _ _ hds' c hc

/-- Every byte that `%lu` prints is an ASCII digit. -/
theorem decimalBytes_digits (n : Nat) : ∀ b ∈ decimalBytes n, 48 ≤ b ∧ b ≤ 57 := by
  intro b hb
  simp only [decimalBytes, List.mem_map] at hb
  obtain ⟨c, hc, rfl⟩ := hb
  exact toDigitsCore_digits _ _ [] (by simp) c hc

theorem countOccurrences_absent (a : Nat) (pat bytes : List Nat) (h : a ∉ bytes) :
    countOccurrences (a :: pat) bytes = 0 := by
  induction bytes with
  | nil => simp [countOccurrences, List.isPrefixOf]
  | cons b bs ih =>
    have hb : a ≠ b := fun hab => h (by simp [hab])
    have hbs : a ∉ bs := fun hm => h (by simp [hm])
    have := ih hbs
    simp only [countOccurrences] at this ⊢
    simp [List.tails, List.countP_cons, List.isPrefixOf, hb, this]

/-- A pattern whose first byte occurs nowhere else in a stream that starts with the pattern
occurs exactly once in that stream. -/
theorem countOccurrences_head (a : Nat) (pat rest : List Nat) (h : a ∉ pat ++ rest) :
    countOccurrences (a :: pat) (a :: pat ++ rest) = 1 := by
  have h0 := countOccurrences_absent a pat (pat ++ rest) h
  have hp : (a :: pat).isPrefixOf (a :: (pat ++ rest)) = true := by
    rw [List.isPrefixOf_iff_prefix]
    exact List.prefix_append (a :: pat) rest
  simp only [countOccurrences] at h0 ⊢
  show List.countP _ ((a :: (pat ++ rest)) :: (pat ++ rest).tails) = 1
  rw [List.countP_cons_of_pos _ _ hp, h0]

theorem nameLenByte_le (name : List Nat) : nameLenByte name ≤ 15 := by
  simp only [nameLenByte, VA_MAX_TASK_NAME_LEN]
  split <;> omega

/-- The bytes `VA_Init` hands to the transport, one list per transport call. -/
theorem init_tx (s : State) (cpu_freq : Nat) :
    (VA_Init s cpu_freq).tx =
      s.tx ++ [VA_SYNC_MARKER,
        [0x7F, 0, nameLenByte ((str_CLK ++ decimalBytes cpu_freq).take 39)],
        ((str_CLK ++ decimalBytes cpu_freq).take 39).take
          (nameLenByte ((str_CLK ++ decimalBytes cpu_freq).take 39)),
        [0x71, 1, 7], str_SysTick] := by
  have h7 : nameLenByte str_SysTick = 7 := by decide
  have hm : VA_SYNC_MARKER.take 12 = VA_SYNC_MARKER := by decide
  have ht : str_SysTick.take 7 = str_SysTick := by decide
  simp only [VA_Init]
  rw [setup_packet_tx_nameLen _ _ _ _ (by simp [_va_send_bytes]),
    setup_packet_tx_nameLen _ _ _ _ (by simp [_va_send_bytes])]
  simp [_va_send_bytes, h7, hm, ht, VA_SETUP_INFO, VA_SETUP_ISR_MAP, VA_ISR_ID_SYSTICK]

/-! ### Sequential task IDs -/

theorem find?_distinct_handles (new rest : List VA_TaskMapEntry_t)
    (hact : ∀ t ∈ new, t.active = true) (hnd : (new.map (fun t => t.handle)).Nodup) :
    ∀ (k : Nat) (hk : k < new.length),
      (new ++ rest).find? (fun t => t.active && t.handle == new[k].handle) = some new[k] := by
  induction new with
  | nil => intro k hk; simp at hk
  | cons a as ih =>
    intro k hk
    have ha : a.active = true := hact a (by simp)
    cases k with
    | zero => simp [List.find?, ha]
    | succ k =>
      have hk' : k < as.length := by simpa using hk
      simp only [List.map_cons, List.nodup_cons] at hnd
      have hne : a.handle ≠ as[k].handle := by
        intro heq
        apply hnd.1
        rw [heq]
        exact List.mem_map.mpr ⟨as[k], List.getElem_mem _, rfl⟩
      have := ih (fun t ht => hact t (by simp [ht])) hnd.2 k hk'
      simp only [List.cons_append, List.getElem_cons_succ]
      rw [List.find?_cons_of_neg _ (by simp [hne])]
      exact this

theorem find?_absent (new rest : List VA_TaskMapEntry_t) (h : Nat)
    (hnew : ∀ t ∈ new, t.handle ≠ h) (hrest : ∀ t ∈ rest, t.active = false) :
    (new ++ rest).find? (fun t => t.active && t.handle == h) = none := by
  rw [List.find?_eq_none]
  intro t ht
  rcases List.mem_append.mp ht with ht | ht
  · simp [hnew t ht]
  · simp [hrest t ht]

/-- The task table after `VA_Init` and the registration of at most `VA_MAX_TASKS` non-null
handles: the new entries in order, then the free slots that are left. -/
theorem createTasks_after_init (e : Env) (s0 : State) (cpu_freq : Nat) (handles : List Nat)
    (hcap : s0.taskMap.length = VA_MAX_TASKS) (hlen : handles.length ≤ 32)
    (hnz : ∀ h ∈ handles, h ≠ 0) :
    ∃ new rest : List VA_TaskMapEntry_t,
      (createTasks e (VA_Init s0 cpu_freq) handles).taskMap = new ++ rest ∧
      new.map (fun t => t.handle) = handles ∧ (∀ t ∈ new, t.active = true) ∧
      new.map (fun t => t.id) = List.range' 1 handles.length ∧
      (∀ t ∈ rest, t.active = false) ∧ rest.length = 32 - handles.length ∧
      (createTasks e (VA_Init s0 cpu_freq) handles).next_task_id = handles.length + 1 := by
  obtain ⟨hl, hfree, hid⟩ := init_taskMap s0 cpu_freq
  obtain ⟨new, hmap, hhandles, hactive, hids, hnext⟩ :=
    createTasks_fill e handles (VA_Init s0 cpu_freq) [] (VA_Init s0 cpu_freq).taskMap
      (by simp) (by simp) hfree (by simp [hid])
      (by rw [hl, hcap]; exact hlen) (by simp; omega) hnz
  refine ⟨new, (VA_Init s0 cpu_freq).taskMap.drop handles.length, by simpa using hmap,
    hhandles, hactive, by simpa [Nat.add_comm] using hids, ?_, ?_, by simpa using hnext⟩
  · intro t ht
    exact hfree t (List.mem_of_mem_drop ht)
  · rw [List.length_drop, hl, hcap]
    rfl

/-! ### User functions and kind revision -/

theorem firstIndex_find? {α : Type} (p : α → Bool) (l : List α) :
    (firstIndex p l = none → l.find? p = none) ∧
      (∀ i, firstIndex p l = some i → l[i]? = l.find? p ∧ l.find? p ≠ none) := by
  constructor
  · intro h
    rw [List.find?_eq_none]
    intro x hx
    simpa using (firstIndex_none p l).mp h x hx
  · intro i h
    obtain ⟨front, x, back, rfl, rfl, hx, hfront⟩ := firstIndex_some p l i h
    rw [find?_append_hit p front x back hfront hx, getElem?_append_length]
    simp

theorem find?_none_firstIndex {α : Type} (p : α → Bool) (l : List α)
    (h : l.find? p = none) : firstIndex p l = none := by
  rw [firstIndex_none]
  intro x hx
  have := List.find?_eq_none.mp h x hx
  simpa using this

theorem assign_user_function_registered (s : State) (id : Nat) (name : List Nat)
    (hid : id ≠ 0) (hreg : _va_find_user_function_id s id ≠ 0) :
    _va_assign_user_function_id s id (some name) = (id, s) := by
  simp [_va_assign_user_function_id, hid, hreg]

theorem assign_user_function_new (s : State) (id : Nat) (name : List Nat) (slot : Nat)
    (hid : id ≠ 0) (hnew : _va_find_user_function_id s id = 0)
    (hslot : firstIndex (fun u => !u.active) s.userFunctionMap = some slot) :
    _va_assign_user_function_id s id (some name) =
      (id, _va_send_setup_packet
        { s with userFunctionMap :=
            s.userFunctionMap.set slot { id := id, name := storeName name, active := true } }
        VA_SETUP_USER_FUNCTION_MAP id (storeName name)) := by
  simp [_va_assign_user_function_id, hid, hnew, hslot]

theorem typeOfHint_le (typeHint : Option (List Nat)) : typeOfHint typeHint ≤ 4 := by
  cases typeHint with
  | none => simp [typeOfHint, VA_OBJECT_TYPE_QUEUE]
  | some h =>
    simp only [typeOfHint]
    split
    · simp [VA_OBJECT_TYPE_RECURSIVE_MUTEX]
    · split
      · simp [VA_OBJECT_TYPE_MUTEX]
      · split
        · simp [VA_OBJECT_TYPE_COUNTING_SEM]
        · split
          · simp [VA_OBJECT_TYPE_BINARY_SEM]
          · simp [VA_OBJECT_TYPE_QUEUE]

theorem setup_packet_type_cases (k : Nat) :
    _va_get_setup_packet_type k =
      if k = 1 ∨ k = 4 then 0x74 else if k = 2 ∨ k = 3 then 0x73 else 0x75 := by
  simp only [_va_get_setup_packet_type, VA_OBJECT_TYPE_QUEUE, VA_OBJECT_TYPE_MUTEX,
    VA_OBJECT_TYPE_RECURSIVE_MUTEX, VA_OBJECT_TYPE_COUNTING_SEM, VA_OBJECT_TYPE_BINARY_SEM,
    VA_SETUP_QUEUE_MAP, VA_SETUP_MUTEX_MAP, VA_SETUP_SEMAPHORE_MAP]
  by_cases h0 : k = 0
  · simp [h0]
  · by_cases h1 : k = 1
    · simp [h1]
    · by_cases h4 : k = 4
      · simp [h4]
      · by_cases h2 : k = 2
        · simp [h2]
        · by_cases h3 : k = 3
          · simp [h3]
          · simp [h0, h1, h2, h3, h4]

/-- The kind revision of a registered handle with a non-NULL hint. -/
theorem update_registered (s : State) (h : Nat) (hint : List Nat) (hh : h ≠ 0)
    (front back : List VA_QueueObjectMapEntry_t) (q : VA_QueueObjectMapEntry_t)
    (hmap : s.queueObjectMap = front ++ q :: back)
    (hfront : ∀ y ∈ front, (y.active && y.handle == h) = false)
    (hq : (q.active && q.handle == h) = true) :
    VA_UpdateQueueObjectType s h (some hint) =
      some (_va_send_setup_packet
        { s with queueObjectMap :=
            front ++ { q with type := typeOfHint (some hint),
                              name := storeName (revisedName hint) } :: back }
        (_va_get_setup_packet_type (typeOfHint (some hint))) q.id
        (storeName (revisedName hint))) := by
  have hidx : firstIndex (fun q => q.active && q.handle == h) s.queueObjectMap =
      some front.length := by
    rw [hmap]; exact firstIndex_append _ front q back hfront hq
  have hget : s.queueObjectMap[front.length]? = some q := by
    rw [hmap]; exact getElem?_append_length front q back
  have hset : ∀ y, s.queueObjectMap.set front.length y = front ++ y :: back := by
    intro y; rw [hmap]; exact set_append_length front q y back
  simp only [VA_UpdateQueueObjectType, hidx, hget, hset, revisedName]
  simp [hh]

/-! ### Notifications -/

theorem find_task_id_eq (s : State) (h : Nat) :
    _va_find_task_id s h =
      ((s.taskMap.find? (fun t => t.active && t.handle == h)).map (fun t => t.id)).getD 0 := by
  simp only [_va_find_task_id]
  cases s.taskMap.find? (fun t => t.active && t.handle == h) <;> rfl

/-- Rewriting a field other than `active`, `handle` and `id` of one entry does not change
what the handle lookup returns. -/
theorem find?_set_same_key (h : Nat) (l : List VA_TaskMapEntry_t) :
    ∀ (idx : Nat) (t t' : VA_TaskMapEntry_t), l[idx]? = some t → t'.active = t.active →
      t'.handle = t.handle → t'.id = t.id →
      ((l.set idx t').find? (fun u => u.active && u.handle == h)).map (fun u => u.id) =
        (l.find? (fun u => u.active && u.handle == h)).map (fun u => u.id) := by
  induction l with
  | nil => intro idx t t' hget; simp at hget
  | cons a as ih =>
    intro idx t t' hget ha hh hi
    cases idx with
    | zero =>
      simp only [List.getElem?_cons_zero, Option.some.injEq] at hget
      subst hget
      simp only [List.set_cons_zero, List.find?_cons, ha, hh]
      split <;> simp [hi]
    | succ idx =>
      simp only [List.getElem?_cons_succ] at hget
      simp only [List.set_cons_succ, List.find?_cons]
      split
      · rfl
      · exact ih idx t t' hget ha hh hi

theorem find_task_id_set_notifier (s : State) (idx : Nat) (t : VA_TaskMapEntry_t) (x h : Nat)
    (hget : s.taskMap[idx]? = some t) :
    _va_find_task_id { s with taskMap := s.taskMap.set idx { t with last_notifier := x } } h =
      _va_find_task_id s h := by
  rw [find_task_id_eq, find_task_id_eq]
  exact congrArg (fun o => Option.getD o 0)
    (find?_set_same_key h s.taskMap idx t { t with last_notifier := x } hget rfl rfl rfl)

theorem notification_packet_tx (s : State) (type_byte id other_id value timestamp : Nat)
    (hinit : s.VA_IS_INIT = true) :
    (_va_send_notification_event_packet s type_byte id other_id value timestamp).tx =
      s.tx ++ [[type_byte, id, other_id] ++ timestampBytes timestamp ++ uint32Bytes value] := by
  simp [_va_send_notification_event_packet, send_bytes_eq, hinit, timestampBytes, uint32Bytes]

theorem timestamp_fst_taskMap (e : Env) (s : State) (tm : List VA_TaskMapEntry_t) :
    (_va_get_timestamp e { s with taskMap := tm }).1 = (_va_get_timestamp e s).1 := by
  simp only [_va_get_timestamp]

/-- A notification packet sent from a state that differs from `s` in the task table only. -/
theorem notification_after_table_update (e : Env) (s : State) (tm : List VA_TaskMapEntry_t)
    (type_byte id other_id value : Nat) (hinit : s.VA_IS_INIT = true) :
    (_va_send_notification_event_packet (_va_get_timestamp e { s with taskMap := tm }).2
        type_byte id other_id value (_va_get_timestamp e { s with taskMap := tm }).1).tx =
      s.tx ++ [[type_byte, id, other_id] ++ timestampBytes (_va_get_timestamp e s).1 ++
        uint32Bytes value] := by
  have h1 : (_va_get_timestamp e { s with taskMap := tm }).2.VA_IS_INIT = true := by
    rw [timestamp_init_flag]; exact hinit
  rw [notification_packet_tx _ _ _ _ _ _ h1, timestamp_fst_taskMap, timestamp_tx]

/-- The state in which `VA_LogTaskNotifyGive` has recorded the notifier. -/
theorem notifyGive_table (s : State) (dest src : Nat) :
    ∃ tm, (match _va_find_task_index s dest with
      | some idx =>
        match s.taskMap[idx]? with
        | some t => { s with taskMap := s.taskMap.set idx { t with last_notifier := src } }
        | none => s
      | none => s) = { s with taskMap := tm } := by
  split
  · split
    · exact ⟨_, rfl⟩
    · exact ⟨s.taskMap, rfl⟩
  · exact ⟨s.taskMap, rfl⟩

/-- The give hook: what it encodes, in terms of the state before the call. -/
theorem notifyGive_tx (e : Env) (s : State) (dest value : Nat) (hinit : s.VA_IS_INIT = true) :
    (VA_LogTaskNotifyGive e s dest value).tx =
      s.tx ++ [[0x85, _va_find_task_id s e.xTaskGetCurrentTaskHandle, _va_find_task_id s dest] ++
        timestampBytes (_va_get_timestamp e s).1 ++ uint32Bytes value] := by
  have hty : VA_EVENT_FLAG_START_END ||| VA_EVENT_TASK_NOTIFY = 0x85 := by decide
  obtain ⟨tm, htm⟩ := notifyGive_table s dest e.xTaskGetCurrentTaskHandle
  simp only [VA_LogTaskNotifyGive, hty, htm]
  exact notification_after_table_update e s tm _ _ _ _ hinit

/-- The take hook: what it encodes, in terms of the state before the call. -/
theorem notifyTake_tx (e : Env) (s : State) (value : Nat) (hinit : s.VA_IS_INIT = true) :
    (VA_LogTaskNotifyTake e s value).tx =
      s.tx ++ [[0x05, _va_find_task_id s e.xTaskGetCurrentTaskHandle,
        _va_find_task_id s (lastNotifier s e.xTaskGetCurrentTaskHandle)] ++
        timestampBytes (_va_get_timestamp e s).1 ++ uint32Bytes value] := by
  obtain ⟨hnone, hsome⟩ := firstIndex_find?
    (fun t : VA_TaskMapEntry_t => t.active && t.handle == e.xTaskGetCurrentTaskHandle) s.taskMap
  simp only [VA_LogTaskNotifyTake, _va_find_task_index, lastNotifier]
  cases hidx : firstIndex
      (fun t : VA_TaskMapEntry_t => t.active && t.handle == e.xTaskGetCurrentTaskHandle)
      s.taskMap with
  | none =>
    rw [hnone hidx]
    exact notification_after_table_update e s s.taskMap _ _ _ _ hinit
  | some idx =>
    obtain ⟨hget, hne⟩ := hsome idx hidx
    cases hfind : s.taskMap.find?
        (fun t : VA_TaskMapEntry_t => t.active && t.handle == e.xTaskGetCurrentTaskHandle) with
    | none => exact absurd hfind hne
    | some t =>
      rw [hfind] at hget
      simp only [hget]
      rw [find_task_id_set_notifier s idx t 0 _ hget]
      exact notification_after_table_update e s _ _ _ _ _ hinit

/-! ### The transport gate before initialisation -/

theorem send_bytes_not_init (s : State) (data : List Nat) (n : Nat)
    (h : s.VA_IS_INIT = false) : _va_send_bytes s data n = s := by
  simp [_va_send_bytes, h]

theorem event_packet_not_init (s : State) (c i ts : Nat) (h : s.VA_IS_INIT = false) :
    _va_send_event_packet s c i ts = s := by
  simp [_va_send_event_packet, send_bytes_not_init, h]

theorem setup_packet_not_init (s : State) (c i : Nat) (n : List Nat)
    (h : s.VA_IS_INIT = false) : _va_send_setup_packet s c i n = s := by
  simp [_va_send_setup_packet, send_bytes_not_init, h]

theorem user_setup_packet_not_init (s : State) (i t : Nat) (n : List Nat)
    (h : s.VA_IS_INIT = false) : _va_send_user_setup_packet s i t n = s := by
  simp [_va_send_user_setup_packet, send_bytes_not_init, h]

theorem timestamp_not_init (e : Env) (s : State) (h : s.VA_IS_INIT = false) :
    (_va_get_timestamp e s).2.VA_IS_INIT = false := by
  simp [_va_get_timestamp, h]

theorem assign_task_not_init (s : State) (handle : Nat) (name : Option (List Nat))
    (h : s.VA_IS_INIT = false) :
    (_va_assign_task_id s handle name).2.tx = s.tx ∧
      (_va_assign_task_id s handle name).2.VA_IS_INIT = false := by
  unfold _va_assign_task_id
  split
  · exact ⟨rfl, h⟩
  · split
    · exact ⟨rfl, h⟩
    · split
      · exact ⟨rfl, h⟩
      · split
        · exact ⟨rfl, h⟩
        · simp [setup_packet_not_init, h]

theorem assign_queue_not_init (s : State) (handle : Nat) (name : Option (List Nat)) (type : Nat)
    (h : s.VA_IS_INIT = false) :
    (_va_assign_queue_object_id s handle name type).2.tx = s.tx ∧
      (_va_assign_queue_object_id s handle name type).2.VA_IS_INIT = false := by
  unfold _va_assign_queue_object_id
  split
  · exact ⟨rfl, h⟩
  · split
    · exact ⟨rfl, h⟩
    · split
      · exact ⟨rfl, h⟩
      · simp [setup_packet_not_init, h]

theorem assign_user_function_not_init (s : State) (id : Nat) (name : Option (List Nat))
    (h : s.VA_IS_INIT = false) :
    (_va_assign_user_function_id s id name).2.tx = s.tx ∧
      (_va_assign_user_function_id s id name).2.VA_IS_INIT = false := by
  unfold _va_assign_user_function_id
  split
  · exact ⟨rfl, h⟩
  · split
    · exact ⟨rfl, h⟩
    · split
      · exact ⟨rfl, h⟩
      · split
        · exact ⟨rfl, h⟩
        · simp [setup_packet_not_init, h]

theorem findOrAssign_not_init (e : Env) (s : State) (handle : Nat)
    (h : s.VA_IS_INIT = false) :
    (findOrAssignQueueObject e s handle).2.tx = s.tx ∧
      (findOrAssignQueueObject e s handle).2.VA_IS_INIT = false := by
  unfold findOrAssignQueueObject
  simp only []
  split
  · exact assign_queue_not_init s handle none _ h
  · exact ⟨rfl, h⟩

theorem taskSwitched_not_init (e : Env) (s : State) (c : Nat) (h : s.VA_IS_INIT = false) :
    (taskSwitched e s c).tx = s.tx ∧ (taskSwitched e s c).VA_IS_INIT = false := by
  have h1 := timestamp_not_init e s h
  have h2 := timestamp_not_init e (_va_get_timestamp e s).2 h1
  unfold taskSwitched
  simp only [event_packet_not_init _ _ _ _ h1, _va_send_stack_usage_packet,
    send_bytes_not_init _ _ _ h2]
  split
  · split
    · exact ⟨by simp, h2⟩
    · exact ⟨by simp, h1⟩
  · exact ⟨by simp, h1⟩

theorem taskCreated_not_init (e : Env) (s : State) (handle : Nat) (h : s.VA_IS_INIT = false) :
    (VA_TaskCreated e s handle).tx = s.tx ∧ (VA_TaskCreated e s handle).VA_IS_INIT = false := by
  have h1 := assign_task_not_init s handle (some ((e.pcTaskGetName handle).getD str_unnamed)) h
  have h2 := timestamp_not_init e _ h1.2
  unfold VA_TaskCreated
  simp only [_va_send_task_create_packet, send_bytes_not_init _ _ _ h2]
  split
  · exact ⟨by simp [h1.1], h2⟩
  · exact h1

theorem give_not_init (e : Env) (s : State) (handle timeout : Nat) (h : s.VA_IS_INIT = false) :
    (VA_LogQueueObjectGive e s handle timeout).tx = s.tx ∧
      (VA_LogQueueObjectGive e s handle timeout).VA_IS_INIT = false := by
  have h1 := findOrAssign_not_init e s handle h
  have h2 := timestamp_not_init e _ h1.2
  unfold VA_LogQueueObjectGive
  simp only [event_packet_not_init _ _ _ _ h2]
  split
  · exact ⟨rfl, h⟩
  · exact ⟨by simp [h1.1], h2⟩

theorem take_not_init (e : Env) (s : State) (handle timeout : Nat) (h : s.VA_IS_INIT = false) :
    (VA_LogQueueObjectTake e s handle timeout).tx = s.tx ∧
      (VA_LogQueueObjectTake e s handle timeout).VA_IS_INIT = false := by
  have h1 := findOrAssign_not_init e s handle h
  have h2 := timestamp_not_init e _ h1.2
  unfold VA_LogQueueObjectTake
  simp only [event_packet_not_init _ _ _ _ h2]
  split
  · exact ⟨rfl, h⟩
  · exact ⟨by simp [h1.1], h2⟩

theorem blocking_not_init (e : Env) (s : State) (handle : Nat) (h : s.VA_IS_INIT = false) :
    (VA_LogQueueObjectBlocking e s handle).tx = s.tx ∧
      (VA_LogQueueObjectBlocking e s handle).VA_IS_INIT = false := by
  have h1 := findOrAssign_not_init e s handle h
  have h2 := timestamp_not_init e _ h1.2
  unfold VA_LogQueueObjectBlocking
  simp only [_va_send_mutex_contention_packet, send_bytes_not_init _ _ _ h2]
  repeat (first | exact ⟨rfl, h⟩ | exact h1 | split)

theorem createWithType_not_init (e : Env) (s : State) (handle : Nat)
    (hint : Option (List Nat)) (h : s.VA_IS_INIT = false) :
    (VA_LogQueueObjectCreateWithType e s handle hint).tx = s.tx ∧
      (VA_LogQueueObjectCreateWithType e s handle hint).VA_IS_INIT = false := by
  unfold VA_LogQueueObjectCreateWithType
  split
  · exact ⟨rfl, h⟩
  · exact assign_queue_not_init s handle _ _ h

theorem update_not_init (s s' : State) (handle : Nat) (hint : Option (List Nat))
    (h : s.VA_IS_INIT = false) (hs : VA_UpdateQueueObjectType s handle hint = some s') :
    s'.tx = s.tx ∧ s'.VA_IS_INIT = false := by
  unfold VA_UpdateQueueObjectType at hs
  repeat' (split at hs)
  all_goals
    first
    | (cases hs; exact ⟨rfl, h⟩)
    | (cases hs; done)
    | (cases hs; simp [setup_packet_not_init, h])

theorem notifyGive_not_init (e : Env) (s : State) (dest value : Nat)
    (h : s.VA_IS_INIT = false) :
    (VA_LogTaskNotifyGive e s dest value).tx = s.tx ∧
      (VA_LogTaskNotifyGive e s dest value).VA_IS_INIT = false := by
  unfold VA_LogTaskNotifyGive
  simp only [_va_send_notification_event_packet]
  split
  · split
    · rw [send_bytes_not_init _ _ _ (by simp [h])]; simp [h]
    · rw [send_bytes_not_init _ _ _ (by simp [h])]; simp [h]
  · rw [send_bytes_not_init _ _ _ (by simp [h])]; simp [h]

theorem notifyTake_not_init (e : Env) (s : State) (value : Nat)
    (h : s.VA_IS_INIT = false) :
    (VA_LogTaskNotifyTake e s value).tx = s.tx ∧
      (VA_LogTaskNotifyTake e s value).VA_IS_INIT = false := by
  unfold VA_LogTaskNotifyTake
  simp only [_va_send_notification_event_packet]
  split
  · split
    · rw [send_bytes_not_init _ _ _ (by simp [h])]; simp [h]
    · rw [send_bytes_not_init _ _ _ (by simp [h])]; simp [h]
  · rw [send_bytes_not_init _ _ _ (by simp [h])]; simp [h]

theorem userTrace_not_init (e : Env) (s : State) (id : Nat) (value : Int)
    (h : s.VA_IS_INIT = false) :
    (VA_LogUserTrace e s id value).tx = s.tx ∧
      (VA_LogUserTrace e s id value).VA_IS_INIT = false := by
  have h1 := timestamp_not_init e s h
  unfold VA_LogUserTrace
  simp only [_va_send_user_event_packet, send_bytes_not_init _ _ _ h1]
  exact ⟨by simp, h1⟩

theorem userToggle_not_init (e : Env) (s : State) (id : Nat) (state : Bool)
    (h : s.VA_IS_INIT = false) :
    (VA_LogUserToggleEvent e s id state).tx = s.tx ∧
      (VA_LogUserToggleEvent e s id state).VA_IS_INIT = false := by
  have h1 := timestamp_not_init e s h
  unfold VA_LogUserToggleEvent
  simp only [_va_send_user_toggle_event_packet, send_bytes_not_init _ _ _ h1]
  exact ⟨by simp, h1⟩

theorem userEvent_not_init (e : Env) (s : State) (id : Nat) (state : Bool)
    (h : s.VA_IS_INIT = false) :
    (VA_LogUserEvent e s id state).tx = s.tx ∧
      (VA_LogUserEvent e s id state).VA_IS_INIT = false := by
  have h1 := timestamp_not_init e s h
  unfold VA_LogUserEvent
  simp only [event_packet_not_init _ _ _ _ h1]
  split
  · exact ⟨rfl, h⟩
  · exact ⟨by simp, h1⟩

theorem registerUserTrace_not_init (s : State) (id : Nat) (name : Option (List Nat))
    (type : Nat) (h : s.VA_IS_INIT = false) : VA_RegisterUserTrace s id name type = s := by
  unfold VA_RegisterUserTrace
  simp only [setup_packet_not_init _ _ _ _ h, user_setup_packet_not_init _ _ _ _ h]
  repeat (first | rfl | split)

theorem registerUserFunction_not_init (s : State) (id : Nat) (name : Option (List Nat))
    (h : s.VA_IS_INIT = false) :
    (VA_RegisterUserFunction s id name).tx = s.tx ∧
      (VA_RegisterUserFunction s id name).VA_IS_INIT = false := by
  unfold VA_RegisterUserFunction
  split
  · exact ⟨rfl, h⟩
  · split
    · exact ⟨rfl, h⟩
    · exact assign_user_function_not_init s id _ h

theorem runCall_not_init (e : Env) (s s' : State) (c : Call) (h : s.VA_IS_INIT = false)
    (hc : ∀ f, c ≠ Call.init f) (hr : runCall e s c = some s') :
    s'.tx = s.tx ∧ s'.VA_IS_INIT = false := by
  cases c with
  | init f => exact absurd rfl (hc f)
  | updateQueueObjectType q hint => exact update_not_init s s' q hint h hr
  | logISRStart i =>
    cases Option.some.inj hr; simp [VA_LogISRStart, h]
  | logISREnd i =>
    cases Option.some.inj hr; simp [VA_LogISREnd, h]
  | taskSwitchedIn => cases Option.some.inj hr; exact taskSwitched_not_init e s _ h
  | taskSwitchedOut => cases Option.some.inj hr; exact taskSwitched_not_init e s _ h
  | taskCreated t => cases Option.some.inj hr; exact taskCreated_not_init e s t h
  | trackDWTOverflow => cases Option.some.inj hr; exact ⟨rfl, h⟩
  | isInit => cases Option.some.inj hr; exact ⟨rfl, h⟩
  | registerUserTrace i n t =>
    cases Option.some.inj hr; rw [registerUserTrace_not_init s i n t h]; exact ⟨rfl, h⟩
  | logUserTrace i v => cases Option.some.inj hr; exact userTrace_not_init e s i v h
  | logUserToggleEvent i st => cases Option.some.inj hr; exact userToggle_not_init e s i st h
  | registerUserFunction i n =>
    cases Option.some.inj hr; exact registerUserFunction_not_init s i n h
  | logUserEvent i st => cases Option.some.inj hr; exact userEvent_not_init e s i st h
  | logTaskNotifyGive d v => cases Option.some.inj hr; exact notifyGive_not_init e s d v h
  | logTaskNotifyTake v => cases Option.some.inj hr; exact notifyTake_not_init e s v h
  | logQueueObjectCreate q n =>
    cases Option.some.inj hr; exact createWithType_not_init e s q n h
  | logQueueObjectCreateWithType q n =>
    cases Option.some.inj hr; exact createWithType_not_init e s q n h
  | logQueueObjectGive q t => cases Option.some.inj hr; exact give_not_init e s q t h
  | logQueueObjectTake q t => cases Option.some.inj hr; exact take_not_init e s q t h
  | logQueueObjectBlocking q => cases Option.some.inj hr; exact blocking_not_init e s q h
  | logSemaphoreGive q => cases Option.some.inj hr; exact give_not_init e s q 0 h
  | logSemaphoreTake q t => cases Option.some.inj hr; exact take_not_init e s q t h
  | logSemaphoreCreate q n =>
    cases Option.some.inj hr; exact createWithType_not_init e s q n h
  | logMutexAcquire q t => cases Option.some.inj hr; exact take_not_init e s q t h
  | logMutexRelease q => cases Option.some.inj hr; exact give_not_init e s q 0 h
  | logMutexCreate q n => cases Option.some.inj hr; exact createWithType_not_init e s q n h
  | logQueueSend q t => cases Option.some.inj hr; exact give_not_init e s q t h
  | logQueueReceive q t => cases Option.some.inj hr; exact take_not_init e s q t h
  | logQueueCreate q n => cases Option.some.inj hr; exact createWithType_not_init e s q n h

theorem runCalls_not_init (calls : List (Env × Call)) (s s' : State)
    (h : s.VA_IS_INIT = false) (hc : ∀ x ∈ calls, ∀ f, x.2 ≠ Call.init f)
    (hr : runCalls s calls = some s') : s'.tx = s.tx ∧ s'.VA_IS_INIT = false := by
  induction calls generalizing s with
  | nil => cases Option.some.inj hr; exact ⟨rfl, h⟩
  | cons x rest ih =>
    obtain ⟨e, c⟩ := x
    simp only [runCalls] at hr
    cases hstep : runCall e s c with
    | none => rw [hstep] at hr; cases hr
    | some s1 =>
      rw [hstep] at hr
      have h1 := runCall_not_init e s s1 c h (hc (e, c) (List.mem_cons_self _ _)) hstep
      have h2 := ih s1 h1.2 (fun x hx => hc x (List.mem_cons_of_mem _ hx)) hr
      exact ⟨h2.1.trans h1.1, h2.2⟩

/-! ### Lazy registration of sync objects -/

theorem timestamp_fst_congr (e : Env) (s s' : State) (h1 : s'.nreads = s.nreads)
    (h2 : s'.g_dwt_overflow_count = s.g_dwt_overflow_count)
    (h3 : s'.last_dwt_value = s.last_dwt_value) :
    (_va_get_timestamp e s').1 = (_va_get_timestamp e s).1 := by
  simp only [_va_get_timestamp, h1, h2, h3]

theorem setup_packet_frame (s : State) (c i : Nat) (n : List Nat) :
    (_va_send_setup_packet s c i n).nreads = s.nreads ∧
      (_va_send_setup_packet s c i n).g_dwt_overflow_count = s.g_dwt_overflow_count ∧
      (_va_send_setup_packet s c i n).last_dwt_value = s.last_dwt_value ∧
      (_va_send_setup_packet s c i n).next_queue_object_id = s.next_queue_object_id := by
  simp [_va_send_setup_packet, send_bytes_eq]

theorem event_packet_frame (s : State) (c i ts : Nat) :
    (_va_send_event_packet s c i ts).queueObjectMap = s.queueObjectMap ∧
      (_va_send_event_packet s c i ts).next_queue_object_id = s.next_queue_object_id ∧
      (_va_send_event_packet s c i ts).taskMap = s.taskMap := by
  simp [_va_send_event_packet, send_bytes_eq]

theorem default_name_bytes (type : Nat) :
    nameLenByte (storeName (_va_get_object_type_name type)) =
        (_va_get_object_type_name type).length ∧
      (storeName (_va_get_object_type_name type)).take (_va_get_object_type_name type).length =
        _va_get_object_type_name type := by
  unfold _va_get_object_type_name
  split_ifs <;> decide

theorem find_queue_id_zero_of_absent (s : State) (h : Nat)
    (hnot : s.queueObjectMap.find? (fun q => q.active && q.handle == h) = none) :
    _va_find_queue_object_id s h = 0 := by
  simp [_va_find_queue_object_id, hnot]

theorem assign_queue_new (e : Env) (s : State) (h slot : Nat) (hh : h ≠ 0)
    (hslot : firstIndex (fun q => !q.active) s.queueObjectMap = some slot)
    (hctr : s.next_queue_object_id ≠ 0) :
    _va_assign_queue_object_id s h none (_va_get_queue_object_type e h) =
      (s.next_queue_object_id,
       _va_send_setup_packet (lazyRegistered e s h slot)
         (_va_get_setup_packet_type (_va_get_queue_object_type e h)) s.next_queue_object_id
         (storeName (_va_get_object_type_name (_va_get_queue_object_type e h)))) := by
  simp [_va_assign_queue_object_id, hh, hslot, hctr, lazyRegistered, lazyQueueEntry]

theorem assign_queue_full (s : State) (h : Nat) (name : Option (List Nat)) (type : Nat)
    (hfull : ∀ q ∈ s.queueObjectMap, q.active = true) :
    _va_assign_queue_object_id s h name type = (0, s) := by
  have hidx : firstIndex (fun q => !q.active) s.queueObjectMap = none :=
    (firstIndex_none _ _).2 (fun q hq => by simp [hfull q hq])
  simp only [_va_assign_queue_object_id, hidx]
  split <;> rfl

theorem find?_lazyRegistered (e : Env) (s : State) (h slot : Nat)
    (hnot : s.queueObjectMap.find? (fun q => q.active && q.handle == h) = none)
    (hslot : firstIndex (fun q => !q.active) s.queueObjectMap = some slot) :
    (lazyRegistered e s h slot).queueObjectMap.find? (fun q => q.active && q.handle == h) =
      some (lazyQueueEntry e s h) := by
  obtain ⟨front, x, back, hmap, hlen, -, -⟩ := firstIndex_some _ _ _ hslot
  have hall : ∀ y ∈ front, (y.active && y.handle == h) = false := by
    intro y hy
    have := List.find?_eq_none.1 hnot y (by rw [hmap]; exact List.mem_append_left _ hy)
    simpa using this
  have hset : (lazyRegistered e s h slot).queueObjectMap =
      front ++ lazyQueueEntry e s h :: back := by
    simp only [lazyRegistered, hmap, ← hlen]
    exact set_append_length _ _ _ _
  rw [hset]
  exact find?_append_hit _ _ _ _ hall (by simp [lazyQueueEntry])

theorem findOrAssign_lazy (e : Env) (s : State) (h slot : Nat) (hh : h ≠ 0)
    (hnot : s.queueObjectMap.find? (fun q => q.active && q.handle == h) = none)
    (hslot : firstIndex (fun q => !q.active) s.queueObjectMap = some slot)
    (hctr : s.next_queue_object_id ≠ 0) :
    findOrAssignQueueObject e s h =
      (s.next_queue_object_id,
       _va_send_setup_packet (lazyRegistered e s h slot)
         (_va_get_setup_packet_type (_va_get_queue_object_type e h)) s.next_queue_object_id
         (storeName (_va_get_object_type_name (_va_get_queue_object_type e h)))) := by
  simp [findOrAssignQueueObject, find_queue_id_zero_of_absent s h hnot,
    assign_queue_new e s h slot hh hslot hctr]

/-- What every hook finds in the table once the lazy registration has run. -/
theorem lazy_lookup (e : Env) (s s' : State) (h slot : Nat)
    (hnot : s.queueObjectMap.find? (fun q => q.active && q.handle == h) = none)
    (hslot : firstIndex (fun q => !q.active) s.queueObjectMap = some slot)
    (hmap : s'.queueObjectMap = (lazyRegistered e s h slot).queueObjectMap) :
    _va_find_queue_object_id s' h = s.next_queue_object_id ∧
      _va_get_stored_queue_object_type e s' h = _va_get_queue_object_type e h := by
  have hf := find?_lazyRegistered e s h slot hnot hslot
  simp [_va_find_queue_object_id, _va_get_stored_queue_object_type, hmap, hf, lazyQueueEntry]

theorem give_lazy (e : Env) (s : State) (h timeout slot : Nat) (hh : h ≠ 0)
    (hnot : s.queueObjectMap.find? (fun q => q.active && q.handle == h) = none)
    (hslot : firstIndex (fun q => !q.active) s.queueObjectMap = some slot)
    (hctr : s.next_queue_object_id ≠ 0) :
    VA_LogQueueObjectGive e s h timeout =
      _va_send_event_packet
        (_va_get_timestamp e (_va_send_setup_packet (lazyRegistered e s h slot)
          (_va_get_setup_packet_type (_va_get_queue_object_type e h)) s.next_queue_object_id
          (storeName (_va_get_object_type_name (_va_get_queue_object_type e h))))).2
        (0x80 ||| eventTypeOfKind (_va_get_queue_object_type e h)) s.next_queue_object_id
        (_va_get_timestamp e s).1 := by
  have hl := lazy_lookup e s (_va_send_setup_packet (lazyRegistered e s h slot)
    (_va_get_setup_packet_type (_va_get_queue_object_type e h)) s.next_queue_object_id
    (storeName (_va_get_object_type_name (_va_get_queue_object_type e h)))) h slot hnot hslot
    (by simp)
  have hf := setup_packet_frame (lazyRegistered e s h slot)
    (_va_get_setup_packet_type (_va_get_queue_object_type e h)) s.next_queue_object_id
    (storeName (_va_get_object_type_name (_va_get_queue_object_type e h)))
  have hts := timestamp_fst_congr e s _ hf.1 hf.2.1 hf.2.2.1
  simp only [VA_LogQueueObjectGive, findOrAssign_lazy e s h slot hh hnot hslot hctr, hl.2, hts]
  simp [hh, VA_EVENT_FLAG_START_END]

theorem take_lazy (e : Env) (s : State) (h timeout slot : Nat) (hh : h ≠ 0)
    (hnot : s.queueObjectMap.find? (fun q => q.active && q.handle == h) = none)
    (hslot : firstIndex (fun q => !q.active) s.queueObjectMap = some slot)
    (hctr : s.next_queue_object_id ≠ 0) :
    VA_LogQueueObjectTake e s h timeout =
      _va_send_event_packet
        (_va_get_timestamp e (_va_send_setup_packet (lazyRegistered e s h slot)
          (_va_get_setup_packet_type (_va_get_queue_object_type e h)) s.next_queue_object_id
          (storeName (_va_get_object_type_name (_va_get_queue_object_type e h))))).2
        (eventTypeOfKind (_va_get_queue_object_type e h)) s.next_queue_object_id
        (_va_get_timestamp e s).1 := by
  have hl := lazy_lookup e s (_va_send_setup_packet (lazyRegistered e s h slot)
    (_va_get_setup_packet_type (_va_get_queue_object_type e h)) s.next_queue_object_id
    (storeName (_va_get_object_type_name (_va_get_queue_object_type e h)))) h slot hnot hslot
    (by simp)
  have hf := setup_packet_frame (lazyRegistered e s h slot)
    (_va_get_setup_packet_type (_va_get_queue_object_type e h)) s.next_queue_object_id
    (storeName (_va_get_object_type_name (_va_get_queue_object_type e h)))
  have hts := timestamp_fst_congr e s _ hf.1 hf.2.1 hf.2.2.1
  simp only [VA_LogQueueObjectTake, findOrAssign_lazy e s h slot hh hnot hslot hctr, hl.2, hts]
  simp [hh]

theorem blocking_lazy_table (e : Env) (s : State) (h slot : Nat) (hh : h ≠ 0)
    (hnot : s.queueObjectMap.find? (fun q => q.active && q.handle == h) = none)
    (hslot : firstIndex (fun q => !q.active) s.queueObjectMap = some slot)
    (hctr : s.next_queue_object_id ≠ 0) :
    (VA_LogQueueObjectBlocking e s h).queueObjectMap =
        (lazyRegistered e s h slot).queueObjectMap ∧
      (VA_LogQueueObjectBlocking e s h).next_queue_object_id =
        (lazyRegistered e s h slot).next_queue_object_id := by
  have hf := setup_packet_frame (lazyRegistered e s h slot)
    (_va_get_setup_packet_type (_va_get_queue_object_type e h)) s.next_queue_object_id
    (storeName (_va_get_object_type_name (_va_get_queue_object_type e h)))
  have hh0 : (h == 0) = false := by simpa using hh
  simp only [VA_LogQueueObjectBlocking, findOrAssign_lazy e s h slot hh hnot hslot hctr,
    _va_send_mutex_contention_packet, hh0, Bool.false_eq_true, if_false]
  split_ifs <;> refine ⟨?_, ?_⟩ <;>
    first
    | exact hf.2.2.2
    | (simp only [send_bytes_next_queue_object_id]; exact hf.2.2.2)
    | simp

/-! ### A full sync-object table, an unregistered current task -/

theorem findOrAssign_full (e : Env) (s : State) (h : Nat)
    (hfull : ∀ q ∈ s.queueObjectMap, q.active = true)
    (hnot : s.queueObjectMap.find? (fun q => q.active && q.handle == h) = none) :
    findOrAssignQueueObject e s h = (0, s) := by
  simp [findOrAssignQueueObject, find_queue_id_zero_of_absent s h hnot,
    assign_queue_full s h none _ hfull]

theorem stored_type_absent (e : Env) (s : State) (h : Nat)
    (hnot : s.queueObjectMap.find? (fun q => q.active && q.handle == h) = none) :
    _va_get_stored_queue_object_type e s h = _va_get_queue_object_type e h := by
  simp [_va_get_stored_queue_object_type, hnot]

theorem give_full (e : Env) (s : State) (h timeout : Nat) (hh : h ≠ 0)
    (hfull : ∀ q ∈ s.queueObjectMap, q.active = true)
    (hnot : s.queueObjectMap.find? (fun q => q.active && q.handle == h) = none) :
    VA_LogQueueObjectGive e s h timeout =
      _va_send_event_packet (_va_get_timestamp e s).2
        (0x80 ||| eventTypeOfKind (_va_get_queue_object_type e h)) 0
        (_va_get_timestamp e s).1 := by
  simp only [VA_LogQueueObjectGive, findOrAssign_full e s h hfull hnot,
    stored_type_absent e s h hnot]
  simp [hh, VA_EVENT_FLAG_START_END]

theorem take_full (e : Env) (s : State) (h timeout : Nat) (hh : h ≠ 0)
    (hfull : ∀ q ∈ s.queueObjectMap, q.active = true)
    (hnot : s.queueObjectMap.find? (fun q => q.active && q.handle == h) = none) :
    VA_LogQueueObjectTake e s h timeout =
      _va_send_event_packet (_va_get_timestamp e s).2
        (eventTypeOfKind (_va_get_queue_object_type e h)) 0 (_va_get_timestamp e s).1 := by
  simp only [VA_LogQueueObjectTake, findOrAssign_full e s h hfull hnot,
    stored_type_absent e s h hnot]
  simp [hh]

theorem taskSwitched_unregistered (e : Env) (s : State) (c : Nat)
    (hcur : _va_find_task_id s e.xTaskGetCurrentTaskHandle = 0) :
    taskSwitched e s c =
      _va_send_event_packet (_va_get_timestamp e s).2 c 0 (_va_get_timestamp e s).1 := by
  simp [taskSwitched, hcur]

theorem timestampBytes_length (ts : Nat) : (timestampBytes ts).length = 8 := rfl

/-! ### Empty names -/

theorem storeName_empty (name : List Nat) (hempty : strlen name = 0) :
    storeName name = List.replicate 16 0 := by
  have hc : cstr name = [] := List.length_eq_zero.1 hempty
  simp [storeName, strncpy, hc, VA_MAX_TASK_NAME_LEN]

theorem nameLenByte_empty (name : List Nat) (hempty : strlen name = 0) :
    nameLenByte name = 0 := by
  simp [nameLenByte, hempty, VA_MAX_TASK_NAME_LEN]

theorem setup_packet_userFunctionMap (s : State) (c i : Nat) (n : List Nat) :
    (_va_send_setup_packet s c i n).userFunctionMap = s.userFunctionMap := by
  simp [_va_send_setup_packet, send_bytes_eq]

/-! ### The clock-frequency text -/

theorem decimalBytes_length_le (f : Nat) (hf : f < 2 ^ 32) : (decimalBytes f).length ≤ 10 := by
  have h := Nat.toDigitsCore_length 10 (by decide) (f + 1) f 10
    (lt_of_lt_of_le hf (by norm_num)) (by decide)
  simpa [decimalBytes, Nat.toDigits] using h

theorem clk_text_no_nul (f : Nat) : ∀ b ∈ str_CLK ++ decimalBytes f, b ≠ 0 := by
  intro b hb
  rcases List.mem_append.1 hb with h | h
  · simp only [str_CLK, List.mem_cons, List.mem_singleton, List.not_mem_nil, or_false] at h
    rcases h with rfl | rfl | rfl | rfl <;> decide
  · have := decimalBytes_digits f b h
    omega

theorem clk_text_nameLen (f : Nat) (hf : f < 2 ^ 32) :
    (str_CLK ++ decimalBytes f).take 39 = str_CLK ++ decimalBytes f ∧
      nameLenByte (str_CLK ++ decimalBytes f) = 4 + (decimalBytes f).length := by
  have hlen := decimalBytes_length_le f hf
  have hl : (str_CLK ++ decimalBytes f).length = 4 + (decimalBytes f).length := by
    simp only [str_CLK, List.length_append, List.length_cons, List.length_nil]
  constructor
  · exact List.take_of_length_le (by omega)
  · have hs : strlen (str_CLK ++ decimalBytes f) = 4 + (decimalBytes f).length := by
      rw [strlen, cstr_of_no_nul _ (clk_text_no_nul f), hl]
    simp only [nameLenByte, hs, VA_MAX_TASK_NAME_LEN]
    have : (4 + (decimalBytes f).length) % 256 = 4 + (decimalBytes f).length := by omega
    rw [this, if_neg (by omega)]

theorem decimalBytes_length_pos (f : Nat) : 1 ≤ (decimalBytes f).length := by
  simp only [decimalBytes, List.length_map, Nat.toDigits, Nat.toDigitsCore]
  split
  · simp
  · rw [Nat.toDigitsCore_lens_eq]
    omega

/-! ### Task creation and task switches -/

theorem setup_packet_globals (s : State) (c i : Nat) (n : List Nat) :
    (_va_send_setup_packet s c i n).g_task_uxPriority = s.g_task_uxPriority ∧
      (_va_send_setup_packet s c i n).g_task_uxBasePriority = s.g_task_uxBasePriority ∧
      (_va_send_setup_packet s c i n).g_task_ulStackDepth = s.g_task_ulStackDepth := by
  simp [_va_send_setup_packet, send_bytes_eq]

theorem task_create_packet_tx (s : State) (i ts p b d : Nat) (hinit : s.VA_IS_INIT = true) :
    (_va_send_task_create_packet s i ts p b d).tx =
      s.tx ++ [[0x03, i] ++ timestampBytes ts ++ uint32Bytes p ++ uint32Bytes b ++
        uint32Bytes d] := by
  simp [_va_send_task_create_packet, _va_send_bytes, hinit, timestampBytes, uint32Bytes,
    VA_EVENT_TASK_CREATE]

theorem stack_usage_packet_tx (s : State) (i ts u t : Nat) (hinit : s.VA_IS_INIT = true) :
    (_va_send_stack_usage_packet s i ts u t).tx =
      s.tx ++ [[0x09, i] ++ timestampBytes ts ++ uint32Bytes u ++ uint32Bytes t] := by
  simp [_va_send_stack_usage_packet, _va_send_bytes, hinit, timestampBytes, uint32Bytes,
    VA_EVENT_TASK_STACK_USAGE]

theorem taskCreated_success (e : Env) (s : State) (h slot : Nat) (hh : h ≠ 0)
    (hslot : firstIndex (fun t => !t.active) s.taskMap = some slot)
    (hctr : s.next_task_id ≠ 0) :
    VA_TaskCreated e s h =
      _va_send_task_create_packet
        (_va_get_timestamp e
          (_va_send_setup_packet
            { s with next_task_id := (s.next_task_id + 1) % 256,
                     taskMap := s.taskMap.set slot
                       (newTaskEntry s h ((e.pcTaskGetName h).getD str_unnamed)) }
            VA_SETUP_TASK_MAP s.next_task_id
            (storeName ((e.pcTaskGetName h).getD str_unnamed)))).2
        s.next_task_id (_va_get_timestamp e s).1 s.g_task_uxPriority s.g_task_uxBasePriority
        s.g_task_ulStackDepth := by
  have hf := setup_packet_frame
    { s with next_task_id := (s.next_task_id + 1) % 256,
             taskMap := s.taskMap.set slot
               (newTaskEntry s h ((e.pcTaskGetName h).getD str_unnamed)) }
    VA_SETUP_TASK_MAP s.next_task_id (storeName ((e.pcTaskGetName h).getD str_unnamed))
  have hg := setup_packet_globals
    { s with next_task_id := (s.next_task_id + 1) % 256,
             taskMap := s.taskMap.set slot
               (newTaskEntry s h ((e.pcTaskGetName h).getD str_unnamed)) }
    VA_SETUP_TASK_MAP s.next_task_id (storeName ((e.pcTaskGetName h).getD str_unnamed))
  have hts := timestamp_fst_congr e s _ hf.1 hf.2.1 hf.2.2.1
  have hpos : s.next_task_id > 0 := Nat.pos_of_ne_zero hctr
  simp only [VA_TaskCreated, assign_task_success s h _ slot hslot hh hctr, hts, hg.1, hg.2.1,
    hg.2.2, hpos, if_true]

theorem taskCreated_failure (e : Env) (s : State) (h : Nat)
    (hfail : h = 0 ∨ firstIndex (fun t => !t.active) s.taskMap = none ∨ s.next_task_id = 0) :
    VA_TaskCreated e s h = s := by
  have h0 : _va_assign_task_id s h (some ((e.pcTaskGetName h).getD str_unnamed)) = (0, s) := by
    simp only [_va_assign_task_id]
    rcases hfail with rfl | hnone | hz
    · simp
    · rw [hnone]; split <;> rfl
    · split
      · rfl
      · split
        · rfl
        · simp [hz]
  simp [VA_TaskCreated, h0]

theorem stack_usage_congr (e : Env) (s s' : State) (h : Nat) (hm : s'.taskMap = s.taskMap) :
    _va_calculate_stack_usage e s' h = _va_calculate_stack_usage e s h ∧
      _va_get_total_stack_size s' h = _va_get_total_stack_size s h := by
  simp only [_va_calculate_stack_usage, _va_get_total_stack_size, _va_find_task_index, hm]
  exact ⟨trivial, trivial⟩

theorem taskSwitched_eq (e : Env) (s : State) (c : Nat) :
    taskSwitched e s c =
      if _va_find_task_id s e.xTaskGetCurrentTaskHandle ≠ 0 ∧
          _va_get_total_stack_size s e.xTaskGetCurrentTaskHandle > 0 then
        _va_send_stack_usage_packet
          (_va_get_timestamp e
            (_va_send_event_packet (_va_get_timestamp e s).2 c
              (_va_find_task_id s e.xTaskGetCurrentTaskHandle) (_va_get_timestamp e s).1)).2
          (_va_find_task_id s e.xTaskGetCurrentTaskHandle)
          (_va_get_timestamp e (_va_get_timestamp e s).2).1
          (_va_calculate_stack_usage e s e.xTaskGetCurrentTaskHandle)
          (_va_get_total_stack_size s e.xTaskGetCurrentTaskHandle)
      else
        _va_send_event_packet (_va_get_timestamp e s).2 c
          (_va_find_task_id s e.xTaskGetCurrentTaskHandle) (_va_get_timestamp e s).1 := by
  have hm : (_va_send_event_packet (_va_get_timestamp e s).2 c
      (_va_find_task_id s e.xTaskGetCurrentTaskHandle) (_va_get_timestamp e s).1).taskMap =
      s.taskMap := by
    rw [(event_packet_frame _ _ _ _).2.2]; rfl
  have hc := stack_usage_congr e s _ e.xTaskGetCurrentTaskHandle hm
  have hts : (_va_get_timestamp e (_va_send_event_packet (_va_get_timestamp e s).2 c
      (_va_find_task_id s e.xTaskGetCurrentTaskHandle) (_va_get_timestamp e s).1)).1 =
      (_va_get_timestamp e (_va_get_timestamp e s).2).1 := by
    apply timestamp_fst_congr <;> simp [_va_send_event_packet, send_bytes_eq]
  simp only [taskSwitched, hc.1, hc.2, hts]
  by_cases hid : _va_find_task_id s e.xTaskGetCurrentTaskHandle = 0
  · simp [hid]
  · by_cases htot : _va_get_total_stack_size s e.xTaskGetCurrentTaskHandle > 0
    · simp [hid, htot]
    · simp [hid, htot]

theorem stack_usage_formula (e : Env) (s : State) (h : Nat)
    (hinc : e.INCLUDE_uxTaskGetStackHighWaterMark = true)
    (hpos : _va_get_total_stack_size s h > 0) :
    _va_calculate_stack_usage e s h =
      (_va_get_total_stack_size s h + 2 ^ 32 - e.uxTaskGetStackHighWaterMark h % 2 ^ 32) %
        2 ^ 32 := by
  simp only [_va_calculate_stack_usage, _va_get_total_stack_size, hinc, if_true] at hpos ⊢
  cases hidx : _va_find_task_index s h with
  | none => simp [hidx] at hpos
  | some idx =>
    cases ht : s.taskMap[idx]? with
    | none => simp [hidx, ht] at hpos
    | some t =>
      simp only [hidx, ht] at hpos
      have hpos2 : 0 < t.ulStackDepth := hpos
      simp only [ht, hpos2, if_true]

/-! ### Notification bookkeeping -/

theorem notification_packet_taskMap (s : State) (c i o v ts : Nat) :
    (_va_send_notification_event_packet s c i o v ts).taskMap = s.taskMap := by
  simp [_va_send_notification_event_packet, send_bytes_eq]

theorem notifyGive_taskMap (e : Env) (s : State) (dest value : Nat)
    (front back : List VA_TaskMapEntry_t) (t : VA_TaskMapEntry_t)
    (hmap : s.taskMap = front ++ t :: back)
    (hfront : ∀ y ∈ front, (y.active && y.handle == dest) = false)
    (ht : (t.active && t.handle == dest) = true) :
    (VA_LogTaskNotifyGive e s dest value).taskMap =
      front ++ { t with last_notifier := e.xTaskGetCurrentTaskHandle } :: back := by
  have hidx : _va_find_task_index s dest = some front.length := by
    rw [_va_find_task_index, hmap]; exact firstIndex_append _ _ _ _ hfront ht
  have hget : s.taskMap[front.length]? = some t := by
    rw [hmap]; exact getElem?_append_length _ _ _
  simp only [VA_LogTaskNotifyGive, hidx, hget, notification_packet_taskMap, timestamp_taskMap]
  rw [hmap]; exact set_append_length _ _ _ _

theorem notifyTake_taskMap (e : Env) (s : State) (value : Nat)
    (front back : List VA_TaskMapEntry_t) (t : VA_TaskMapEntry_t)
    (hmap : s.taskMap = front ++ t :: back)
    (hfront : ∀ y ∈ front, (y.active && y.handle == e.xTaskGetCurrentTaskHandle) = false)
    (ht : (t.active && t.handle == e.xTaskGetCurrentTaskHandle) = true) :
    (VA_LogTaskNotifyTake e s value).taskMap =
        front ++ { t with last_notifier := 0 } :: back ∧
      lastNotifier s e.xTaskGetCurrentTaskHandle = t.last_notifier := by
  have hidx : _va_find_task_index s e.xTaskGetCurrentTaskHandle = some front.length := by
    rw [_va_find_task_index, hmap]; exact firstIndex_append _ _ _ _ hfront ht
  have hget : s.taskMap[front.length]? = some t := by
    rw [hmap]; exact getElem?_append_length _ _ _
  constructor
  · simp only [VA_LogTaskNotifyTake, hidx, hget, notification_packet_taskMap,
      timestamp_taskMap]
    rw [hmap]; exact set_append_length _ _ _ _
  · simp only [lastNotifier, hmap, find?_append_hit _ _ _ _ hfront ht]

/-- The ID lookup does not read the recorded notifier. -/
theorem find_task_id_notifier (s s' : State) (front back : List VA_TaskMapEntry_t)
    (t : VA_TaskMapEntry_t) (x h : Nat) (hmap : s.taskMap = front ++ t :: back)
    (hmap' : s'.taskMap = front ++ { t with last_notifier := x } :: back) :
    _va_find_task_id s' h = _va_find_task_id s h := by
  simp only [_va_find_task_id, hmap, hmap', List.find?_append, List.find?_cons]
  cases hf : front.find? (fun t => t.active && t.handle == h) with
  | some y => rfl
  | none =>
    simp only [Option.none_or]
    cases hc : (t.active && t.handle == h) <;> simp [hc]

theorem notification_packet_init_flag (s : State) (c i o v ts : Nat) :
    (_va_send_notification_event_packet s c i o v ts).VA_IS_INIT = s.VA_IS_INIT := by
  simp [_va_send_notification_event_packet, send_bytes_eq]

theorem notifyGive_init_flag (e : Env) (s : State) (dest value : Nat) :
    (VA_LogTaskNotifyGive e s dest value).VA_IS_INIT = s.VA_IS_INIT := by
  obtain ⟨tm, htm⟩ := notifyGive_table s dest e.xTaskGetCurrentTaskHandle
  simp only [VA_LogTaskNotifyGive, htm, notification_packet_init_flag, timestamp_init_flag]

theorem notifyTake_init_flag (e : Env) (s : State) (value : Nat) :
    (VA_LogTaskNotifyTake e s value).VA_IS_INIT = s.VA_IS_INIT := by
  simp only [VA_LogTaskNotifyTake, notification_packet_init_flag, timestamp_init_flag]
  split
  · split <;> rfl
  · rfl

/-! ### The ITM backend -/

theorem itm_word_value (d0 d1 d2 d3 : Nat) (h0 : d0 < 256) (h1 : d1 < 256) (h2 : d2 < 256)
    (h3 : d3 < 256) :
    ((d3 <<< 24) ||| (d2 <<< 16) ||| (d1 <<< 8) ||| (d0 <<< 0)) % 2 ^ 32 =
      d0 + 256 * d1 + 65536 * d2 + 16777216 * d3 := by
  have e3 : d3 <<< 24 = 2 ^ 24 * d3 := by rw [Nat.shiftLeft_eq, Nat.mul_comm]
  have e2 : d2 <<< 16 = 2 ^ 16 * d2 := by rw [Nat.shiftLeft_eq, Nat.mul_comm]
  have e1 : d1 <<< 8 = 2 ^ 8 * d1 := by rw [Nat.shiftLeft_eq, Nat.mul_comm]
  have e0 : d0 <<< 0 = d0 := by simp
  have s1 : 2 ^ 24 * d3 ||| 2 ^ 16 * d2 = 2 ^ 16 * (256 * d3 + d2) := by
    rw [← Nat.mul_add_lt_is_or (by omega)]; omega
  have s2 : 2 ^ 16 * (256 * d3 + d2) ||| 2 ^ 8 * d1 = 2 ^ 8 * (65536 * d3 + 256 * d2 + d1) := by
    rw [← Nat.mul_add_lt_is_or (by omega)]; omega
  have s3 : 2 ^ 8 * (65536 * d3 + 256 * d2 + d1) ||| d0 =
      2 ^ 8 * (65536 * d3 + 256 * d2 + d1) + d0 := by
    rw [← Nat.mul_add_lt_is_or (by omega)]
  rw [e3, e2, e1, e0, s1, s2, s3]
  omega

theorem itmBytes_word (d0 d1 d2 d3 : Nat) (h0 : d0 < 256) (h1 : d1 < 256) (h2 : d2 < 256)
    (h3 : d3 < 256) :
    itmBytes (ITMWrite.u32
      (((d3 <<< 24) ||| (d2 <<< 16) ||| (d1 <<< 8) ||| (d0 <<< 0)) % 2 ^ 32)) =
      [d0, d1, d2, d3] := by
  rw [itm_word_value d0 d1 d2 d3 h0 h1 h2 h3]
  simp only [itmBytes, Nat.shiftRight_eq_div_pow]
  congr 1
  · omega
  · congr 1
    · omega
    · congr 1
      · omega
      · congr 1
        omega

theorem drop_eq_getD_cons (data : List Nat) (i : Nat) (h : i < data.length) :
    data.drop i = data.getD i 0 :: data.drop (i + 1) := by
  rw [List.drop_eq_getElem_cons h, List.getD_eq_getElem?_getD, List.getElem?_eq_getElem h]
  rfl

theorem getD_lt_of_bytes (data : List Nat) (hb : ∀ b ∈ data, b < 256) (i : Nat) :
    data.getD i 0 < 256 := by
  rw [List.getD_eq_getElem?_getD]
  cases h : data[i]? with
  | none => simp
  | some b =>
    obtain ⟨hi, rfl⟩ := List.getElem?_eq_some.1 h
    exact hb _ (List.getElem_mem _)

theorem itmByteLoop_spec (data : List Nat) (hb : ∀ b ∈ data, b < 256) :
    ∀ (n i : Nat) (port : List ITMWrite), i + n ≤ data.length →
      itmByteLoop data i n port = port ++ ((data.drop i).take n).map ITMWrite.u8 := by
  intro n
  induction n with
  | zero => intro i port _; simp [itmByteLoop]
  | succ n ih =>
    intro i port hlen
    rw [itmByteLoop, ih (i + 1) _ (by omega), drop_eq_getD_cons data i (by omega)]
    have hlt := getD_lt_of_bytes data hb i
    rw [List.getD_eq_getElem?_getD] at hlt
    simp [ITM_SendU8, Nat.mod_eq_of_lt hlt]

theorem itmWordLoop_spec (data : List Nat) (hb : ∀ b ∈ data, b < 256) :
    ∀ (n i : Nat) (port : List ITMWrite), i + n ≤ data.length →
      (itmWordLoop data i n port).1 = i + 4 * (n / 4) ∧
      (itmWordLoop data i n port).2.1 = n % 4 ∧
      ∃ words : List ITMWrite,
        (itmWordLoop data i n port).2.2 = port ++ words ∧ words.length = n / 4 ∧
        (∀ w ∈ words, w.isWord = true) ∧
        (words.map itmBytes).flatten = (data.drop i).take (4 * (n / 4)) := by
  intro n
  induction n using Nat.strong_induction_on with
  | _ n ih =>
    intro i port hlen
    by_cases hn : n < 4
    · have hq : n / 4 = 0 := Nat.div_eq_of_lt hn
      have hr : n % 4 = n := Nat.mod_eq_of_lt hn
      have hloop : itmWordLoop data i n port = (i, n, port) := by
        interval_cases n <;> rfl
      rw [hloop, hq, hr]
      exact ⟨rfl, rfl, [], by simp, rfl, by simp, by simp⟩
    · obtain ⟨m, rfl⟩ : ∃ m, n = m + 4 := ⟨n - 4, by omega⟩
      have hq : (m + 4) / 4 = m / 4 + 1 := by omega
      have hr : (m + 4) % 4 = m % 4 := by omega
      obtain ⟨h1, h2, words, h3, h4, h5, h6⟩ := ih m (by omega) (i + 4)
        (ITM_SendU32 port ((data.getD (i + 3) 0 <<< 24) ||| (data.getD (i + 2) 0 <<< 16) |||
          (data.getD (i + 1) 0 <<< 8) ||| (data.getD (i + 0) 0 <<< 0))) (by omega)
      rw [itmWordLoop, hq, hr]
      refine ⟨by rw [h1]; omega, h2, ?_⟩
      refine ⟨ITMWrite.u32 (((data.getD (i + 3) 0 <<< 24) ||| (data.getD (i + 2) 0 <<< 16) |||
          (data.getD (i + 1) 0 <<< 8) ||| (data.getD (i + 0) 0 <<< 0)) % 2 ^ 32) :: words,
        ?_, by simp [h4], ?_, ?_⟩
      · rw [h3]; simp [ITM_SendU32]
      · intro w hw
        rcases List.mem_cons.1 hw with rfl | hw
        · rfl
        · exact h5 w hw
      · rw [List.map_cons, List.flatten_cons, h6,
          itmBytes_word _ _ _ _ (getD_lt_of_bytes data hb _) (getD_lt_of_bytes data hb _)
            (getD_lt_of_bytes data hb _) (getD_lt_of_bytes data hb _),
          drop_eq_getD_cons data i (by omega), drop_eq_getD_cons data (i + 1) (by omega),
          drop_eq_getD_cons data (i + 2) (by omega), drop_eq_getD_cons data (i + 3) (by omega)]
        have : 4 * (m / 4 + 1) = 4 * (m / 4) + 1 + 1 + 1 + 1 := by omega
        rw [this]
        simp

/-! ### How the entry points change the registries -/

theorem tablesOf_send_bytes (s : State) (data : List Nat) (n : Nat) :
    tablesOf (_va_send_bytes s data n) = tablesOf s := by
  simp [tablesOf, send_bytes_eq]

theorem tablesOf_timestamp (e : Env) (s : State) :
    tablesOf (_va_get_timestamp e s).2 = tablesOf s := rfl

theorem tablesOf_event_packet (s : State) (c i ts : Nat) :
    tablesOf (_va_send_event_packet s c i ts) = tablesOf s :=
  tablesOf_send_bytes s _ _

theorem tablesOf_setup_packet (s : State) (c i : Nat) (n : List Nat) :
    tablesOf (_va_send_setup_packet s c i n) = tablesOf s := by
  simp only [_va_send_setup_packet, tablesOf_send_bytes]

theorem tablesOf_user_setup_packet (s : State) (i t : Nat) (n : List Nat) :
    tablesOf (_va_send_user_setup_packet s i t n) = tablesOf s := by
  simp only [_va_send_user_setup_packet, tablesOf_send_bytes]

theorem taskSwitched_tables (e : Env) (s : State) (c : Nat) :
    tablesOf (taskSwitched e s c) = tablesOf s := by
  rw [taskSwitched_eq]
  split
  · simp only [_va_send_stack_usage_packet, tablesOf_send_bytes, tablesOf_timestamp,
      tablesOf_event_packet]
  · simp only [tablesOf_event_packet, tablesOf_timestamp]

theorem isr_tables (e : Env) (s : State) (i : Nat) :
    tablesOf (VA_LogISRStart e s i) = tablesOf s ∧ tablesOf (VA_LogISREnd e s i) = tablesOf s := by
  simp only [VA_LogISRStart, VA_LogISREnd]
  constructor <;> split <;>
    simp only [tablesOf_event_packet, tablesOf_timestamp]

theorem user_hooks_tables (e : Env) (s : State) (i : Nat) (v : Int) (st : Bool)
    (name : Option (List Nat)) (type : Nat) :
    tablesOf (VA_LogUserTrace e s i v) = tablesOf s ∧
      tablesOf (VA_LogUserToggleEvent e s i st) = tablesOf s ∧
      tablesOf (VA_LogUserEvent e s i st) = tablesOf s ∧
      tablesOf (VA_RegisterUserTrace s i name type) = tablesOf s := by
  refine ⟨?_, ?_, ?_, ?_⟩
  · simp only [VA_LogUserTrace, _va_send_user_event_packet, tablesOf_send_bytes,
      tablesOf_timestamp]
  · simp only [VA_LogUserToggleEvent, _va_send_user_toggle_event_packet, tablesOf_send_bytes,
      tablesOf_timestamp]
  · simp only [VA_LogUserEvent]
    split
    · rfl
    · simp only [tablesOf_event_packet, tablesOf_timestamp]
  · simp only [VA_RegisterUserTrace]
    repeat (first | rfl | exact tablesOf_setup_packet _ _ _ _ |
      exact tablesOf_user_setup_packet _ _ _ _ | split)

theorem taskCreated_tableStep (e : Env) (s : State) (h : Nat) :
    TableStep (tablesOf s) (tablesOf (VA_TaskCreated e s h)) := by
  by_cases hfail : h = 0 ∨ firstIndex (fun t => !t.active) s.taskMap = none ∨ s.next_task_id = 0
  · rw [taskCreated_failure e s h hfail]
    exact TableStep.same _
  · have hh : h ≠ 0 := fun hz => hfail (Or.inl hz)
    have hctr : s.next_task_id ≠ 0 := fun hz => hfail (Or.inr (Or.inr hz))
    obtain ⟨slot, hslot⟩ : ∃ slot, firstIndex (fun t => !t.active) s.taskMap = some slot := by
      cases hidx : firstIndex (fun t => !t.active) s.taskMap with
      | none => exact absurd (Or.inr (Or.inl hidx)) hfail
      | some slot => exact ⟨slot, rfl⟩
    rw [taskCreated_success e s h slot hh hslot hctr]
    simp only [_va_send_task_create_packet, tablesOf_send_bytes, tablesOf_timestamp,
      tablesOf_setup_packet]
    exact TableStep.taskAssign (tablesOf s) slot
      (newTaskEntry s h ((e.pcTaskGetName h).getD str_unnamed)) hslot hctr rfl rfl ⟨_, rfl⟩

theorem notifyGive_tableStep (e : Env) (s : State) (dest value : Nat) :
    TableStep (tablesOf s) (tablesOf (VA_LogTaskNotifyGive e s dest value)) := by
  simp only [VA_LogTaskNotifyGive, _va_send_notification_event_packet, tablesOf_send_bytes,
    tablesOf_timestamp]
  split
  · split
    · rename_i _ idx _ _ t ht
      exact TableStep.taskNotifier (tablesOf s) idx t _ ht
    · exact TableStep.same _
  · exact TableStep.same _

theorem notifyTake_tableStep (e : Env) (s : State) (value : Nat) :
    TableStep (tablesOf s) (tablesOf (VA_LogTaskNotifyTake e s value)) := by
  simp only [VA_LogTaskNotifyTake, _va_send_notification_event_packet, tablesOf_send_bytes,
    tablesOf_timestamp]
  split
  · split
    · rename_i _ idx _ _ t ht
      exact TableStep.taskNotifier (tablesOf s) idx t _ ht
    · exact TableStep.same _
  · exact TableStep.same _

theorem assign_queue_tableStep (s : State) (h : Nat) (name : Option (List Nat)) (type : Nat) :
    TableStep (tablesOf s) (tablesOf (_va_assign_queue_object_id s h name type).2) := by
  unfold _va_assign_queue_object_id
  split
  · exact TableStep.same _
  · split
    · exact TableStep.same _
    · rename_i slot hslot
      split
      · exact TableStep.same _
      · rename_i hctr
        simp only [tablesOf_setup_packet]
        refine TableStep.queueAssign (tablesOf s) slot _ hslot (by simpa using hctr) rfl rfl ?_
        cases name with
        | none => exact ⟨_, rfl⟩
        | some n =>
          simp only []
          split
          · exact ⟨_, rfl⟩
          · exact ⟨_, rfl⟩

theorem findOrAssign_tableStep (e : Env) (s : State) (h : Nat) :
    TableStep (tablesOf s) (tablesOf (findOrAssignQueueObject e s h).2) := by
  unfold findOrAssignQueueObject
  simp only []
  split
  · exact assign_queue_tableStep s h none _
  · exact TableStep.same _

theorem give_tableStep (e : Env) (s : State) (h timeout : Nat) :
    TableStep (tablesOf s) (tablesOf (VA_LogQueueObjectGive e s h timeout)) := by
  unfold VA_LogQueueObjectGive
  split
  · exact TableStep.same _
  · simp only [tablesOf_event_packet, tablesOf_timestamp]
    exact findOrAssign_tableStep e s h

theorem take_tableStep (e : Env) (s : State) (h timeout : Nat) :
    TableStep (tablesOf s) (tablesOf (VA_LogQueueObjectTake e s h timeout)) := by
  unfold VA_LogQueueObjectTake
  split
  · exact TableStep.same _
  · simp only [tablesOf_event_packet, tablesOf_timestamp]
    exact findOrAssign_tableStep e s h

theorem blocking_tableStep (e : Env) (s : State) (h : Nat) :
    TableStep (tablesOf s) (tablesOf (VA_LogQueueObjectBlocking e s h)) := by
  unfold VA_LogQueueObjectBlocking
  simp only [_va_send_mutex_contention_packet]
  repeat (first
    | exact TableStep.same _
    | exact findOrAssign_tableStep e s h
    | (simp only [tablesOf_send_bytes, tablesOf_timestamp]; exact findOrAssign_tableStep e s h)
    | split)

theorem createWithType_tableStep (e : Env) (s : State) (h : Nat) (hint : Option (List Nat)) :
    TableStep (tablesOf s) (tablesOf (VA_LogQueueObjectCreateWithType e s h hint)) := by
  unfold VA_LogQueueObjectCreateWithType
  split
  · exact TableStep.same _
  · exact assign_queue_tableStep s h _ _

theorem update_tableStep (s s' : State) (h : Nat) (hint : Option (List Nat))
    (hs : VA_UpdateQueueObjectType s h hint = some s') :
    TableStep (tablesOf s) (tablesOf s') := by
  unfold VA_UpdateQueueObjectType at hs
  split at hs
  · cases hs; exact TableStep.same _
  · split at hs
    · cases hs; exact TableStep.same _
    · rename_i idx hidx
      cases hint with
      | none => cases hs
      | some hintText =>
        simp only [] at hs
        cases hget : s.queueObjectMap[idx]? with
        | none =>
          rw [hget] at hs
          cases hs; exact TableStep.same _
        | some old =>
          rw [hget] at hs
          cases Option.some.inj hs
          simp only [tablesOf_setup_packet]
          exact TableStep.queueUpdate (tablesOf s) idx old _ _ hget

theorem registerUserFunction_tableStep (s : State) (id : Nat) (name : Option (List Nat)) :
    TableStep (tablesOf s) (tablesOf (VA_RegisterUserFunction s id name)) := by
  unfold VA_RegisterUserFunction
  split
  · exact TableStep.same _
  · split
    · exact TableStep.same _
    · unfold _va_assign_user_function_id
      simp only []
      repeat (first
        | exact TableStep.same _
        | (simp only [tablesOf_setup_packet]; exact TableStep.userAssign (tablesOf s) _ _ _)
        | split)

theorem init_tableStep (s : State) (cpu_freq : Nat) :
    TableStep (tablesOf s) (tablesOf (VA_Init s cpu_freq)) := by
  simp only [VA_Init, tablesOf_setup_packet, tablesOf_send_bytes]
  exact TableStep.reset (tablesOf s)

theorem runCall_tableStep (e : Env) (s s' : State) (c : Call) (hr : runCall e s c = some s') :
    TableStep (tablesOf s) (tablesOf s') := by
  cases c with
  | updateQueueObjectType q hint => exact update_tableStep s s' q hint hr
  | init f => cases Option.some.inj hr; exact init_tableStep s f
  | logISRStart i => cases Option.some.inj hr; rw [(isr_tables e s i).1]; exact TableStep.same _
  | logISREnd i => cases Option.some.inj hr; rw [(isr_tables e s i).2]; exact TableStep.same _
  | taskSwitchedIn =>
    cases Option.some.inj hr
    rw [VA_TaskSwitchedIn, taskSwitched_tables]; exact TableStep.same _
  | taskSwitchedOut =>
    cases Option.some.inj hr
    rw [VA_TaskSwitchedOut, taskSwitched_tables]; exact TableStep.same _
  | taskCreated t => cases Option.some.inj hr; exact taskCreated_tableStep e s t
  | trackDWTOverflow => cases Option.some.inj hr; exact TableStep.same _
  | isInit => cases Option.some.inj hr; exact TableStep.same _
  | registerUserTrace i n t =>
    cases Option.some.inj hr
    rw [(user_hooks_tables e s i 0 false n t).2.2.2]; exact TableStep.same _
  | logUserTrace i v =>
    cases Option.some.inj hr
    rw [(user_hooks_tables e s i v false none 0).1]; exact TableStep.same _
  | logUserToggleEvent i st =>
    cases Option.some.inj hr
    rw [(user_hooks_tables e s i 0 st none 0).2.1]; exact TableStep.same _
  | registerUserFunction i n =>
    cases Option.some.inj hr; exact registerUserFunction_tableStep s i n
  | logUserEvent i st =>
    cases Option.some.inj hr
    rw [(user_hooks_tables e s i 0 st none 0).2.2.1]; exact TableStep.same _
  | logTaskNotifyGive d v => cases Option.some.inj hr; exact notifyGive_tableStep e s d v
  | logTaskNotifyTake v => cases Option.some.inj hr; exact notifyTake_tableStep e s v
  | logQueueObjectCreate q n => cases Option.some.inj hr; exact createWithType_tableStep e s q n
  | logQueueObjectCreateWithType q n =>
    cases Option.some.inj hr; exact createWithType_tableStep e s q n
  | logQueueObjectGive q t => cases Option.some.inj hr; exact give_tableStep e s q t
  | logQueueObjectTake q t => cases Option.some.inj hr; exact take_tableStep e s q t
  | logQueueObjectBlocking q => cases Option.some.inj hr; exact blocking_tableStep e s q
  | logSemaphoreGive q => cases Option.some.inj hr; exact give_tableStep e s q 0
  | logSemaphoreTake q t => cases Option.some.inj hr; exact take_tableStep e s q t
  | logSemaphoreCreate q n => cases Option.some.inj hr; exact createWithType_tableStep e s q n
  | logMutexAcquire q t => cases Option.some.inj hr; exact take_tableStep e s q t
  | logMutexRelease q => cases Option.some.inj hr; exact give_tableStep e s q 0
  | logMutexCreate q n => cases Option.some.inj hr; exact createWithType_tableStep e s q n
  | logQueueSend q t => cases Option.some.inj hr; exact give_tableStep e s q t
  | logQueueReceive q t => cases Option.some.inj hr; exact take_tableStep e s q t
  | logQueueCreate q n => cases Option.some.inj hr; exact createWithType_tableStep e s q n

/-- An invariant of the registries that every kind of step preserves holds in every reachable
state. -/
theorem reachable_tables_induction (P : Tables → Prop) (h0 : P (tablesOf powerOn))
    (hstep : ∀ T T', P T → TableStep T T' → P T') (s : State) (hs : Reachable s) :
    P (tablesOf s) := by
  induction hs with
  | start => exact h0
  | call e c s s' _ hr ih => exact hstep _ _ ih (runCall_tableStep e s s' c hr)
  | store s a b c d f g _ ih => exact ih

/-! ### Dense tables -/

theorem firstIndex_map {α β : Type} (f : α → β) (p : β → Bool) (l : List α) :
    firstIndex p (l.map f) = firstIndex (fun a => p (f a)) l := by
  induction l with
  | nil => rfl
  | cons a l ih => simp only [List.map_cons, firstIndex, ih]

theorem map_set_same_key {α β : Type} (f : α → β) (l : List α) (idx : Nat) (t t' : α)
    (hget : l[idx]? = some t) (hkey : f t' = f t) : (l.set idx t').map f = l.map f := by
  induction l generalizing idx with
  | nil => rfl
  | cons a l ih =>
    cases idx with
    | zero =>
      simp only [List.getElem?_cons_zero, Option.some.injEq] at hget
      subst hget
      simp [hkey]
    | succ idx =>
      simp only [List.getElem?_cons_succ] at hget
      simp [ih idx hget]

theorem denseKeys_split (n : Nat) (hn : n < VA_MAX_TASKS) :
    denseKeys n = (List.range n).map (fun i => (true, i + 1)) ++
      (false, 0) :: List.replicate (VA_MAX_TASKS - (n + 1)) (false, 0) := by
  have h : VA_MAX_TASKS - n = (VA_MAX_TASKS - (n + 1)) + 1 := by omega
  rw [denseKeys, h, List.replicate_succ]

theorem denseKeys_length (n : Nat) (hn : n ≤ VA_MAX_TASKS) :
    (denseKeys n).length = VA_MAX_TASKS := by
  simp only [denseKeys, List.length_append, List.length_map, List.length_range,
    List.length_replicate]
  omega

theorem firstIndex_denseKeys (n : Nat) (hn : n ≤ VA_MAX_TASKS) :
    firstIndex (fun p : Bool × Nat => !p.1) (denseKeys n) =
      if n < VA_MAX_TASKS then some n else none := by
  by_cases hlt : n < VA_MAX_TASKS
  · rw [if_pos hlt, denseKeys_split n hlt]
    have h := firstIndex_append (fun p : Bool × Nat => !p.1)
      ((List.range n).map (fun i => (true, i + 1))) (false, 0)
      (List.replicate (VA_MAX_TASKS - (n + 1)) (false, 0))
      (by intro y hy; obtain ⟨i, -, rfl⟩ := List.mem_map.1 hy; rfl) rfl
    simpa using h
  · rw [if_neg hlt]
    have hz : VA_MAX_TASKS - n = 0 := by omega
    rw [firstIndex_none, denseKeys, hz]
    intro x hx
    simp only [List.replicate_zero, List.append_nil] at hx
    obtain ⟨i, -, rfl⟩ := List.mem_map.1 hx
    rfl

theorem denseKeys_set (n : Nat) (hn : n < VA_MAX_TASKS) :
    (denseKeys n).set n (true, n + 1) = denseKeys (n + 1) := by
  rw [denseKeys_split n hn]
  have hlen : ((List.range n).map (fun i => ((true, i + 1) : Bool × Nat))).length = n := by simp
  have h := set_append_length ((List.range n).map (fun i => ((true, i + 1) : Bool × Nat)))
    (false, 0) (true, n + 1) (List.replicate (VA_MAX_TASKS - (n + 1)) (false, 0))
  rw [hlen] at h
  rw [h, denseKeys, List.range_succ, List.map_append]
  simp

theorem denseKeys_zero_of_reset {α : Type} (l : List α) (hlen : l.length = VA_MAX_TASKS) :
    l.map (fun _ => ((false, 0) : Bool × Nat)) = denseKeys 0 := by
  rw [denseKeys, List.range_zero, List.map_nil, List.nil_append, Nat.sub_zero, ← hlen]
  exact List.map_const' l (false, 0)

theorem dense_assign (keys : List (Bool × Nat)) (n next slot : Nat) (hn : n ≤ VA_MAX_TASKS)
    (hnext : next = n + 1) (hkeys : keys = denseKeys n)
    (hslot : firstIndex (fun p : Bool × Nat => !p.1) keys = some slot) :
    n + 1 ≤ VA_MAX_TASKS ∧ (next + 1) % 256 = (n + 1) + 1 ∧
      keys.set slot (true, next) = denseKeys (n + 1) := by
  rw [hkeys, firstIndex_denseKeys n hn] at hslot
  have hlt : n < VA_MAX_TASKS := by
    by_contra hc
    rw [if_neg hc] at hslot
    cases hslot
  rw [if_pos hlt] at hslot
  cases Option.some.inj hslot
  have h32 : VA_MAX_TASKS = 32 := rfl
  refine ⟨hlt, by omega, ?_⟩
  rw [hkeys, hnext]
  exact denseKeys_set n hlt

theorem tablesDense_powerOn : tablesDense (tablesOf powerOn) := by
  refine ⟨⟨0, by decide, rfl, by decide⟩, ⟨0, by decide, rfl, by decide⟩⟩

theorem tablesDense_step (T T' : Tables) (hT : tablesDense T) (hstep : TableStep T T') :
    tablesDense T' := by
  obtain ⟨⟨n, hn, hnext, hkeys⟩, ⟨m, hm, hmnext, hmkeys⟩⟩ := hT
  cases hstep with
  | same => exact ⟨⟨n, hn, hnext, hkeys⟩, ⟨m, hm, hmnext, hmkeys⟩⟩
  | taskAssign slot entry hslot hctr hact hid hname =>
    have hs : firstIndex (fun p : Bool × Nat => !p.1)
        (T.taskMap.map (fun t => (t.active, t.id))) = some slot := by
      rw [firstIndex_map]; exact hslot
    obtain ⟨h1, h2, h3⟩ := dense_assign _ n T.next_task_id slot hn hnext hkeys hs
    refine ⟨⟨n + 1, h1, h2, ?_⟩, ⟨m, hm, hmnext, hmkeys⟩⟩
    simp only [List.map_set, hact, hid]
    exact h3
  | taskNotifier idx t x hget =>
    refine ⟨⟨n, hn, hnext, ?_⟩, ⟨m, hm, hmnext, hmkeys⟩⟩
    exact (map_set_same_key (fun (t : VA_TaskMapEntry_t) => (t.active, t.id)) T.taskMap idx t
      { t with last_notifier := x } hget rfl).trans hkeys
  | queueAssign slot entry hslot hctr hact hid hname =>
    have hs : firstIndex (fun p : Bool × Nat => !p.1)
        (T.queueObjectMap.map (fun q => (q.active, q.id))) = some slot := by
      rw [firstIndex_map]; exact hslot
    obtain ⟨h1, h2, h3⟩ := dense_assign _ m T.next_queue_object_id slot hm hmnext hmkeys hs
    refine ⟨⟨n, hn, hnext, hkeys⟩, ⟨m + 1, h1, h2, ?_⟩⟩
    simp only [List.map_set, hact, hid]
    exact h3
  | queueUpdate idx old type x hget =>
    refine ⟨⟨n, hn, hnext, hkeys⟩, ⟨m, hm, hmnext, ?_⟩⟩
    exact (map_set_same_key (fun (q : VA_QueueObjectMapEntry_t) => (q.active, q.id))
      T.queueObjectMap idx old { old with type := type, name := storeName x } hget rfl).trans
      hmkeys
  | userAssign slot id x => exact ⟨⟨n, hn, hnext, hkeys⟩, ⟨m, hm, hmnext, hmkeys⟩⟩
  | reset =>
    refine ⟨⟨0, by decide, rfl, ?_⟩, ⟨m, hm, hmnext, hmkeys⟩⟩
    have hlen : T.taskMap.length = VA_MAX_TASKS := by
      have := congrArg List.length hkeys
      rw [List.length_map, denseKeys_length n hn] at this
      exact this
    simp only [List.map_map]
    exact denseKeys_zero_of_reset T.taskMap hlen

theorem tablesNamed_powerOn : tablesNamed (tablesOf powerOn) := by
  refine ⟨?_, ?_, ?_⟩ <;> intro t ht hact
  · have : t = emptyTaskEntry := List.eq_of_mem_replicate ht
    rw [this] at hact; cases hact
  · have : t = emptyQueueObjectEntry := List.eq_of_mem_replicate ht
    rw [this] at hact; cases hact
  · have : t = emptyUserFunctionEntry := List.eq_of_mem_replicate ht
    rw [this] at hact; cases hact

theorem tablesNamed_step (T T' : Tables) (hT : tablesNamed T) (hstep : TableStep T T') :
    tablesNamed T' := by
  obtain ⟨ht, hq, hu⟩ := hT
  cases hstep with
  | same => exact ⟨ht, hq, hu⟩
  | taskAssign slot entry hslot hctr hact hid hname =>
    refine ⟨?_, hq, hu⟩
    intro t hmem ha
    rcases List.mem_or_eq_of_mem_set hmem with h | rfl
    · exact ht t h ha
    · exact hname
  | taskNotifier idx t x hget =>
    refine ⟨?_, hq, hu⟩
    intro t' hmem ha
    rcases List.mem_or_eq_of_mem_set hmem with h | rfl
    · exact ht t' h ha
    · obtain ⟨hi, rfl⟩ := List.getElem?_eq_some.1 hget
      exact ht (T.taskMap.get ⟨idx, hi⟩) (List.getElem_mem _) ha
  | queueAssign slot entry hslot hctr hact hid hname =>
    refine ⟨ht, ?_, hu⟩
    intro q hmem ha
    rcases List.mem_or_eq_of_mem_set hmem with h | rfl
    · exact hq q h ha
    · exact hname
  | queueUpdate idx old type x hget =>
    refine ⟨ht, ?_, hu⟩
    intro q hmem ha
    rcases List.mem_or_eq_of_mem_set hmem with h | rfl
    · exact hq q h ha
    · exact ⟨x, rfl⟩
  | userAssign slot id x =>
    refine ⟨ht, hq, ?_⟩
    intro u hmem ha
    rcases List.mem_or_eq_of_mem_set hmem with h | rfl
    · exact hu u h ha
    · exact ⟨x, rfl⟩
  | reset =>
    refine ⟨?_, hq, ?_⟩
    · intro t hmem ha
      obtain ⟨t0, -, rfl⟩ := List.mem_map.1 hmem
      cases ha
    · intro u hmem ha
      obtain ⟨u0, -, rfl⟩ := List.mem_map.1 hmem
      cases ha

theorem denseKeys_get (n i : Nat) (hn : n ≤ VA_MAX_TASKS) (hi : i < VA_MAX_TASKS) :
    (denseKeys n)[i]? = some (decide (i < n), if i < n then i + 1 else 0) := by
  by_cases hlt : i < n
  · rw [denseKeys, List.getElem?_append_left (by simpa using hlt)]
    simp [hlt]
  · rw [denseKeys, List.getElem?_append_right (by simpa using hlt)]
    simp only [List.length_map, List.length_range, hlt, decide_False, if_false]
    rw [List.getElem?_replicate, if_pos (by omega)]

/-- The index form of the dense-table property. -/
theorem dense_index {α : Type} (key : α → Bool × Nat) (l : List α) (n : Nat)
    (hn : n ≤ VA_MAX_TASKS) (hkeys : l.map key = denseKeys n) (i : Nat)
    (hi : i < VA_MAX_TASKS) :
    ∃ t, l[i]? = some t ∧ ((key t).1 = true ↔ i < n) ∧ ((key t).1 = true → (key t).2 = i + 1) := by
  have h := denseKeys_get n i hn hi
  rw [← hkeys, List.getElem?_map] at h
  cases ht : l[i]? with
  | none => rw [ht] at h; cases h
  | some t =>
    rw [ht] at h
    have hk : key t = (decide (i < n), if i < n then i + 1 else 0) := Option.some.inj h
    refine ⟨t, rfl, ?_, ?_⟩
    · rw [hk]; simp
    · rw [hk]
      intro ha
      have hlt : i < n := by simpa using ha
      simp [hlt]

theorem reachable_dense (s : State) (hs : Reachable s) : tablesDense (tablesOf s) :=
  reachable_tables_induction tablesDense tablesDense_powerOn tablesDense_step s hs

theorem reachable_named (s : State) (hs : Reachable s) : tablesNamed (tablesOf s) :=
  reachable_tables_induction tablesNamed tablesNamed_powerOn tablesNamed_step s hs

/-! ### Stored names -/

theorem storeName_length (x : List Nat) : (storeName x).length = VA_MAX_TASK_NAME_LEN := by
  simp only [storeName, strncpy, List.length_append, List.length_take, List.length_replicate,
    List.length_singleton, VA_MAX_TASK_NAME_LEN]
  omega

theorem storeName_bounded (x : List Nat) :
    nameBounded (storeName x) ∧ nameLenByte (storeName x) = strlen (storeName x) := by
  have h1 := (strlen_storeName_any x).1
  have h2 := nameLenByte_storeName x
  refine ⟨⟨storeName_length x, ?_⟩, by rw [h1, h2]⟩
  rw [h1]
  simp only [VA_MAX_TASK_NAME_LEN]
  omega

/-- The setup packet of a stored name: the length byte is the C length of the stored name. -/
theorem setup_packet_stored (s : State) (c i : Nat) (x : List Nat)
    (hinit : s.VA_IS_INIT = true) :
    (_va_send_setup_packet s c i (storeName x)).tx =
      s.tx ++ [[c, i, strlen (storeName x)], (storeName x).take (strlen (storeName x))] := by
  rw [setup_packet_tx_nameLen s c i _ hinit, (storeName_bounded x).2]

theorem assign_queue_success (s : State) (h slot : Nat) (name : Option (List Nat)) (type : Nat)
    (hh : h ≠ 0) (hslot : firstIndex (fun q => !q.active) s.queueObjectMap = some slot)
    (hctr : s.next_queue_object_id ≠ 0) :
    ∃ x, _va_assign_queue_object_id s h name type =
      (s.next_queue_object_id,
       _va_send_setup_packet
         { s with next_queue_object_id := (s.next_queue_object_id + 1) % 256,
                  queueObjectMap := s.queueObjectMap.set slot
                    { handle := h, id := s.next_queue_object_id, name := storeName x,
                      type := type, active := true } }
         (_va_get_setup_packet_type type) s.next_queue_object_id (storeName x)) := by
  cases name with
  | none =>
    exact ⟨_va_get_object_type_name type, by simp [_va_assign_queue_object_id, hh, hslot, hctr]⟩
  | some n =>
    by_cases hlen : strlen n > 0
    · exact ⟨n, by simp [_va_assign_queue_object_id, hh, hslot, hctr, hlen]⟩
    · exact ⟨_va_get_object_type_name type,
        by simp [_va_assign_queue_object_id, hh, hslot, hctr, hlen]⟩

theorem set_getElem?_of_firstIndex {α : Type} (p : α → Bool) (l : List α) (slot : Nat) (y : α)
    (h : firstIndex p l = some slot) : (l.set slot y)[slot]? = some y := by
  obtain ⟨front, x, back, hmap, hlen, -, -⟩ := firstIndex_some _ _ _ h
  rw [hmap, ← hlen, set_append_length, getElem?_append_length]

theorem demoState_reachable : Reachable demoState :=
  Reachable.call demoEnv (Call.logQueueObjectCreateWithType 0x500 (some str_Queue)) _ _
    (Reachable.call demoEnv (Call.taskCreated 0x102) _ _
      (Reachable.call demoEnv (Call.taskCreated 0x101) _ _
        (Reachable.call demoEnv (Call.init 168000000) _ _ Reachable.start rfl) rfl) rfl) rfl

/-! ## The claims -/

/-- Claim C1 (monotonic timestamps), evaluated on the recorder at power-on with the counter
reads `0xFFFFFFF0, 0xFFFFFFF5` (first call), `0xFFFFFFFE, 0x00000003` (second call: the
counter wraps between the two reads of the call) and `0x10, 0x15` (third call).  The three
calls return `0xFFFFFFF0`, then `0x3`, then `0x100000010`: the second value is below the
first, so the returned values are not non-decreasing.  The branch of `_va_get_timestamp` for
a wrap between its two reads takes the wrapped low word but leaves the high word at the old
overflow count; the wrap is only counted by the next call. -/
theorem C1_timestamp_decreases_on_wrap_between_reads :
    timestampSeq wrapBetweenReads powerOn 3 = [0xFFFFFFF0, 0x00000003, 0x100000010] ∧
      ¬ (timestampSeq wrapBetweenReads powerOn 3).Pairwise (fun a b => a ≤ b) := by
  decide

/-- Claim C2 (idempotent task assignment), evaluated after `VA_Init` for the task handle
`0x101` registered twice with `VA_TaskCreated`.  The first call assigns ID 1 and the handle
keeps resolving to ID 1, but the second call is not a no-op: it fills a second slot with the
same handle under ID 2, advances the next-ID counter from 2 to 3 and sends a second task
setup packet `[0x70, 2, 1] "T"` followed by a task-create packet. -/
theorem C2_second_registration_is_not_idempotent :
    (VA_TaskCreated demoEnv (VA_Init powerOn 168000000) 0x101).next_task_id = 2 ∧
    _va_find_task_id (VA_TaskCreated demoEnv (VA_Init powerOn 168000000) 0x101) 0x101 = 1 ∧
    _va_find_task_id (VA_TaskCreated demoEnv
      (VA_TaskCreated demoEnv (VA_Init powerOn 168000000) 0x101) 0x101) 0x101 = 1 ∧
    (VA_TaskCreated demoEnv
      (VA_TaskCreated demoEnv (VA_Init powerOn 168000000) 0x101) 0x101).next_task_id = 3 ∧
    ((VA_TaskCreated demoEnv
      (VA_TaskCreated demoEnv (VA_Init powerOn 168000000) 0x101) 0x101).taskMap.take 3).map
        (fun t => (t.active, t.handle, t.id)) =
      [(true, 0x101, 1), (true, 0x101, 2), (false, 0, 0)] ∧
    (VA_TaskCreated demoEnv
      (VA_TaskCreated demoEnv (VA_Init powerOn 168000000) 0x101) 0x101).tx =
      (VA_TaskCreated demoEnv (VA_Init powerOn 168000000) 0x101).tx ++
        [[0x70, 2, 1], [84],
         [0x03, 2, 0xFC, 0x03, 0, 0, 0, 0, 0, 0, 0, 0, 0, 0, 0, 0, 0, 0, 0, 0, 0, 0]] := by
  decide

/-- Claim C3 (capacity overflow is atomic).  Start from any state whose task table has its
`VA_MAX_TASKS` slots, run `VA_Init` and register 32 non-null task handles with
`VA_TaskCreated`: the 32 slots then hold exactly these handles, all active.  A further
`VA_TaskCreated` on a non-listed handle returns the very same state (every entry, the
next-ID counter and the transmitted bytes are unchanged), and `_va_find_task_id` returns 0
for that handle. -/
theorem C3_capacity_overflow_is_atomic (e e' : Env) (s0 : State) (cpu_freq : Nat)
    (handles : List Nat) (h33 : Nat) (hcap : s0.taskMap.length = VA_MAX_TASKS)
    (hlen : handles.length = 32) (hnz : ∀ h ∈ handles, h ≠ 0) (hnew : h33 ∉ handles) :
    ((createTasks e (VA_Init s0 cpu_freq) handles).taskMap.map (fun t => t.handle) = handles ∧
      (∀ t ∈ (createTasks e (VA_Init s0 cpu_freq) handles).taskMap, t.active = true)) ∧
    VA_TaskCreated e' (createTasks e (VA_Init s0 cpu_freq) handles) h33 =
      createTasks e (VA_Init s0 cpu_freq) handles ∧
    _va_find_task_id (VA_TaskCreated e' (createTasks e (VA_Init s0 cpu_freq) handles) h33) h33 = 0 := by
  obtain ⟨hl, hfree, hid⟩ := init_taskMap s0 cpu_freq
  obtain ⟨new, hmap, hhandles, hactive, -, -⟩ :=
    createTasks_fill e handles (VA_Init s0 cpu_freq) [] (VA_Init s0 cpu_freq).taskMap
      (by simp) (by simp) hfree (by simp [hid])
      (by rw [hl, hcap, hlen]; decide) (by simp [hlen]) hnz
  have hdrop : (VA_Init s0 cpu_freq).taskMap.drop handles.length = [] := by
    apply List.drop_eq_nil_of_le
    rw [hl, hcap, hlen]; decide
  rw [hdrop] at hmap
  simp only [List.nil_append, List.append_nil] at hmap
  have hfull : ∀ t ∈ (createTasks e (VA_Init s0 cpu_freq) handles).taskMap, t.active = true := by
    rw [hmap]; exact hactive
  have hsame := taskCreated_full e' _ h33 hfull
  refine ⟨⟨by rw [hmap, hhandles], hfull⟩, hsame, ?_⟩
  rw [hsame]
  apply find_task_id_absent
  intro t ht heq
  apply hnew
  rw [← hhandles]
  rw [hmap] at ht
  exact List.mem_map.mpr ⟨t, ht, heq⟩

/-- Witness for C3: the handles 1..32 registered after `VA_Init` at power-on, then handle 33. -/
theorem C3_witness :
    powerOn.taskMap.length = VA_MAX_TASKS ∧ (List.range' 1 32).length = 32 ∧
      VA_TaskCreated demoEnv
          (createTasks demoEnv (VA_Init powerOn 168000000) (List.range' 1 32)) 33 =
        createTasks demoEnv (VA_Init powerOn 168000000) (List.range' 1 32) ∧
      _va_find_task_id
        (VA_TaskCreated demoEnv
          (createTasks demoEnv (VA_Init powerOn 168000000) (List.range' 1 32)) 33) 33 = 0 :=
  ⟨by decide, by decide,
   (C3_capacity_overflow_is_atomic demoEnv demoEnv powerOn 168000000 (List.range' 1 32) 33
      (by decide) (by decide) (by decide) (by decide)).2⟩

/-- Claim C4 (kind revision to mutex).  For every non-null handle `h` that
`_va_find_queue_object_id` resolves (whatever kind is stored for it, a queue in particular),
`VA_UpdateQueueObjectType(h, "Mutex")` succeeds; afterwards the stored kind of `h` is
`VA_OBJECT_TYPE_MUTEX` and its ID is unchanged; the next `VA_LogQueueObjectGive(h)` encodes
exactly one event packet, with type byte `0x87` and the ID of `h`, and the next
`VA_LogQueueObjectTake(h)` (directly, or after that give) one with type byte `0x07`.  On an
initialised recorder these packets are what is sent: `[0x87, id, timestamp LE]` and
`[0x07, id, timestamp LE]`. -/
theorem C4_kind_revision_to_mutex (e eg et : Env) (s : State) (h timeout : Nat) (hh : h ≠ 0)
    (hreg : _va_find_queue_object_id s h ≠ 0) :
    ∃ s', VA_UpdateQueueObjectType s h (some str_Mutex) = some s' ∧
      _va_get_stored_queue_object_type e s' h = VA_OBJECT_TYPE_MUTEX ∧
      _va_find_queue_object_id s' h = _va_find_queue_object_id s h ∧
      VA_LogQueueObjectGive eg s' h timeout =
        _va_send_event_packet (_va_get_timestamp eg s').2 0x87 (_va_find_queue_object_id s h)
          (_va_get_timestamp eg s').1 ∧
      VA_LogQueueObjectTake et s' h timeout =
        _va_send_event_packet (_va_get_timestamp et s').2 0x07 (_va_find_queue_object_id s h)
          (_va_get_timestamp et s').1 ∧
      VA_LogQueueObjectTake et (VA_LogQueueObjectGive eg s' h timeout) h timeout =
        _va_send_event_packet
          (_va_get_timestamp et (VA_LogQueueObjectGive eg s' h timeout)).2 0x07
          (_va_find_queue_object_id s h)
          (_va_get_timestamp et (VA_LogQueueObjectGive eg s' h timeout)).1 ∧
      (s.VA_IS_INIT = true →
        (VA_LogQueueObjectGive eg s' h timeout).tx =
          s'.tx ++ [[0x87, _va_find_queue_object_id s h] ++
                    timestampBytes (_va_get_timestamp eg s').1] ∧
        (VA_LogQueueObjectTake et s' h timeout).tx =
          s'.tx ++ [[0x07, _va_find_queue_object_id s h] ++
                    timestampBytes (_va_get_timestamp et s').1] ∧
        (VA_LogQueueObjectTake et (VA_LogQueueObjectGive eg s' h timeout) h timeout).tx =
          (VA_LogQueueObjectGive eg s' h timeout).tx ++
            [[0x07, _va_find_queue_object_id s h] ++
             timestampBytes
               (_va_get_timestamp et (VA_LogQueueObjectGive eg s' h timeout)).1]) := by
  obtain ⟨front, q, back, hmap, hfront, hq, hqid, -⟩ := find_queue_object_registered s h hreg
  refine ⟨_, update_to_mutex s h hh front back q hmap hfront hq, ?_⟩
  have hq' : (({ q with type := VA_OBJECT_TYPE_MUTEX, name := storeName str_Mutex } :
      VA_QueueObjectMapEntry_t).active &&
      ({ q with type := VA_OBJECT_TYPE_MUTEX, name := storeName str_Mutex } :
      VA_QueueObjectMapEntry_t).handle == h) = true := hq
  have hfind : ∀ s' : State,
      s'.queueObjectMap =
        front ++ { q with type := VA_OBJECT_TYPE_MUTEX, name := storeName str_Mutex } :: back →
      _va_find_queue_object_id s' h = _va_find_queue_object_id s h ∧
      ∀ e' : Env, _va_get_stored_queue_object_type e' s' h = VA_OBJECT_TYPE_MUTEX := by
    intro s' hs'
    have := find?_append_hit _ front _ back hfront hq'
    constructor
    · simp only [_va_find_queue_object_id, hs', this]
      exact hqid
    · intro e'
      simp only [_va_get_stored_queue_object_type, hs', this]
  have hev : eventTypeOfKind VA_OBJECT_TYPE_MUTEX = 0x07 := by decide
  have hor : (0x80 ||| 0x07 : Nat) = 0x87 := by decide
  generalize hs1 : _va_send_setup_packet
        { s with queueObjectMap :=
            front ++ { q with type := VA_OBJECT_TYPE_MUTEX, name := storeName str_Mutex } :: back }
        VA_SETUP_MUTEX_MAP q.id (storeName str_Mutex) = s1
  have hmap1 : s1.queueObjectMap =
      front ++ { q with type := VA_OBJECT_TYPE_MUTEX, name := storeName str_Mutex } :: back := by
    rw [← hs1]; simp
  have hinit1 : s1.VA_IS_INIT = s.VA_IS_INIT := by rw [← hs1]; simp
  obtain ⟨hid1, hty1⟩ := hfind s1 hmap1
  have hreg1 : _va_find_queue_object_id s1 h ≠ 0 := by rw [hid1]; exact hreg
  have hgive : VA_LogQueueObjectGive eg s1 h timeout =
      _va_send_event_packet (_va_get_timestamp eg s1).2 0x87 (_va_find_queue_object_id s h)
        (_va_get_timestamp eg s1).1 := by
    rw [give_registered eg s1 h timeout hh hreg1, hty1 eg, hev, hid1, hor]
  have hmap2 : (VA_LogQueueObjectGive eg s1 h timeout).queueObjectMap =
      front ++ { q with type := VA_OBJECT_TYPE_MUTEX, name := storeName str_Mutex } :: back := by
    rw [hgive]; simpa using hmap1
  have hinit2 : (VA_LogQueueObjectGive eg s1 h timeout).VA_IS_INIT = s.VA_IS_INIT := by
    rw [hgive]; simpa using hinit1
  obtain ⟨hid2, hty2⟩ := hfind _ hmap2
  have hreg2 : _va_find_queue_object_id (VA_LogQueueObjectGive eg s1 h timeout) h ≠ 0 := by
    rw [hid2]; exact hreg
  have htake1 : VA_LogQueueObjectTake et s1 h timeout =
      _va_send_event_packet (_va_get_timestamp et s1).2 0x07 (_va_find_queue_object_id s h)
        (_va_get_timestamp et s1).1 := by
    rw [take_registered et s1 h timeout hh hreg1, hty1 et, hev, hid1]
  have htake2 : VA_LogQueueObjectTake et (VA_LogQueueObjectGive eg s1 h timeout) h timeout =
      _va_send_event_packet
        (_va_get_timestamp et (VA_LogQueueObjectGive eg s1 h timeout)).2 0x07
        (_va_find_queue_object_id s h)
        (_va_get_timestamp et (VA_LogQueueObjectGive eg s1 h timeout)).1 := by
    rw [take_registered et _ h timeout hh hreg2, hty2 et, hev, hid2]
  refine ⟨hty1 e, hid1, hgive, htake1, htake2, ?_⟩
  intro hinit
  refine ⟨?_, ?_, ?_⟩
  · rw [hgive, event_packet_tx _ _ _ _ (by simpa [hinit1] using hinit)]
    rfl
  · rw [htake1, event_packet_tx _ _ _ _ (by simpa [hinit1] using hinit)]
    rfl
  · rw [htake2, event_packet_tx _ _ _ _ (by simpa [hinit2] using hinit)]
    rfl

/-- Witness for C4: the sync object `0x500` of `demoState` is stored as a queue, and its
stored kind after the revision is mutex. -/
theorem C4_witness :
    _va_get_stored_queue_object_type demoEnv demoState 0x500 = VA_OBJECT_TYPE_QUEUE ∧
      ∃ s', VA_UpdateQueueObjectType demoState 0x500 (some str_Mutex) = some s' ∧
        _va_get_stored_queue_object_type demoEnv s' 0x500 = VA_OBJECT_TYPE_MUTEX :=
  ⟨by decide,
   (C4_kind_revision_to_mutex demoEnv demoEnv demoEnv demoState 0x500 0 (by decide)
      (by decide)).imp (fun _ hs => ⟨hs.1, hs.2.1⟩)⟩

/-- Claim C5 (contention detection, positive case).  Let `M` be a non-null sync object that
`_va_find_queue_object_id` resolves, of stored kind mutex or recursive mutex, and let `A` and
`B` be distinct tasks that `_va_find_task_id` resolves, `A` non-null.  If the kernel reports
`A` as the holder of `M` and `B` as the current task, then `VA_LogQueueObjectBlocking(M)`
takes one timestamp and encodes exactly one contention packet, for (id of `M`, waiter = id of
`B`, holder = id of `A`, timestamp); on an initialised recorder exactly one packet is sent,
the 12 bytes `[0x0C, id of M, id of B, id of A, timestamp LE]`, and nothing else changes. -/
theorem C5_contention_packet (e : Env) (s : State) (M A B : Nat) (hM : M ≠ 0)
    (hreg : _va_find_queue_object_id s M ≠ 0)
    (hkind : _va_get_stored_queue_object_type e s M = VA_OBJECT_TYPE_MUTEX ∨
      _va_get_stored_queue_object_type e s M = VA_OBJECT_TYPE_RECURSIVE_MUTEX)
    (hA : _va_find_task_id s A ≠ 0) (hB : _va_find_task_id s B ≠ 0) (hAB : A ≠ B)
    (hA0 : A ≠ 0) (hcfg : e.INCLUDE_xQueueGetMutexHolder = true)
    (hholder : e.xQueueGetMutexHolder M = A) (hcur : e.xTaskGetCurrentTaskHandle = B) :
    VA_LogQueueObjectBlocking e s M =
        _va_send_mutex_contention_packet (_va_get_timestamp e s).2
          (_va_find_queue_object_id s M) (_va_find_task_id s B) (_va_find_task_id s A)
          (_va_get_timestamp e s).1 ∧
      (s.VA_IS_INIT = true →
        VA_LogQueueObjectBlocking e s M =
          { (_va_get_timestamp e s).2 with
            tx := s.tx ++
              [[0x0C, _va_find_queue_object_id s M, _va_find_task_id s B,
                _va_find_task_id s A] ++ timestampBytes (_va_get_timestamp e s).1] }) := by
  have hk : (_va_get_stored_queue_object_type e s M == VA_OBJECT_TYPE_MUTEX ||
      _va_get_stored_queue_object_type e s M == VA_OBJECT_TYPE_RECURSIVE_MUTEX) = true := by
    rcases hkind with hk | hk <;> simp [hk]
  have hcall : VA_LogQueueObjectBlocking e s M =
      _va_send_mutex_contention_packet (_va_get_timestamp e s).2
        (_va_find_queue_object_id s M) (_va_find_task_id s B) (_va_find_task_id s A)
        (_va_get_timestamp e s).1 := by
    simp only [VA_LogQueueObjectBlocking, findOrAssign_registered e s M hreg, hk, hcfg,
      hholder, hcur]
    simp [hM, hA0, hAB, hA, hB]
  refine ⟨hcall, ?_⟩
  intro hinit
  rw [hcall, contention_packet_eq _ _ _ _ _ (by simpa using hinit)]
  rfl

/-- Witness for C5: in `demoMutexState` task `0x102` blocks on the mutex `0x500` held by task
`0x101`; the packet carries mutex ID 1, waiter ID 2 and holder ID 1. -/
theorem C5_witness :
    (_va_find_queue_object_id demoMutexState 0x500 = 1 ∧
      _va_find_task_id demoMutexState 0x102 = 2 ∧ _va_find_task_id demoMutexState 0x101 = 1) ∧
    VA_LogQueueObjectBlocking demoEnv demoMutexState 0x500 =
      { (_va_get_timestamp demoEnv demoMutexState).2 with
        tx := demoMutexState.tx ++
          [[0x0C, _va_find_queue_object_id demoMutexState 0x500,
            _va_find_task_id demoMutexState 0x102, _va_find_task_id demoMutexState 0x101] ++
           timestampBytes (_va_get_timestamp demoEnv demoMutexState).1] } :=
  ⟨by decide,
   (C5_contention_packet demoEnv demoMutexState 0x500 0x101 0x102 (by decide)
    (by decide) (by decide) (by decide) (by decide) (by decide) (by decide) (by decide) rfl
    rfl).2 (by decide)⟩

/-- Claim C6 (contention detection, negative cases).  For every sync object `M` that
`_va_find_queue_object_id` resolves, `VA_LogQueueObjectBlocking(M)` returns the state it was
given (no contention packet and no other byte is sent, no task and no object is registered,
no timestamp is taken) whenever the stored kind of `M` is neither mutex nor recursive mutex,
or the kernel reports no holder, or the holder is the current task, or the holder's task ID
is unresolved, or the current task's ID is unresolved. -/
theorem C6_no_contention_packet (e : Env) (s : State) (M : Nat)
    (hreg : _va_find_queue_object_id s M ≠ 0)
    (hcase :
      (_va_get_stored_queue_object_type e s M ≠ VA_OBJECT_TYPE_MUTEX ∧
        _va_get_stored_queue_object_type e s M ≠ VA_OBJECT_TYPE_RECURSIVE_MUTEX) ∨
      e.xQueueGetMutexHolder M = 0 ∨
      e.xQueueGetMutexHolder M = e.xTaskGetCurrentTaskHandle ∨
      _va_find_task_id s (e.xQueueGetMutexHolder M) = 0 ∨
      _va_find_task_id s e.xTaskGetCurrentTaskHandle = 0) :
    VA_LogQueueObjectBlocking e s M = s := by
  simp only [VA_LogQueueObjectBlocking, findOrAssign_registered e s M hreg]
  rcases hcase with ⟨h1, h2⟩ | h | h | h | h
  · simp [h1, h2]
  · simp [h]
  · simp [h]
  · simp [h]
  · simp [h]

/-- Witness for C6: a self-block, task `0x101` blocks on the mutex `0x500` that it holds. -/
theorem C6_witness :
    demoSelfBlockEnv.xQueueGetMutexHolder 0x500 = demoSelfBlockEnv.xTaskGetCurrentTaskHandle ∧
      VA_LogQueueObjectBlocking demoSelfBlockEnv demoMutexState 0x500 = demoMutexState :=
  ⟨rfl,
   C6_no_contention_packet demoSelfBlockEnv demoMutexState 0x500 (by decide)
    (Or.inr (Or.inr (Or.inl rfl)))⟩

/-- Claim C7 (user-value packet).  For every id, every signed value and every timestamp,
`_va_send_user_event_packet` makes one transport call with a 14-byte buffer, and on an
initialised recorder exactly these 14 bytes are sent as one packet: `0x04`, the id, the
eight timestamp bytes least-significant first, then the four bytes of the value's 32-bit
two's-complement representation least-significant first.  For id 42, value -17 and
timestamp `0x0102030405060708` the packet is `04 2A 08 07 06 05 04 03 02 01 EF FF FF FF`. -/
theorem C7_user_event_packet (s : State) (id : Nat) (value : Int) (timestamp : Nat) :
    _va_send_user_event_packet s id value timestamp =
        _va_send_bytes s
          [0x04, id, timestamp / 2 ^ 0 % 256, timestamp / 2 ^ 8 % 256,
           timestamp / 2 ^ 16 % 256, timestamp / 2 ^ 24 % 256, timestamp / 2 ^ 32 % 256,
           timestamp / 2 ^ 40 % 256, timestamp / 2 ^ 48 % 256, timestamp / 2 ^ 56 % 256,
           twosComplement32 value / 2 ^ 0 % 256, twosComplement32 value / 2 ^ 8 % 256,
           twosComplement32 value / 2 ^ 16 % 256, twosComplement32 value / 2 ^ 24 % 256] 14 ∧
      (s.VA_IS_INIT = true →
        _va_send_user_event_packet s id value timestamp =
          { s with tx := s.tx ++
            [[0x04, id, timestamp / 2 ^ 0 % 256, timestamp / 2 ^ 8 % 256,
              timestamp / 2 ^ 16 % 256, timestamp / 2 ^ 24 % 256, timestamp / 2 ^ 32 % 256,
              timestamp / 2 ^ 40 % 256, timestamp / 2 ^ 48 % 256, timestamp / 2 ^ 56 % 256,
              twosComplement32 value / 2 ^ 0 % 256, twosComplement32 value / 2 ^ 8 % 256,
              twosComplement32 value / 2 ^ 16 % 256, twosComplement32 value / 2 ^ 24 % 256]] }) ∧
      (s.VA_IS_INIT = true →
        (_va_send_user_event_packet s 42 (-17) 0x0102030405060708).tx =
          s.tx ++ [[0x04, 0x2A, 0x08, 0x07, 0x06, 0x05, 0x04, 0x03, 0x02, 0x01,
                    0xEF, 0xFF, 0xFF, 0xFF]]) := by
  have hbuf : ∀ (i : Nat) (v : Int) (t : Nat),
      [VA_EVENT_USER_TRACE, i] ++ timestampBytes t ++ int32Bytes v =
        [0x04, i, t / 2 ^ 0 % 256, t / 2 ^ 8 % 256, t / 2 ^ 16 % 256, t / 2 ^ 24 % 256,
         t / 2 ^ 32 % 256, t / 2 ^ 40 % 256, t / 2 ^ 48 % 256, t / 2 ^ 56 % 256,
         twosComplement32 v / 2 ^ 0 % 256, twosComplement32 v / 2 ^ 8 % 256,
         twosComplement32 v / 2 ^ 16 % 256, twosComplement32 v / 2 ^ 24 % 256] := by
    intro i v t
    rw [int32Bytes_eq]
    simp [timestampBytes, uint32Bytes, Nat.shiftRight_eq_div_pow, VA_EVENT_USER_TRACE]
  refine ⟨?_, ?_, ?_⟩
  · simp only [_va_send_user_event_packet, hbuf]
  · intro hinit
    simp only [_va_send_user_event_packet, hbuf, send_bytes_init _ _ _ hinit]
    simp
  · intro hinit
    simp only [_va_send_user_event_packet, hbuf, send_bytes_init _ _ _ hinit]
    have h17 : twosComplement32 (-17) = 4294967279 := by decide
    simp [h17]

/-- Witness for C7: the packet of the example on the recorder initialised at power-on. -/
theorem C7_witness :
    (VA_Init powerOn 168000000).VA_IS_INIT = true ∧
      (_va_send_user_event_packet (VA_Init powerOn 168000000) 42 (-17) 0x0102030405060708).tx =
        (VA_Init powerOn 168000000).tx ++
          [[0x04, 0x2A, 0x08, 0x07, 0x06, 0x05, 0x04, 0x03, 0x02, 0x01, 0xEF, 0xFF, 0xFF, 0xFF]] :=
  ⟨by decide,
   (C7_user_event_packet (VA_Init powerOn 168000000) 42 (-17) 0x0102030405060708).2.2
     (by decide)⟩

/-- Claim C8 (name truncation on registration).  For every task name of length `L` without
NUL bytes, a successful `_va_assign_task_id` (returned ID nonzero) writes the first free
slot, and the name stored there is the first `min L 15` bytes of the name followed by NUL
bytes up to the 16 bytes of the buffer, so its C length is `min L 15`; the setup packet it
sends (on an initialised recorder) is `[0x70, id, min L 15]` followed by exactly those
`min L 15` bytes.  For a 20-character name the stored name has 15 characters and `name_len`
is 15. -/
theorem C8_name_truncation_on_registration (s : State) (handle : Nat) (name : List Nat)
    (hnul : ∀ b ∈ name, b ≠ 0)
    (hok : (_va_assign_task_id s handle (some name)).1 ≠ 0) :
    ∃ slot entry,
      firstIndex (fun t => !t.active) s.taskMap = some slot ∧
      (_va_assign_task_id s handle (some name)).2.taskMap[slot]? = some entry ∧
      entry.handle = handle ∧
      entry.name =
        name.take (min name.length 15) ++ List.replicate (16 - min name.length 15) 0 ∧
      strlen entry.name = min name.length 15 ∧
      (s.VA_IS_INIT = true →
        (_va_assign_task_id s handle (some name)).2.tx =
          s.tx ++ [[0x70, (_va_assign_task_id s handle (some name)).1, min name.length 15],
                   name.take (min name.length 15)]) ∧
      (name.length = 20 →
        strlen entry.name = 15 ∧
        (s.VA_IS_INIT = true →
          (_va_assign_task_id s handle (some name)).2.tx =
            s.tx ++ [[0x70, (_va_assign_task_id s handle (some name)).1, 15],
                     name.take 15])) := by
  obtain ⟨hh, hid, slot, hidx⟩ := assign_task_ok s handle name hok
  obtain ⟨front, x, back, hmap, hlen, -, -⟩ := firstIndex_some _ _ _ hidx
  obtain ⟨hstrlen, htake⟩ := strlen_storeName name hnul
  have hlt : min name.length 15 % 256 = min name.length 15 := by omega
  have htx : s.VA_IS_INIT = true → (_va_assign_task_id s handle (some name)).2.tx =
      s.tx ++ [[0x70, (_va_assign_task_id s handle (some name)).1, min name.length 15],
               name.take (min name.length 15)] := by
    intro hinit
    rw [assign_task_success s handle name slot hidx hh hid]
    rw [setup_packet_tx _ _ _ _ (by simpa using hinit)]
    have hno : ¬ (min name.length 15 ≥ VA_MAX_TASK_NAME_LEN) := by
      simp only [VA_MAX_TASK_NAME_LEN]; omega
    simp only [hstrlen, hlt, hno, if_false, htake, VA_SETUP_TASK_MAP]
  refine ⟨slot, newTaskEntry s handle name, hidx, ?_, rfl, ?_, ?_, htx, ?_⟩
  · rw [assign_task_success s handle name slot hidx hh hid]
    simp only [setup_packet_taskMap]
    rw [hmap, ← hlen, set_append_length, getElem?_append_length]
  · exact storeName_of_no_nul name hnul
  · exact hstrlen
  · intro h20
    have h15 : min name.length 15 = 15 := by omega
    refine ⟨?_, ?_⟩
    · have hs := hstrlen
      rw [h15] at hs
      exact hs
    · intro hinit
      rw [htx hinit, h15]

/-- Witness for C8: the 20-character name "ABCDEFGHIJKLMNOPQRST" registered for handle
`0x101` right after `VA_Init`; the setup packet is `[0x70, 1, 15] "ABCDEFGHIJKLMNO"`. -/
theorem C8_witness :
    (_va_assign_task_id (VA_Init powerOn 168000000) 0x101 (some demoLongName)).1 ≠ 0 ∧
      ∃ slot entry,
        firstIndex (fun t => !t.active) (VA_Init powerOn 168000000).taskMap = some slot ∧
        (_va_assign_task_id (VA_Init powerOn 168000000) 0x101
          (some demoLongName)).2.taskMap[slot]? = some entry ∧
        strlen entry.name = min demoLongName.length 15 :=
  ⟨by decide,
   (C8_name_truncation_on_registration (VA_Init powerOn 168000000) 0x101 demoLongName
      (by decide) (by decide)).imp
     (fun _ hs => hs.imp (fun _ he => ⟨he.1, he.2.1, he.2.2.2.2.1⟩))⟩

/-- Claim C9 (high word counts the observed wraps).  Start from any state whose overflow
counter is 0 (the initial timestamp state in particular) and make any number `n` of
`_va_get_timestamp` calls; for the next call: the high 32 bits of the returned value equal
the overflow counter after the call; that counter is the previous one plus one modulo 2^32
when the first counter read of the call is strictly below the last-seen value, and the
previous one otherwise; and the call stores that first read as the new last-seen value. -/
theorem C9_high_part_is_overflow_count (e : Env) (s0 : State)
    (hov : s0.g_dwt_overflow_count = 0) (n : Nat) :
    (_va_get_timestamp e (timestampState e s0 n)).1 / 2 ^ 32 =
        (_va_get_timestamp e (timestampState e s0 n)).2.g_dwt_overflow_count ∧
      (_va_get_timestamp e (timestampState e s0 n)).2.g_dwt_overflow_count =
        (if readCYCCNT e (timestampState e s0 n).nreads < (timestampState e s0 n).last_dwt_value
         then ((timestampState e s0 n).g_dwt_overflow_count + 1) % 2 ^ 32
         else (timestampState e s0 n).g_dwt_overflow_count) ∧
      (_va_get_timestamp e (timestampState e s0 n)).2.last_dwt_value =
        readCYCCNT e (timestampState e s0 n).nreads := by
  have hlt : (timestampState e s0 n).g_dwt_overflow_count < 2 ^ 32 :=
    timestampState_overflow_lt e n s0 (by rw [hov]; norm_num)
  refine ⟨?_, ?_, ?_⟩
  · rw [timestamp_value e _ hlt]
    have : (if readCYCCNT e ((timestampState e s0 n).nreads + 1) <
              readCYCCNT e (timestampState e s0 n).nreads
            then readCYCCNT e ((timestampState e s0 n).nreads + 1)
            else readCYCCNT e (timestampState e s0 n).nreads) < 2 ^ 32 := by
      split <;> exact readCYCCNT_lt _ _
    omega
  · simp [_va_get_timestamp]
  · simp [_va_get_timestamp]

/-- Witness for C9: the third call of the run `wrapBetweenReads` from power-on observes the
wrap (it reads `0x10` after `0xFFFFFFFE`), and the high word of its value is 1. -/
theorem C9_witness :
    powerOn.g_dwt_overflow_count = 0 ∧
      (_va_get_timestamp wrapBetweenReads (timestampState wrapBetweenReads powerOn 2)).1 / 2 ^ 32 =
        (_va_get_timestamp wrapBetweenReads
          (timestampState wrapBetweenReads powerOn 2)).2.g_dwt_overflow_count :=
  ⟨rfl, (C9_high_part_is_overflow_count wrapBetweenReads powerOn rfl 2).1⟩

/-- Claim C10 (event packet layout).  For every type byte, id and 64-bit timestamp,
`_va_send_event_packet` makes one transport call with the 10-byte buffer
`[type_byte, id, t0, ..., t7]`, where `t_i = (timestamp >> 8i) mod 256`, and on an initialised
recorder exactly these 10 bytes are sent as one packet; the little-endian value of the bytes
2..9 is the timestamp; and two calls that send the same bytes have the same type byte, id
and timestamp. -/
theorem C10_event_packet_layout (s : State) (type_byte id timestamp : Nat)
    (hts : timestamp < 2 ^ 64) :
    _va_send_event_packet s type_byte id timestamp =
        _va_send_bytes s
          [type_byte, id, timestamp >>> 0 % 256, timestamp >>> 8 % 256,
           timestamp >>> 16 % 256, timestamp >>> 24 % 256, timestamp >>> 32 % 256,
           timestamp >>> 40 % 256, timestamp >>> 48 % 256, timestamp >>> 56 % 256] 10 ∧
      (s.VA_IS_INIT = true →
        _va_send_event_packet s type_byte id timestamp =
          { s with tx := s.tx ++ [[type_byte, id, timestamp >>> 0 % 256, timestamp >>> 8 % 256,
              timestamp >>> 16 % 256, timestamp >>> 24 % 256, timestamp >>> 32 % 256,
              timestamp >>> 40 % 256, timestamp >>> 48 % 256, timestamp >>> 56 % 256]] }) ∧
      leValue [timestamp >>> 0 % 256, timestamp >>> 8 % 256,
              timestamp >>> 16 % 256, timestamp >>> 24 % 256, timestamp >>> 32 % 256,
              timestamp >>> 40 % 256, timestamp >>> 48 % 256, timestamp >>> 56 % 256] =
        timestamp ∧
      (s.VA_IS_INIT = true →
        ∀ type_byte' id' timestamp', timestamp' < 2 ^ 64 →
          (_va_send_event_packet s type_byte' id' timestamp').tx =
            (_va_send_event_packet s type_byte id timestamp).tx →
          type_byte' = type_byte ∧ id' = id ∧ timestamp' = timestamp) := by
  refine ⟨?_, ?_, ?_, ?_⟩
  · simp [_va_send_event_packet, timestampBytes]
  · intro hinit
    simp [_va_send_event_packet, send_bytes_init, hinit, timestampBytes]
  · exact leValue_timestampBytes timestamp hts
  · intro hinit ty' id' ts' hts' heq
    simp only [_va_send_event_packet, send_bytes_init, hinit] at heq
    have h1 : [ty', id'] ++ timestampBytes ts' = [type_byte, id] ++ timestampBytes timestamp := by
      simpa [timestampBytes] using heq
    have h2 : ty' = type_byte ∧ id' = id ∧ timestampBytes ts' = timestampBytes timestamp := by
      simpa using h1
    refine ⟨h2.1, h2.2.1, ?_⟩
    rw [← leValue_timestampBytes ts' hts', ← leValue_timestampBytes timestamp hts, h2.2.2]

/-- Witness for C10: a task-switch-in packet for ID 3 at timestamp `0x0102030405060708` on
the recorder initialised at power-on. -/
theorem C10_witness :
    (VA_Init powerOn 168000000).VA_IS_INIT = true ∧
      _va_send_event_packet (VA_Init powerOn 168000000) 0x81 3 0x0102030405060708 =
        { VA_Init powerOn 168000000 with
          tx := (VA_Init powerOn 168000000).tx ++
            [[0x81, 3, 0x0102030405060708 >>> 0 % 256, 0x0102030405060708 >>> 8 % 256,
              0x0102030405060708 >>> 16 % 256, 0x0102030405060708 >>> 24 % 256,
              0x0102030405060708 >>> 32 % 256, 0x0102030405060708 >>> 40 % 256,
              0x0102030405060708 >>> 48 % 256, 0x0102030405060708 >>> 56 % 256]] } :=
  ⟨by decide,
   (C10_event_packet_layout (VA_Init powerOn 168000000) 0x81 3 0x0102030405060708
      (by decide)).2.1 (by decide)⟩

/-- Claim C11 as stated fails for the take hook.  In `demoNotifiedState` task `0x102` (ID 2)
is the recorded last notifier of task `0x101` (ID 1).  `VA_LogTaskNotifyTake(7)` run by task
`0x101` sends `[0x05, 1, 2, timestamp, 7, 0, 0, 0]`: byte 1 is the ID of the taking task and
byte 2 the ID of the notifier, the reverse of what the claim says. -/
theorem C11_take_packet_starts_with_taker :
    lastNotifier demoNotifiedState 0x101 = 0x102 ∧
    _va_find_task_id demoNotifiedState 0x102 = 2 ∧
    _va_find_task_id demoNotifiedState demoSelfBlockEnv.xTaskGetCurrentTaskHandle = 1 ∧
    (VA_LogTaskNotifyTake demoSelfBlockEnv demoNotifiedState 7).tx =
      demoNotifiedState.tx ++ [[0x05, 1, 2, 0x24, 0x04, 0, 0, 0, 0, 0, 0, 7, 0, 0, 0]] := by
  decide

/-- Claim C11, amended (notification packets).  On an initialised recorder both notification
hooks send exactly one 15-byte packet `[type_byte, id, other_id, timestamp LE 8, value LE 4]`
in which `id` is the ID of the task that runs the hook and `other_id` the ID of its
counterpart: for `VA_LogTaskNotifyGive(dest, v)` the type byte is `0x85`, byte 1 is the
current (notifying) task's ID and byte 2 is the ID of `dest`; for `VA_LogTaskNotifyTake(v)`
the type byte is `0x05`, byte 1 is the current (taking) task's ID and byte 2 is the ID of
the recorded last notifier.  An ID is what `_va_find_task_id` returns, 0 when unresolved. -/
theorem C11_notification_packets (e : Env) (s : State) (dest value : Nat)
    (hinit : s.VA_IS_INIT = true) :
    (VA_LogTaskNotifyGive e s dest value).tx =
        s.tx ++ [[0x85, _va_find_task_id s e.xTaskGetCurrentTaskHandle,
          _va_find_task_id s dest] ++
          timestampBytes (_va_get_timestamp e s).1 ++ uint32Bytes value] ∧
      (VA_LogTaskNotifyTake e s value).tx =
        s.tx ++ [[0x05, _va_find_task_id s e.xTaskGetCurrentTaskHandle,
          _va_find_task_id s (lastNotifier s e.xTaskGetCurrentTaskHandle)] ++
          timestampBytes (_va_get_timestamp e s).1 ++ uint32Bytes value] ∧
      ([0x85, _va_find_task_id s e.xTaskGetCurrentTaskHandle, _va_find_task_id s dest] ++
          timestampBytes (_va_get_timestamp e s).1 ++ uint32Bytes value).length = 15 ∧
      ([0x05, _va_find_task_id s e.xTaskGetCurrentTaskHandle,
          _va_find_task_id s (lastNotifier s e.xTaskGetCurrentTaskHandle)] ++
          timestampBytes (_va_get_timestamp e s).1 ++ uint32Bytes value).length = 15 :=
  ⟨notifyGive_tx e s dest value hinit, notifyTake_tx e s value hinit, rfl, rfl⟩

/-- Witness for C11: in `demoMutexState` task `0x102` notifies task `0x101` with value 7. -/
theorem C11_witness :
    demoMutexState.VA_IS_INIT = true ∧
      (VA_LogTaskNotifyGive demoEnv demoMutexState 0x101 7).tx =
        demoMutexState.tx ++
          [[0x85, _va_find_task_id demoMutexState demoEnv.xTaskGetCurrentTaskHandle,
            _va_find_task_id demoMutexState 0x101] ++
            timestampBytes (_va_get_timestamp demoEnv demoMutexState).1 ++ uint32Bytes 7] :=
  ⟨by decide, (C11_notification_packets demoEnv demoMutexState 0x101 7 (by decide)).1⟩

/-- Claim C12 (generic setup packet, names of any length), evaluated on the initialised
recorder for a name of 256 characters 'A', directly and through the public entry point
`VA_RegisterUserTrace(1, name, VA_USER_TYPE_ISR)`.  The name has no NUL byte and its length
is 256, so the claim asks for `name_len = 15` and the first 15 bytes; the code computes
`(uint8_t)strlen(name) = 0` before it clamps, and sends `[0x71, 1, 0]` and no name byte. -/
theorem C12_name_len_wraps_at_256 :
    (∀ b ∈ demoName256, b ≠ 0) ∧ demoName256.length = 256 ∧
    (_va_send_setup_packet (VA_Init powerOn 168000000) 0x71 1 demoName256).tx =
      (VA_Init powerOn 168000000).tx ++ [[0x71, 1, 0], []] ∧
    (VA_RegisterUserTrace (VA_Init powerOn 168000000) 1 (some demoName256) VA_USER_TYPE_ISR).tx =
      (VA_Init powerOn 168000000).tx ++ [[0x71, 1, 0], []] := by
  have hinit : (VA_Init powerOn 168000000).VA_IS_INIT = true := by decide
  have htx := setup_packet_tx_nameLen (VA_Init powerOn 168000000) 0x71 1 demoName256 hinit
  rw [nameLenByte_demoName256] at htx
  rw [List.take_zero] at htx
  refine ⟨demoName256_no_nul, by rw [demoName256, List.length_replicate], htx, ?_⟩
  have hcall : VA_RegisterUserTrace (VA_Init powerOn 168000000) 1 (some demoName256)
      VA_USER_TYPE_ISR = _va_send_setup_packet (VA_Init powerOn 168000000) 0x71 1 demoName256 := by
    simp [VA_RegisterUserTrace, VA_SETUP_ISR_MAP]
  rw [hcall]
  exact htx

/-- Claim C13 as stated fails for the category isr: `VA_RegisterUserTrace(5, "AB",
VA_USER_TYPE_ISR)` on the initialised recorder sends the ISR-map setup packet
`[0x71, 5, 2] "AB"`, not the user-trace setup packet `[0x72, 5, 8, 2] "AB"`. -/
theorem C13_isr_category_uses_isr_map :
    (VA_RegisterUserTrace (VA_Init powerOn 168000000) 5 (some [65, 66]) VA_USER_TYPE_ISR).tx =
        (VA_Init powerOn 168000000).tx ++ [[0x71, 5, 2], [65, 66]] ∧
      (VA_RegisterUserTrace (VA_Init powerOn 168000000) 5 (some [65, 66]) VA_USER_TYPE_ISR).tx ≠
        (VA_Init powerOn 168000000).tx ++ [[0x72, 5, 8, 2], [65, 66]] := by
  decide

/-- Claim C13, amended (user-trace setup packet).  For every nonzero id and every name
without NUL bytes shorter than 256 bytes: for each of the eight categories graph, bar, gauge,
counter, table, histogram, toggle and task (numeric values 0..7) `VA_RegisterUserTrace`
encodes one user-trace setup packet and, on an initialised recorder, sends exactly
`[0x72, id, category, name_len]` followed by the first `name_len` name bytes, with
`name_len = min(length, 15)`; for the category isr (8) it sends the ISR-map setup packet
`[0x71, id, name_len]` followed by those bytes instead. -/
theorem C13_user_trace_setup_packet (s : State) (id : Nat) (name : List Nat) (type : Nat)
    (hid : id ≠ 0) (hnul : ∀ b ∈ name, b ≠ 0) (hlen : name.length < 256) :
    (type < 8 →
      VA_RegisterUserTrace s id (some name) type = _va_send_user_setup_packet s id type name ∧
      (s.VA_IS_INIT = true →
        VA_RegisterUserTrace s id (some name) type =
          { s with tx := s.tx ++ [[0x72, id, type, min name.length 15],
                                  name.take (min name.length 15)] })) ∧
    (type = 8 →
      VA_RegisterUserTrace s id (some name) type = _va_send_setup_packet s 0x71 id name ∧
      (s.VA_IS_INIT = true →
        VA_RegisterUserTrace s id (some name) type =
          { s with tx := s.tx ++ [[0x71, id, min name.length 15],
                                  name.take (min name.length 15)] })) := by
  have hstr : strlen name = name.length := by rw [strlen, cstr_of_no_nul name hnul]
  have hn : nameLenByte name = min name.length 15 := by
    rw [nameLenByte_short name (by rw [hstr]; exact hlen), hstr]
  constructor
  · intro ht
    have hne : type ≠ VA_USER_TYPE_ISR := by simp only [VA_USER_TYPE_ISR]; omega
    have hmod : type % 256 = type := Nat.mod_eq_of_lt (by omega)
    refine ⟨by simp [VA_RegisterUserTrace, hid, hne, hmod], ?_⟩
    intro hinit
    rw [registerUserTrace_eq s id name type hid hinit, hn, hmod]
    simp [hne]
  · intro ht
    have he : type = VA_USER_TYPE_ISR := by simpa [VA_USER_TYPE_ISR] using ht
    refine ⟨by simp [VA_RegisterUserTrace, hid, he, VA_SETUP_ISR_MAP], ?_⟩
    intro hinit
    rw [registerUserTrace_eq s id name type hid hinit, hn]
    simp [he]

/-- Witness for C13: the counter trace 5 named "AB" on the recorder initialised at power-on. -/
theorem C13_witness :
    (VA_Init powerOn 168000000).VA_IS_INIT = true ∧
      VA_RegisterUserTrace (VA_Init powerOn 168000000) 5 (some [65, 66]) 3 =
        { VA_Init powerOn 168000000 with
          tx := (VA_Init powerOn 168000000).tx ++
            [[0x72, 5, 3, min [65, 66].length 15], [65, 66].take (min [65, 66].length 15)] } :=
  ⟨by decide,
   ((C13_user_trace_setup_packet (VA_Init powerOn 168000000) 5 [65, 66] 3 (by decide)
      (by decide) (by decide)).1 (by decide)).2 (by decide)⟩

/-- Claim C14 (session-start marker).  For every prior state and every `cpu_freq`, the
transport calls of `VA_Init` are, in this order: the 12-byte sync marker
`56 41 5A 01 53 59 4E 43 30 31 AA 55`, the info setup packet (header, then the text
"CLK:" with the decimal frequency) and the SysTick setup packet (header, then "SysTick");
so the output begins with the marker and every setup packet comes after it, and the marker
occurs at exactly one position of the bytes sent by `VA_Init`. -/
theorem C14_sync_marker_first_and_once (s : State) (cpu_freq : Nat) :
    (VA_Init s cpu_freq).tx =
        s.tx ++ [VA_SYNC_MARKER,
          [0x7F, 0, nameLenByte ((str_CLK ++ decimalBytes cpu_freq).take 39)],
          ((str_CLK ++ decimalBytes cpu_freq).take 39).take
            (nameLenByte ((str_CLK ++ decimalBytes cpu_freq).take 39)),
          [0x71, 1, 7], str_SysTick] ∧
      VA_SYNC_MARKER =
        [0x56, 0x41, 0x5A, 0x01, 0x53, 0x59, 0x4E, 0x43, 0x30, 0x31, 0xAA, 0x55] ∧
      countOccurrences VA_SYNC_MARKER
        (List.flatten [VA_SYNC_MARKER,
          [0x7F, 0, nameLenByte ((str_CLK ++ decimalBytes cpu_freq).take 39)],
          ((str_CLK ++ decimalBytes cpu_freq).take 39).take
            (nameLenByte ((str_CLK ++ decimalBytes cpu_freq).take 39)),
          [0x71, 1, 7], str_SysTick]) = 1 := by
  refine ⟨init_tx s cpu_freq, rfl, ?_⟩
  have hle := nameLenByte_le ((str_CLK ++ decimalBytes cpu_freq).take 39)
  have hinfo : ∀ b ∈ ((str_CLK ++ decimalBytes cpu_freq).take 39).take
      (nameLenByte ((str_CLK ++ decimalBytes cpu_freq).take 39)), b ≠ 0x56 := by
    intro b hb
    have hb' := List.mem_of_mem_take (List.mem_of_mem_take hb)
    rcases List.mem_append.mp hb' with h | h
    · simp only [str_CLK, List.mem_cons, List.mem_singleton, List.not_mem_nil, or_false] at h
      omega
    · have := decimalBytes_digits cpu_freq b h
      omega
  have hjoin : List.flatten [VA_SYNC_MARKER,
      [0x7F, 0, nameLenByte ((str_CLK ++ decimalBytes cpu_freq).take 39)],
      ((str_CLK ++ decimalBytes cpu_freq).take 39).take
        (nameLenByte ((str_CLK ++ decimalBytes cpu_freq).take 39)),
      [0x71, 1, 7], str_SysTick] =
      0x56 :: [0x41, 0x5A, 0x01, 0x53, 0x59, 0x4E, 0x43, 0x30, 0x31, 0xAA, 0x55] ++
        ([0x7F, 0, nameLenByte ((str_CLK ++ decimalBytes cpu_freq).take 39)] ++
          ((str_CLK ++ decimalBytes cpu_freq).take 39).take
            (nameLenByte ((str_CLK ++ decimalBytes cpu_freq).take 39)) ++
          [0x71, 1, 7] ++ str_SysTick) := by
    simp [VA_SYNC_MARKER]
  rw [hjoin]
  apply countOccurrences_head
  intro hmem
  simp only [List.mem_append, List.mem_cons, List.mem_singleton, List.not_mem_nil, or_false,
    str_SysTick] at hmem
  rcases hmem with h | h
  · omega
  · rcases h with ((h | h) | h) | h
    · omega
    · exact hinfo _ h rfl
    · omega
    · omega

/-- Claim C15 (sequential IDs and lookup).  Start from any state whose task table has its
`VA_MAX_TASKS` slots, run `VA_Init` and register a list of at most 32 pairwise distinct
non-null task handles in order with `VA_TaskCreated`.  Then the registration of the handle at
position `k` (counted from 0) is assigned ID `k + 1`, afterwards `_va_find_task_id` returns
`k + 1` for that handle, and it returns 0 for every handle that is not in the list. -/
theorem C15_sequential_ids_and_lookup (e : Env) (s0 : State) (cpu_freq : Nat)
    (handles : List Nat) (hcap : s0.taskMap.length = VA_MAX_TASKS)
    (hlen : handles.length ≤ 32) (hnd : handles.Nodup) (hnz : ∀ h ∈ handles, h ≠ 0) :
    (∀ (k : Nat) (hk : k < handles.length),
      (_va_assign_task_id (createTasks e (VA_Init s0 cpu_freq) (handles.take k)) handles[k]
        (some ((e.pcTaskGetName handles[k]).getD str_unnamed))).1 = k + 1 ∧
      _va_find_task_id (createTasks e (VA_Init s0 cpu_freq) handles) handles[k] = k + 1) ∧
    (∀ h, h ∉ handles → _va_find_task_id (createTasks e (VA_Init s0 cpu_freq) handles) h = 0) := by
  obtain ⟨new, rest, hmap, hhandles, hactive, hids, hrest, -, -⟩ :=
    createTasks_after_init e s0 cpu_freq handles hcap hlen hnz
  have hnewlen : new.length = handles.length := by rw [← hhandles, List.length_map]
  refine ⟨?_, ?_⟩
  · intro k hk
    constructor
    · -- the call that registers the handle at position `k`
      have hlenk : (handles.take k).length = k := by
        rw [List.length_take]; omega
      obtain ⟨newk, restk, hmapk, -, hactk, -, hrestk, hrestlen, hnextk⟩ :=
        createTasks_after_init e s0 cpu_freq (handles.take k) hcap (by omega)
          (fun h hh => hnz h (List.mem_of_mem_take hh))
      rw [hlenk] at hrestlen hnextk
      cases restk with
      | nil => simp at hrestlen; omega
      | cons x restk' =>
        have hidx : firstIndex (fun t => !t.active)
            (createTasks e (VA_Init s0 cpu_freq) (handles.take k)).taskMap =
            some newk.length := by
          rw [hmapk]
          exact firstIndex_append _ newk x restk' (fun t ht => by simp [hactk t ht])
            (by simp [hrestk x (by simp)])
        rw [assign_task_success _ _ _ _ hidx (hnz _ (List.getElem_mem _))
          (by rw [hnextk]; omega)]
        exact hnextk
    · have hk' : k < new.length := by omega
      have hh : new[k].handle = handles[k] := by
        have := List.getElem_map (fun t : VA_TaskMapEntry_t => t.handle) (l := new) (n := k)
          (h := by simpa using hk')
        simp only [hhandles] at this
        exact this.symm
      have hi : new[k].id = k + 1 := by
        have := List.getElem_map (fun t : VA_TaskMapEntry_t => t.id) (l := new) (n := k)
          (h := by simpa using hk')
        simp only [hids, List.getElem_range'] at this
        omega
      have hfind := find?_distinct_handles new rest hactive (by rw [hhandles]; exact hnd) k hk'
      rw [hh] at hfind
      simp only [_va_find_task_id, hmap, hfind]
      exact hi
  · intro h hh
    have hfind := find?_absent new rest h
      (by
        intro t ht heq
        apply hh
        rw [← hhandles, ← heq]
        exact List.mem_map.mpr ⟨t, ht, rfl⟩)
      hrest
    simp only [_va_find_task_id, hmap, hfind]
/-- Witness for C15: the handles `0x101` and `0x102` registered after `VA_Init` at power-on;
the second one resolves to ID 2. -/
theorem C15_witness :
    powerOn.taskMap.length = VA_MAX_TASKS ∧ [0x101, 0x102].Nodup ∧
      _va_find_task_id (createTasks demoEnv (VA_Init powerOn 168000000) [0x101, 0x102]) 0x102 =
        1 + 1 :=
  ⟨by decide, by decide,
   ((C15_sequential_ids_and_lookup demoEnv powerOn 168000000 [0x101, 0x102] (by decide)
      (by decide) (by decide) (by decide)).1 1 (by decide)).2⟩

/-- Claim C16 (idempotent sync-object creation), evaluated on `demoState`, where the sync
object `0x500` is registered as a queue under ID 1.  A further
`VA_LogQueueObjectCreateWithType(0x500, "Queue")` is not a no-op: it fills a second slot with
the same handle under ID 2, advances the next-ID counter from 2 to 3 and sends a second
setup packet `[0x75, 2, 5] "Queue"`; the handle keeps resolving to ID 1. -/
theorem C16_second_creation_is_not_idempotent :
    _va_find_queue_object_id demoState 0x500 = 1 ∧ demoState.next_queue_object_id = 2 ∧
    _va_find_queue_object_id
      (VA_LogQueueObjectCreateWithType demoEnv demoState 0x500 (some str_Queue)) 0x500 = 1 ∧
    (VA_LogQueueObjectCreateWithType demoEnv demoState 0x500
      (some str_Queue)).next_queue_object_id = 3 ∧
    ((VA_LogQueueObjectCreateWithType demoEnv demoState 0x500
      (some str_Queue)).queueObjectMap.take 3).map (fun q => (q.active, q.handle, q.id)) =
      [(true, 0x500, 1), (true, 0x500, 2), (false, 0, 0)] ∧
    (VA_LogQueueObjectCreateWithType demoEnv demoState 0x500 (some str_Queue)).tx =
      demoState.tx ++ [[0x75, 2, 5], [81, 117, 101, 117, 101]] := by
  decide

/-- Claim C17 (user-function registration, first registration wins).  For every nonzero id
and every non-null name: when `_va_find_user_function_id` already resolves the id,
`VA_RegisterUserFunction` returns the state it was given (the table with its stored name is
unchanged and nothing is sent); when it does not and a slot is free, the call writes the
entry into the first free slot and encodes exactly one setup packet, which on an initialised
recorder is sent as `[0x76, id, name_len]` followed by the first `name_len` characters of the
name, `name_len = min(length, 15)`. -/
theorem C17_user_function_first_registration_wins (s : State) (id : Nat) (name : List Nat)
    (hid : id ≠ 0) :
    (_va_find_user_function_id s id ≠ 0 → VA_RegisterUserFunction s id (some name) = s) ∧
    (_va_find_user_function_id s id = 0 →
      ∀ slot, firstIndex (fun u => !u.active) s.userFunctionMap = some slot →
        VA_RegisterUserFunction s id (some name) =
          _va_send_setup_packet
            { s with userFunctionMap :=
                s.userFunctionMap.set slot { id := id, name := storeName name, active := true } }
            0x76 id (storeName name) ∧
        (s.VA_IS_INIT = true →
          (VA_RegisterUserFunction s id (some name)).tx =
            s.tx ++ [[0x76, id, min (strlen name) 15],
                     (cstr name).take (min (strlen name) 15)])) := by
  constructor
  · intro hreg
    simp [VA_RegisterUserFunction, hid, assign_user_function_registered s id name hid hreg]
  · intro hnew slot hslot
    have hcall : VA_RegisterUserFunction s id (some name) =
        _va_send_setup_packet
          { s with userFunctionMap :=
              s.userFunctionMap.set slot { id := id, name := storeName name, active := true } }
          0x76 id (storeName name) := by
      simp [VA_RegisterUserFunction, hid, assign_user_function_new s id name slot hid hnew hslot,
        VA_SETUP_USER_FUNCTION_MAP]
    refine ⟨hcall, ?_⟩
    intro hinit
    rw [hcall, setup_packet_tx_nameLen _ _ _ _ (by simpa using hinit),
      nameLenByte_storeName, (strlen_storeName_any name).2]

/-- Witness for C17: function 9 registered as "AB" on the recorder initialised at power-on;
a second registration under the name "C" changes nothing. -/
theorem C17_witness :
    _va_find_user_function_id
        (VA_RegisterUserFunction (VA_Init powerOn 168000000) 9 (some [65, 66])) 9 ≠ 0 ∧
      VA_RegisterUserFunction
          (VA_RegisterUserFunction (VA_Init powerOn 168000000) 9 (some [65, 66])) 9 (some [67]) =
        VA_RegisterUserFunction (VA_Init powerOn 168000000) 9 (some [65, 66]) :=
  ⟨by decide,
   (C17_user_function_first_registration_wins
      (VA_RegisterUserFunction (VA_Init powerOn 168000000) 9 (some [65, 66])) 9 [67]
      (by decide)).1 (by decide)⟩

/-- Claim C18 as stated fails: the second identical `VA_RegisterUserTrace(5, "AB", counter)`
call on the initialised recorder sends the setup packet `[0x72, 5, 3, 2] "AB"` again. -/
theorem C18_second_trace_registration_sends_again :
    (VA_RegisterUserTrace
        (VA_RegisterUserTrace (VA_Init powerOn 168000000) 5 (some [65, 66]) 3)
        5 (some [65, 66]) 3).tx =
      (VA_RegisterUserTrace (VA_Init powerOn 168000000) 5 (some [65, 66]) 3).tx ++
        [[0x72, 5, 3, 2], [65, 66]] ∧
    VA_RegisterUserTrace
        (VA_RegisterUserTrace (VA_Init powerOn 168000000) 5 (some [65, 66]) 3)
        5 (some [65, 66]) 3 ≠
      VA_RegisterUserTrace (VA_Init powerOn 168000000) 5 (some [65, 66]) 3 := by
  decide

/-- Claim C18, amended (user traces are not tabulated).  `VA_RegisterUserTrace` keeps no
table of registered traces: on an initialised recorder, for every nonzero id, a second call
with the same id (any non-null name, any category) after a first one sends its setup packet
again, `[0x71, id, name_len]` for the category isr and `[0x72, id, category, name_len]`
otherwise, followed by `name_len` name bytes; apart from the bytes sent, no recorder state
changes. -/
theorem C18_trace_registration_keeps_no_table (s : State) (id : Nat) (name1 name2 : List Nat)
    (type1 type2 : Nat) (hid : id ≠ 0) (hinit : s.VA_IS_INIT = true) :
    VA_RegisterUserTrace (VA_RegisterUserTrace s id (some name1) type1) id (some name2) type2 =
      { VA_RegisterUserTrace s id (some name1) type1 with
        tx := (VA_RegisterUserTrace s id (some name1) type1).tx ++
          [if type2 = VA_USER_TYPE_ISR then [0x71, id, nameLenByte name2]
           else [0x72, id, type2 % 256, nameLenByte name2],
           name2.take (nameLenByte name2)] } :=
  registerUserTrace_eq _ id name2 type2 hid (by simpa using hinit)

/-- Witness for C18: trace 5 registered twice on the recorder initialised at power-on. -/
theorem C18_witness :
    (VA_Init powerOn 168000000).VA_IS_INIT = true ∧
      (VA_RegisterUserTrace
          (VA_RegisterUserTrace (VA_Init powerOn 168000000) 5 (some [65, 66]) 3)
          5 (some [67]) 0).tx =
        (VA_RegisterUserTrace (VA_Init powerOn 168000000) 5 (some [65, 66]) 3).tx ++
          [if (0 : Nat) = VA_USER_TYPE_ISR then [0x71, 5, nameLenByte [67]]
           else [0x72, 5, 0 % 256, nameLenByte [67]],
           [67].take (nameLenByte [67])] :=
  ⟨by decide,
   congrArg State.tx
     (C18_trace_registration_keeps_no_table (VA_Init powerOn 168000000) 5 [65, 66] [67] 3 0
       (by decide) (by decide))⟩

/-- Claim C19 (kind revision without prior creation is inert).  For every handle that no
active entry of the sync-object table holds, and for every hint (NULL included),
`VA_UpdateQueueObjectType` succeeds and returns the state it was given: no entry is created,
the next-ID counter is unchanged and nothing is sent. -/
theorem C19_revision_without_creation_is_inert (s : State) (h : Nat)
    (typeHint : Option (List Nat))
    (hnot : s.queueObjectMap.find? (fun q => q.active && q.handle == h) = none) :
    VA_UpdateQueueObjectType s h typeHint = some s := by
  have hidx := find?_none_firstIndex _ _ hnot
  simp only [VA_UpdateQueueObjectType, hidx]
  split <;> rfl

/-- Witness for C19: the handle `0x501` is not in the table of `demoState`. -/
theorem C19_witness :
    _va_find_queue_object_id demoState 0x501 = 0 ∧
      VA_UpdateQueueObjectType demoState 0x501 (some str_Mutex) = some demoState :=
  ⟨by decide, C19_revision_without_creation_is_inert demoState 0x501 (some str_Mutex) (by decide)⟩

/-- Claim C20 (kind revision of a registered handle).  For every non-null handle `h` that
`_va_find_queue_object_id` resolves and every non-NULL hint (a non-empty one in particular),
`VA_UpdateQueueObjectType` rewrites only the kind and the name of the first active entry of
`h` and encodes exactly one setup packet, with the setup code of the new kind (`0x74` for
mutex and recursive mutex, `0x73` for the semaphores, `0x75` for queue) and the ID that was
assigned to `h`.  The entry's handle and ID, every other entry, both next-ID counters and the
rest of the state are unchanged; on an initialised recorder the packet sent is
`[code, id, name_len]` followed by `name_len` bytes of the new name. -/
theorem C20_kind_revision_frame (s : State) (h : Nat) (hint : List Nat) (hh : h ≠ 0)
    (hreg : _va_find_queue_object_id s h ≠ 0) :
    ∃ front q back,
      s.queueObjectMap = front ++ q :: back ∧
      (∀ y ∈ front, (y.active && y.handle == h) = false) ∧
      q.active = true ∧ q.handle = h ∧ q.id = _va_find_queue_object_id s h ∧
      typeOfHint (some hint) ≤ 4 ∧
      _va_get_setup_packet_type (typeOfHint (some hint)) =
        (if typeOfHint (some hint) = 1 ∨ typeOfHint (some hint) = 4 then 0x74
         else if typeOfHint (some hint) = 2 ∨ typeOfHint (some hint) = 3 then 0x73
         else 0x75) ∧
      VA_UpdateQueueObjectType s h (some hint) =
        some (_va_send_setup_packet
          { s with queueObjectMap :=
              front ++ { q with type := typeOfHint (some hint),
                                name := storeName (revisedName hint) } :: back }
          (_va_get_setup_packet_type (typeOfHint (some hint))) (_va_find_queue_object_id s h)
          (storeName (revisedName hint))) ∧
      (s.VA_IS_INIT = true →
        VA_UpdateQueueObjectType s h (some hint) =
          some { s with
            queueObjectMap :=
              front ++ { q with type := typeOfHint (some hint),
                                name := storeName (revisedName hint) } :: back,
            tx := s.tx ++
              [[_va_get_setup_packet_type (typeOfHint (some hint)),
                _va_find_queue_object_id s h, min (strlen (revisedName hint)) 15],
               (cstr (revisedName hint)).take (min (strlen (revisedName hint)) 15)] }) := by
  obtain ⟨front, q, back, hmap, hfront, hq, hqid, -⟩ := find_queue_object_registered s h hreg
  have hq2 : q.active = true ∧ q.handle = h := by simpa using hq
  have hupd : VA_UpdateQueueObjectType s h (some hint) =
      some (_va_send_setup_packet
        { s with queueObjectMap :=
            front ++ { q with type := typeOfHint (some hint),
                              name := storeName (revisedName hint) } :: back }
        (_va_get_setup_packet_type (typeOfHint (some hint))) (_va_find_queue_object_id s h)
        (storeName (revisedName hint))) := by
    rw [← hqid]
    exact update_registered s h hint hh front back q hmap hfront hq
  refine ⟨front, q, back, hmap, hfront, hq2.1, hq2.2, hqid, typeOfHint_le _,
    setup_packet_type_cases _, hupd, ?_⟩
  intro hinit
  rw [hupd, setup_packet_eq _ _ _ _ (by simpa using hinit), nameLenByte_storeName,
    (strlen_storeName_any (revisedName hint)).2]

/-- Witness for C20: the queue `0x500` of `demoState` revised with the hint "CountSem"; the
setup packet `[0x73, 1, 8] "CountSem"` is sent. -/
theorem C20_witness :
    _va_find_queue_object_id demoState 0x500 = 1 ∧
      ∃ s', VA_UpdateQueueObjectType demoState 0x500 (some str_CountSem) = some s' ∧
        s'.tx = demoState.tx ++ [[0x73, 1, 8], str_CountSem] ∧
        s'.next_queue_object_id = demoState.next_queue_object_id :=
  ⟨by decide,
   by
    obtain ⟨front, q, back, -, -, -, -, -, -, -, -, hsent⟩ :=
      C20_kind_revision_frame demoState 0x500 str_CountSem (by decide) (by decide)
    have hclosed :
        [[_va_get_setup_packet_type (typeOfHint (some str_CountSem)),
          _va_find_queue_object_id demoState 0x500, min (strlen (revisedName str_CountSem)) 15],
         (cstr (revisedName str_CountSem)).take (min (strlen (revisedName str_CountSem)) 15)] =
        [[0x73, 1, 8], str_CountSem] := by decide
    exact ⟨_, hsent (by decide), congrArg (fun l => demoState.tx ++ l) hclosed, rfl⟩⟩

/-- Claim C21 (lazy self-registration).  For every non-null handle `h` that no active entry of
the sync-object table holds, while a slot is free (and the 8-bit ID counter has not wrapped to
0, the second condition the assignment tests), each of `VA_LogQueueObjectGive`,
`VA_LogQueueObjectTake` and `VA_LogQueueObjectBlocking` writes the entry of `h` into the first
free slot with the next ID, the kind read from the kernel object and the default name of that
kind, and advances the counter; afterwards `_va_find_queue_object_id h` is that nonzero ID and
the stored kind is the inferred one.  On an initialised recorder give and take send the setup
packet `[code, id, name_len]` with the default name, immediately followed by one event packet
with the same ID. -/
theorem C21_lazy_self_registration (e : Env) (s : State) (h timeout slot : Nat) (hh : h ≠ 0)
    (hnot : s.queueObjectMap.find? (fun q => q.active && q.handle == h) = none)
    (hslot : firstIndex (fun q => !q.active) s.queueObjectMap = some slot)
    (hctr : s.next_queue_object_id ≠ 0) :
    (∀ s' ∈ [VA_LogQueueObjectGive e s h timeout, VA_LogQueueObjectTake e s h timeout,
              VA_LogQueueObjectBlocking e s h],
      s'.queueObjectMap = s.queueObjectMap.set slot (lazyQueueEntry e s h) ∧
      s'.next_queue_object_id = (s.next_queue_object_id + 1) % 256 ∧
      _va_find_queue_object_id s' h = s.next_queue_object_id ∧
      _va_find_queue_object_id s' h ≠ 0 ∧
      _va_get_stored_queue_object_type e s' h = _va_get_queue_object_type e h) ∧
    (s.VA_IS_INIT = true →
      (VA_LogQueueObjectGive e s h timeout).tx =
        s.tx ++
          [[_va_get_setup_packet_type (_va_get_queue_object_type e h), s.next_queue_object_id,
              (_va_get_object_type_name (_va_get_queue_object_type e h)).length],
            _va_get_object_type_name (_va_get_queue_object_type e h),
            [0x80 ||| eventTypeOfKind (_va_get_queue_object_type e h), s.next_queue_object_id] ++
              timestampBytes (_va_get_timestamp e s).1] ∧
      (VA_LogQueueObjectTake e s h timeout).tx =
        s.tx ++
          [[_va_get_setup_packet_type (_va_get_queue_object_type e h), s.next_queue_object_id,
              (_va_get_object_type_name (_va_get_queue_object_type e h)).length],
            _va_get_object_type_name (_va_get_queue_object_type e h),
            [eventTypeOfKind (_va_get_queue_object_type e h), s.next_queue_object_id] ++
              timestampBytes (_va_get_timestamp e s).1]) := by
  have hg := give_lazy e s h timeout slot hh hnot hslot hctr
  have ht := take_lazy e s h timeout slot hh hnot hslot hctr
  have hb := blocking_lazy_table e s h slot hh hnot hslot hctr
  have hf := setup_packet_frame (lazyRegistered e s h slot)
    (_va_get_setup_packet_type (_va_get_queue_object_type e h)) s.next_queue_object_id
    (storeName (_va_get_object_type_name (_va_get_queue_object_type e h)))
  have key : ∀ s' : State,
      s'.queueObjectMap = (lazyRegistered e s h slot).queueObjectMap →
      s'.next_queue_object_id = (lazyRegistered e s h slot).next_queue_object_id →
      s'.queueObjectMap = s.queueObjectMap.set slot (lazyQueueEntry e s h) ∧
      s'.next_queue_object_id = (s.next_queue_object_id + 1) % 256 ∧
      _va_find_queue_object_id s' h = s.next_queue_object_id ∧
      _va_find_queue_object_id s' h ≠ 0 ∧
      _va_get_stored_queue_object_type e s' h = _va_get_queue_object_type e h := by
    intro s' hm hn
    have hl := lazy_lookup e s s' h slot hnot hslot hm
    exact ⟨hm, hn, hl.1, by rw [hl.1]; exact hctr, hl.2⟩
  refine ⟨?_, ?_⟩
  · intro s' hs'
    simp only [List.mem_cons, List.mem_singleton, List.not_mem_nil, or_false] at hs'
    rcases hs' with rfl | rfl | rfl
    · rw [hg]
      exact key _ (by simp [(event_packet_frame _ _ _ _).1])
        (by rw [(event_packet_frame _ _ _ _).2.1]; exact hf.2.2.2)
    · rw [ht]
      exact key _ (by simp [(event_packet_frame _ _ _ _).1])
        (by rw [(event_packet_frame _ _ _ _).2.1]; exact hf.2.2.2)
    · exact key _ hb.1 hb.2
  · intro hinit
    have hinit1 : (lazyRegistered e s h slot).VA_IS_INIT = true := hinit
    have hd := default_name_bytes (_va_get_queue_object_type e h)
    have hsetup := setup_packet_tx_nameLen (lazyRegistered e s h slot)
      (_va_get_setup_packet_type (_va_get_queue_object_type e h)) s.next_queue_object_id
      (storeName (_va_get_object_type_name (_va_get_queue_object_type e h))) hinit1
    rw [hd.1, hd.2] at hsetup
    have htx : (lazyRegistered e s h slot).tx = s.tx := rfl
    rw [htx] at hsetup
    constructor
    · rw [hg, event_packet_tx _ _ _ _ (by simpa using hinit1)]
      simp [hsetup]
    · rw [ht, event_packet_tx _ _ _ _ (by simpa using hinit1)]
      simp [hsetup]


/-- Witness for C21: the handle `0x600` is not in the table of `demoState`, whose slot 1 is
free and whose next ID is 2. -/
theorem C21_witness :
    _va_find_queue_object_id demoState 0x600 = 0 ∧
    _va_find_queue_object_id (VA_LogQueueObjectBlocking demoEnv demoState 0x600) 0x600 = 2 ∧
    (VA_LogQueueObjectGive demoEnv demoState 0x600 0).tx =
      demoState.tx ++ [[0x75, 2, 5], [81, 117, 101, 117, 101],
        [0x88, 2, 0x10, 0x04, 0, 0, 0, 0, 0, 0]] :=
  ⟨by decide,
   ((C21_lazy_self_registration demoEnv demoState 0x600 0 1 (by decide) (by decide) (by decide) (by decide)).1
      (VA_LogQueueObjectBlocking demoEnv demoState 0x600) (by simp)).2.2.1,
   ((C21_lazy_self_registration demoEnv demoState 0x600 0 1 (by decide) (by decide) (by decide) (by decide)).2
      (by decide)).1⟩


/-- Claim C22 (setup before event), evaluated on the call sequence
`VA_LogQueueObjectCreateWithType(0x500, "Queue")`, `VA_Init(168000000)`,
`VA_LogQueueObjectGive(0x500, 0)` from power-on.  The creation before `VA_Init` registers the
handle under ID 1 while its setup packet is dropped by the transport gate; `VA_Init` leaves the
sync-object table as it is, so the handle still resolves to ID 1; the give then sends the
queue event packet `[0x88, 1, ...]`.  The stream holds the sync marker, the info packet, the
SysTick ISR packet and that event: no queue, mutex or semaphore setup packet advertises
ID 1. -/
theorem C22_event_without_setup_after_late_init :
    (runCalls powerOn (createBeforeInit.take 1)).map
        (fun s => (_va_find_queue_object_id s 0x500, s.tx)) = some (1, []) ∧
    (runCalls powerOn (createBeforeInit.take 2)).map
        (fun s => _va_find_queue_object_id s 0x500) = some 1 ∧
    (runCalls powerOn createBeforeInit).map (fun s => s.tx.drop 5) =
      some [[0x88, 1, 0xE8, 0x03, 0, 0, 0, 0, 0, 0]] ∧
    (runCalls powerOn createBeforeInit).map (fun s => (s.tx.take 5).map (fun c => c.take 3)) =
      some [[0x56, 0x41, 0x5A], [0x7F, 0, 13], [67, 76, 75], [0x71, 1, 7], [83, 121, 115]] ∧
    (runCalls powerOn createBeforeInit).map (fun s => s.tx.any (isSyncSetupHeader 1)) =
      some false := by
  decide


/-- Claim C23 (the transport is a no-op before initialisation).  While `VA_IS_INIT` is false,
`_va_send_bytes` returns the state it was given for every buffer and length; every entry
point other than `VA_Init` that returns leaves the transmitted stream as it was and the flag
false; every entry point other than `VA_UpdateQueueObjectType` does return; and so every
sequence of calls without `VA_Init` transmits nothing. -/
theorem C23_no_transmission_before_init (e : Env) (s : State) (hinit : s.VA_IS_INIT = false) :
    (∀ data length, _va_send_bytes s data length = s) ∧
    (∀ c s', (∀ f, c ≠ Call.init f) → runCall e s c = some s' →
      s'.tx = s.tx ∧ s'.VA_IS_INIT = false) ∧
    (∀ c, (∀ q hint, c ≠ Call.updateQueueObjectType q hint) →
      ∃ s', runCall e s c = some s') ∧
    (∀ calls s', (∀ x ∈ calls, ∀ f, x.2 ≠ Call.init f) → runCalls s calls = some s' →
      s'.tx = s.tx ∧ s'.VA_IS_INIT = false) := by
  refine ⟨fun d n => send_bytes_not_init s d n hinit,
    fun c s' hc hr => runCall_not_init e s s' c hinit hc hr, ?_,
    fun calls s' hc hr => runCalls_not_init calls s s' hinit hc hr⟩
  intro c hc
  cases c with
  | updateQueueObjectType q hint => exact absurd rfl (hc q hint)
  | _ => exact ⟨_, rfl⟩


/-- Witness for C23: a give on the handle `0x500` at power-on sends nothing. -/
theorem C23_witness :
    powerOn.VA_IS_INIT = false ∧
      (VA_LogQueueObjectGive demoEnv powerOn 0x500 0).tx = powerOn.tx ∧
      powerOn.tx = [] :=
  ⟨rfl,
   ((C23_no_transmission_before_init demoEnv powerOn rfl).2.1 (Call.logQueueObjectGive 0x500 0) _ (by intro f hf; cases hf)
      rfl).1, rfl⟩


/-- Claim C24 (ID 0 is rejected by the registration and user-event hooks).  For every state,
name (NULL included), category and event state, `VA_RegisterUserTrace(0, ...)`,
`VA_RegisterUserFunction(0, ...)` and `VA_LogUserEvent(0, ...)` return the state they were
given: nothing is sent, no table changes and no timestamp is taken. -/
theorem C24_id_zero_rejected_by_registration_and_user_event (e : Env) (s : State) (name : Option (List Nat)) (type : Nat) (state : Bool) :
    VA_RegisterUserTrace s 0 name type = s ∧ VA_RegisterUserFunction s 0 name = s ∧
      VA_LogUserEvent e s 0 state = s := by
  refine ⟨?_, ?_, ?_⟩
  · cases name <;> simp [VA_RegisterUserTrace]
  · cases name <;> simp [VA_RegisterUserFunction]
  · simp [VA_LogUserEvent]


/-- Claim C25 (ID 0 rejected by the user-value and user-toggle hooks), evaluated on
`demoState`.  `VA_LogUserTrace(0, 5)` sends the 14-byte packet `[0x04, 0, timestamp, 5,0,0,0]`
and `VA_LogUserToggleEvent(0, true)` sends the 11-byte packet `[0x0A, 0, timestamp, 1]`; both
take a timestamp, which advances the timestamp state.  The two hooks have no test of the id,
unlike `VA_LogUserEvent`, which returns at once for ID 0. -/
theorem C25_id_zero_is_sent_by_trace_and_toggle :
    (VA_LogUserTrace demoEnv demoState 0 5).tx =
      demoState.tx ++ [[0x04, 0, 0x10, 0x04, 0, 0, 0, 0, 0, 0, 5, 0, 0, 0]] ∧
    (VA_LogUserToggleEvent demoEnv demoState 0 true).tx =
      demoState.tx ++ [[0x0A, 0, 0x10, 0x04, 0, 0, 0, 0, 0, 0, 1]] ∧
    (VA_LogUserTrace demoEnv demoState 0 5).nreads = demoState.nreads + 2 ∧
    VA_LogUserEvent demoEnv demoState 0 true = demoState := by
  decide


/-- Claim C26 as stated fails: on the recorder initialised at power-on,
`VA_RegisterUserTrace(9, "", 3)` sends the setup header `[0x72, 9, 3, 0]`, and
`VA_RegisterUserFunction(9, "")` creates the active entry of ID 9 (with an empty stored name)
and sends the setup header `[0x76, 9, 0]`. -/
theorem C26_empty_name_is_registered :
    (VA_RegisterUserTrace (VA_Init powerOn 168000000) 9 (some []) 3).tx =
      (VA_Init powerOn 168000000).tx ++ [[0x72, 9, 3, 0], []] ∧
    _va_find_user_function_id (VA_Init powerOn 168000000) 9 = 0 ∧
    _va_find_user_function_id
      (VA_RegisterUserFunction (VA_Init powerOn 168000000) 9 (some [])) 9 = 9 ∧
    ((VA_RegisterUserFunction (VA_Init powerOn 168000000) 9 (some [])).userFunctionMap.take 1).map
        (fun u => (u.active, u.id, strlen u.name)) = [(true, 9, 0)] ∧
    (VA_RegisterUserFunction (VA_Init powerOn 168000000) 9 (some [])).tx =
      (VA_Init powerOn 168000000).tx ++ [[0x76, 9, 0], []] := by
  decide


/-- Claim C26, amended: only a NULL name is rejected.  For every nonzero id and every category,
`VA_RegisterUserTrace` and `VA_RegisterUserFunction` with a NULL name return the state they
were given.  An empty name is accepted: on an initialised recorder `VA_RegisterUserTrace`
sends the setup header with name length 0 (`[0x72, id, category, 0]`, or `[0x71, id, 0]` for
the ISR category) and a zero-length name; `VA_RegisterUserFunction` for an id that is not yet
registered, while a slot is free, writes the entry of the id with an all-NUL name into the
first free slot and, on an initialised recorder, sends `[0x76, id, 0]` and a zero-length
name. -/
theorem C26_only_null_name_is_rejected (s : State) (id type : Nat) (name : List Nat) (hid : id ≠ 0)
    (hempty : strlen name = 0) :
    VA_RegisterUserTrace s id none type = s ∧
    VA_RegisterUserFunction s id none = s ∧
    (s.VA_IS_INIT = true →
      VA_RegisterUserTrace s id (some name) type =
        { s with tx := s.tx ++
            [if type = VA_USER_TYPE_ISR then [0x71, id, 0] else [0x72, id, type % 256, 0],
             []] }) ∧
    (_va_find_user_function_id s id = 0 →
      ∀ slot, firstIndex (fun u => !u.active) s.userFunctionMap = some slot →
        (VA_RegisterUserFunction s id (some name)).userFunctionMap =
          s.userFunctionMap.set slot
            { id := id, name := List.replicate 16 0, active := true } ∧
        (s.VA_IS_INIT = true →
          (VA_RegisterUserFunction s id (some name)).tx = s.tx ++ [[0x76, id, 0], []])) := by
  refine ⟨rfl, rfl, ?_, ?_⟩
  · intro hinit
    rw [registerUserTrace_eq s id name type hid hinit, nameLenByte_empty name hempty]
    simp
  · intro hnew slot hslot
    have hcall : VA_RegisterUserFunction s id (some name) =
        _va_send_setup_packet
          { s with userFunctionMap :=
              s.userFunctionMap.set slot { id := id, name := storeName name, active := true } }
          0x76 id (storeName name) := by
      simp [VA_RegisterUserFunction, hid, assign_user_function_new s id name slot hid hnew hslot,
        VA_SETUP_USER_FUNCTION_MAP]
    constructor
    · rw [hcall, setup_packet_userFunctionMap, storeName_empty name hempty]
    · intro hinit
      rw [hcall, setup_packet_tx_nameLen _ _ _ _ (by simpa using hinit),
        nameLenByte_storeName, hempty]
      simp


/-- Witness for C26: trace 5 registered with the empty name in the ISR category on the
recorder initialised at power-on. -/
theorem C26_witness :
    strlen [] = 0 ∧
    VA_RegisterUserTrace (VA_Init powerOn 168000000) 5 (some []) 8 =
      { VA_Init powerOn 168000000 with
        tx := (VA_Init powerOn 168000000).tx ++
          [if (8 : Nat) = VA_USER_TYPE_ISR then [0x71, 5, 0] else [0x72, 5, 8 % 256, 0], []] } :=
  ⟨by decide, (C26_only_null_name_is_rejected (VA_Init powerOn 168000000) 5 8 [] (by decide) (by decide)).2.2.1
    (by decide)⟩


/-- Claim C27 (a null handle is a no-op).  For every state, hint (NULL included) and timeout,
`VA_LogQueueObjectCreateWithType`, `VA_UpdateQueueObjectType`, `VA_LogQueueObjectGive`,
`VA_LogQueueObjectTake` and `VA_LogQueueObjectBlocking` with a null object handle, and
`VA_TaskCreated` with a null task handle, return the state they were given: nothing is sent,
and every table, ID counter and the timestamp state are unchanged. -/
theorem C27_null_handle_is_inert (e : Env) (s : State) (hint : Option (List Nat)) (timeout : Nat) :
    VA_LogQueueObjectCreateWithType e s 0 hint = s ∧
    VA_UpdateQueueObjectType s 0 hint = some s ∧
    VA_LogQueueObjectGive e s 0 timeout = s ∧
    VA_LogQueueObjectTake e s 0 timeout = s ∧
    VA_LogQueueObjectBlocking e s 0 = s ∧
    VA_TaskCreated e s 0 = s := by
  refine ⟨?_, ?_, ?_, ?_, ?_, ?_⟩
  · simp [VA_LogQueueObjectCreateWithType]
  · simp [VA_UpdateQueueObjectType]
  · simp [VA_LogQueueObjectGive]
  · simp [VA_LogQueueObjectTake]
  · simp [VA_LogQueueObjectBlocking]
  · simp [VA_TaskCreated, _va_assign_task_id]


/-- Claim C28 (capacity exhaustion yields ID 0 events).  When every slot of the sync-object
table is active and no entry holds the non-null handle `h`, `VA_LogQueueObjectGive` and
`VA_LogQueueObjectTake` take one timestamp and encode one event packet with id byte 0 and the
event code of the kind read from the kernel object; the table and its ID counter are
unchanged and, on an initialised recorder, that 10-byte packet is all that is sent (no setup
packet).  Likewise, when `_va_find_task_id` does not resolve the current task,
`VA_TaskSwitchedIn` and `VA_TaskSwitchedOut` encode one event packet `[0x81, 0, ...]` resp.
`[0x01, 0, ...]` and nothing else: no stack-usage packet. -/
theorem C28_id_zero_events_on_exhaustion (e : Env) (s : State) (h timeout : Nat) :
    (h ≠ 0 → (∀ q ∈ s.queueObjectMap, q.active = true) →
      s.queueObjectMap.find? (fun q => q.active && q.handle == h) = none →
      VA_LogQueueObjectGive e s h timeout =
        _va_send_event_packet (_va_get_timestamp e s).2
          (0x80 ||| eventTypeOfKind (_va_get_queue_object_type e h)) 0
          (_va_get_timestamp e s).1 ∧
      VA_LogQueueObjectTake e s h timeout =
        _va_send_event_packet (_va_get_timestamp e s).2
          (eventTypeOfKind (_va_get_queue_object_type e h)) 0 (_va_get_timestamp e s).1 ∧
      (VA_LogQueueObjectGive e s h timeout).queueObjectMap = s.queueObjectMap ∧
      (VA_LogQueueObjectTake e s h timeout).queueObjectMap = s.queueObjectMap ∧
      (VA_LogQueueObjectGive e s h timeout).next_queue_object_id = s.next_queue_object_id ∧
      (VA_LogQueueObjectTake e s h timeout).next_queue_object_id = s.next_queue_object_id ∧
      (s.VA_IS_INIT = true →
        (VA_LogQueueObjectGive e s h timeout).tx =
          s.tx ++ [[0x80 ||| eventTypeOfKind (_va_get_queue_object_type e h), 0] ++
            timestampBytes (_va_get_timestamp e s).1] ∧
        (VA_LogQueueObjectTake e s h timeout).tx =
          s.tx ++ [[eventTypeOfKind (_va_get_queue_object_type e h), 0] ++
            timestampBytes (_va_get_timestamp e s).1])) ∧
    (_va_find_task_id s e.xTaskGetCurrentTaskHandle = 0 →
      VA_TaskSwitchedIn e s =
        _va_send_event_packet (_va_get_timestamp e s).2 0x81 0 (_va_get_timestamp e s).1 ∧
      VA_TaskSwitchedOut e s =
        _va_send_event_packet (_va_get_timestamp e s).2 0x01 0 (_va_get_timestamp e s).1 ∧
      (s.VA_IS_INIT = true →
        (VA_TaskSwitchedIn e s).tx =
          s.tx ++ [[0x81, 0] ++ timestampBytes (_va_get_timestamp e s).1] ∧
        (VA_TaskSwitchedOut e s).tx =
          s.tx ++ [[0x01, 0] ++ timestampBytes (_va_get_timestamp e s).1])) ∧
    (∀ c : Nat, ([c, 0] ++ timestampBytes (_va_get_timestamp e s).1).length = 10) := by
  refine ⟨?_, ?_, fun _ => rfl⟩
  · intro hh hfull hnot
    have hg := give_full e s h timeout hh hfull hnot
    have ht := take_full e s h timeout hh hfull hnot
    refine ⟨hg, ht, ?_, ?_, ?_, ?_, ?_⟩
    · rw [hg]; simp
    · rw [ht]; simp
    · rw [hg, (event_packet_frame _ _ _ _).2.1]; rfl
    · rw [ht, (event_packet_frame _ _ _ _).2.1]; rfl
    · intro hinit
      rw [hg, ht, event_packet_tx _ _ _ _ (by simpa using hinit),
        event_packet_tx _ _ _ _ (by simpa using hinit)]
      exact ⟨rfl, rfl⟩
  · intro hcur
    have hin : VA_TaskSwitchedIn e s =
        _va_send_event_packet (_va_get_timestamp e s).2 0x81 0 (_va_get_timestamp e s).1 :=
      taskSwitched_unregistered e s _ hcur
    have hout : VA_TaskSwitchedOut e s =
        _va_send_event_packet (_va_get_timestamp e s).2 0x01 0 (_va_get_timestamp e s).1 :=
      taskSwitched_unregistered e s _ hcur
    refine ⟨hin, hout, ?_⟩
    intro hinit
    rw [hin, hout, event_packet_tx _ _ _ _ (by simpa using hinit),
      event_packet_tx _ _ _ _ (by simpa using hinit)]
    exact ⟨rfl, rfl⟩


/-- Witness for C28: `demoFullSyncState` has 32 active sync objects, none with the handle
`0x600`, and no registered task. -/
theorem C28_witness :
    (∀ q ∈ demoFullSyncState.queueObjectMap, q.active = true) ∧
    _va_find_queue_object_id demoFullSyncState 0x600 = 0 ∧
    _va_find_task_id demoFullSyncState demoEnv.xTaskGetCurrentTaskHandle = 0 ∧
    (VA_LogQueueObjectGive demoEnv demoFullSyncState 0x600 0).tx =
      demoFullSyncState.tx ++
        [[0x80 ||| eventTypeOfKind (_va_get_queue_object_type demoEnv 0x600), 0] ++
          timestampBytes (_va_get_timestamp demoEnv demoFullSyncState).1] ∧
    (VA_TaskSwitchedIn demoEnv demoFullSyncState).tx =
      demoFullSyncState.tx ++
        [[0x81, 0] ++ timestampBytes (_va_get_timestamp demoEnv demoFullSyncState).1] :=
  ⟨by decide, by decide, by decide,
   (((C28_id_zero_events_on_exhaustion demoEnv demoFullSyncState 0x600 0).1 (by decide) (by decide)
      (by decide)).2.2.2.2.2.2 (by decide)).1,
   (((C28_id_zero_events_on_exhaustion demoEnv demoFullSyncState 0x600 0).2.1 (by decide)).2.2 (by decide)).1⟩


/-- Claim C29 (the low word is the stored last-seen value), evaluated at power-on for a call
whose two counter reads are `0xFFFFFFFE` and, after the counter has wrapped, `0x00000003`.
The call stores `0xFFFFFFFE` as the last-seen value and returns `0x00000003`: the low 32 bits
of the result are the second read, not the value that was compared and stored, and the high
word is still the old overflow count 0. -/
theorem C29_low_word_differs_from_last_seen :
    (_va_get_timestamp wrapBetweenReads { powerOn with nreads := 2 }).1 % 2 ^ 32 = 0x00000003 ∧
    (_va_get_timestamp wrapBetweenReads { powerOn with nreads := 2 }).2.last_dwt_value =
      0xFFFFFFFE ∧
    (_va_get_timestamp wrapBetweenReads { powerOn with nreads := 2 }).1 = 0x00000003 ∧
    (_va_get_timestamp wrapBetweenReads { powerOn with nreads := 2 }).2.g_dwt_overflow_count
      = 0 := by
  decide


/-- Claim C30 (display name on kind revision), evaluated on `demoState` for the registered
handle `0x500` and the hint "RecMutex".  The hint contains "RecMutex" and the resulting kind
is recursive mutex, yet the stored name is not the hint: it is "RecMutex_RecMut", the first
15 bytes of "RecMutex_RecMutex", and the setup packet `[0x74, 1, 15]` carries that name.  With
the hint "Mutex" the hint itself is stored: the mutex case tests `strstr(hint, "Mutex")`, the
recursive-mutex case appends its suffix without a test. -/
theorem C30_recursive_mutex_suffix_is_unconditional :
    strstr str_RecMutex str_RecMutex = true ∧
    typeOfHint (some str_RecMutex) = VA_OBJECT_TYPE_RECURSIVE_MUTEX ∧
    (VA_UpdateQueueObjectType demoState 0x500 (some str_RecMutex)).map
        (fun s => (s.queueObjectMap.map (fun q => q.name)).take 1) =
      some [[82, 101, 99, 77, 117, 116, 101, 120, 95, 82, 101, 99, 77, 117, 116, 0]] ∧
    (VA_UpdateQueueObjectType demoState 0x500 (some str_RecMutex)).map (fun s => s.tx) =
      some (demoState.tx ++ [[0x74, 1, 15],
        [82, 101, 99, 77, 117, 116, 101, 120, 95, 82, 101, 99, 77, 117, 116]]) ∧
    (VA_UpdateQueueObjectType demoState 0x500 (some str_Mutex)).map
        (fun s => (s.queueObjectMap.map (fun q => q.name)).take 1) =
      some [storeName str_Mutex] := by
  decide


/-- Claim C31 (output of `VA_TaskCreated`).  For every non-null task handle, while a task slot
is free (and the 8-bit ID counter is not 0, the second condition the assignment tests; it
never is 0 in a reachable state), `VA_TaskCreated` writes the new entry into the first free
slot and, on an initialised recorder, sends exactly the task setup packet
`[0x70, id, name_len]` with the first `name_len = min(length, 15)` bytes of the name,
immediately followed by the 22-byte packet `[0x03, id, timestamp, priority, base priority,
stack words]` with the same new ID; the name is "???" when the RTOS returns none.  When the
assignment fails (null handle, no free slot or counter 0) the call returns the state it was
given: nothing is sent and no timestamp is taken. -/
theorem C31_task_created_packets (e : Env) (s : State) (h : Nat) :
    (h ≠ 0 → s.next_task_id ≠ 0 →
      ∀ slot, firstIndex (fun t => !t.active) s.taskMap = some slot →
        (VA_TaskCreated e s h).taskMap =
          s.taskMap.set slot (newTaskEntry s h ((e.pcTaskGetName h).getD str_unnamed)) ∧
        (s.VA_IS_INIT = true →
          (VA_TaskCreated e s h).tx =
            s.tx ++
              [[0x70, s.next_task_id, min (strlen ((e.pcTaskGetName h).getD str_unnamed)) 15],
               (cstr ((e.pcTaskGetName h).getD str_unnamed)).take
                 (min (strlen ((e.pcTaskGetName h).getD str_unnamed)) 15),
               [0x03, s.next_task_id] ++ timestampBytes (_va_get_timestamp e s).1 ++
                 uint32Bytes s.g_task_uxPriority ++ uint32Bytes s.g_task_uxBasePriority ++
                 uint32Bytes s.g_task_ulStackDepth])) ∧
    (e.pcTaskGetName h = none → (e.pcTaskGetName h).getD str_unnamed = [63, 63, 63]) ∧
    ([0x03, s.next_task_id] ++ timestampBytes (_va_get_timestamp e s).1 ++
        uint32Bytes s.g_task_uxPriority ++ uint32Bytes s.g_task_uxBasePriority ++
        uint32Bytes s.g_task_ulStackDepth).length = 22 ∧
    ((h = 0 ∨ firstIndex (fun t => !t.active) s.taskMap = none ∨ s.next_task_id = 0) →
      VA_TaskCreated e s h = s) := by
  refine ⟨?_, ?_, rfl, taskCreated_failure e s h⟩
  · intro hh hctr slot hslot
    have hc := taskCreated_success e s h slot hh hslot hctr
    constructor
    · rw [hc]
      simp [_va_send_task_create_packet, send_bytes_eq]
    · intro hinit
      rw [hc, task_create_packet_tx _ _ _ _ _ _ (by simpa using hinit)]
      simp only [timestamp_tx]
      rw [setup_packet_tx_nameLen _ _ _ _ (by simpa using hinit), nameLenByte_storeName,
        (strlen_storeName_any _).2]
      simp [VA_SETUP_TASK_MAP]
  · intro hn
    rw [hn]
    rfl


/-- Witness for C31: the task `0x103` created on `demoState`, whose slot 2 is free and whose next
task ID is 3. -/
theorem C31_witness :
    (VA_TaskCreated demoEnv demoState 0x103).tx =
      demoState.tx ++
        [[0x70, demoState.next_task_id,
            min (strlen ((demoEnv.pcTaskGetName 0x103).getD str_unnamed)) 15],
         (cstr ((demoEnv.pcTaskGetName 0x103).getD str_unnamed)).take
           (min (strlen ((demoEnv.pcTaskGetName 0x103).getD str_unnamed)) 15),
         [0x03, demoState.next_task_id] ++ timestampBytes (_va_get_timestamp demoEnv demoState).1 ++
           uint32Bytes demoState.g_task_uxPriority ++
           uint32Bytes demoState.g_task_uxBasePriority ++
           uint32Bytes demoState.g_task_ulStackDepth] ∧
    demoState.next_task_id = 3 :=
  ⟨((C31_task_created_packets demoEnv demoState 0x103).1 (by decide) (by decide) 2 (by decide)).2 (by decide),
   by decide⟩


/-- Claim C32 (output of the task-switch hooks).  With `id` the ID that `_va_find_task_id` gives
the current task, `total` its recorded stack depth (`_va_get_total_stack_size`) and `used` the
result of `_va_calculate_stack_usage`: on an initialised recorder `VA_TaskSwitchedIn` sends
the 10-byte event packet `[0x81, id, timestamp]` and `VA_TaskSwitchedOut` the packet
`[0x01, id, timestamp]`, followed by the 18-byte packet `[0x09, id, timestamp, used, total]`
with a timestamp of its own exactly when `id ≠ 0` and `total > 0`, and by nothing otherwise.
Where the kernel reports a high-water mark, `used` is `total` minus that mark modulo
`2^32`. -/
theorem C32_task_switch_packets (e : Env) (s : State) (id total used : Nat)
    (hid : id = _va_find_task_id s e.xTaskGetCurrentTaskHandle)
    (htotal : total = _va_get_total_stack_size s e.xTaskGetCurrentTaskHandle)
    (hused : used = _va_calculate_stack_usage e s e.xTaskGetCurrentTaskHandle) :
    (s.VA_IS_INIT = true →
      ((id ≠ 0 ∧ total > 0) →
        (VA_TaskSwitchedIn e s).tx =
          s.tx ++ [[0x81, id] ++ timestampBytes (_va_get_timestamp e s).1,
            [0x09, id] ++ timestampBytes (_va_get_timestamp e (_va_get_timestamp e s).2).1 ++
              uint32Bytes used ++ uint32Bytes total] ∧
        (VA_TaskSwitchedOut e s).tx =
          s.tx ++ [[0x01, id] ++ timestampBytes (_va_get_timestamp e s).1,
            [0x09, id] ++ timestampBytes (_va_get_timestamp e (_va_get_timestamp e s).2).1 ++
              uint32Bytes used ++ uint32Bytes total]) ∧
      (¬ (id ≠ 0 ∧ total > 0) →
        (VA_TaskSwitchedIn e s).tx =
          s.tx ++ [[0x81, id] ++ timestampBytes (_va_get_timestamp e s).1] ∧
        (VA_TaskSwitchedOut e s).tx =
          s.tx ++ [[0x01, id] ++ timestampBytes (_va_get_timestamp e s).1])) ∧
    (e.INCLUDE_uxTaskGetStackHighWaterMark = true → total > 0 →
      used = (total + 2 ^ 32 - e.uxTaskGetStackHighWaterMark e.xTaskGetCurrentTaskHandle % 2 ^ 32) %
        2 ^ 32) ∧
    ([0x81, id] ++ timestampBytes (_va_get_timestamp e s).1).length = 10 ∧
    ([0x09, id] ++ timestampBytes (_va_get_timestamp e (_va_get_timestamp e s).2).1 ++
      uint32Bytes used ++ uint32Bytes total).length = 18 := by
  subst hid htotal hused
  refine ⟨?_, ?_, rfl, rfl⟩
  · intro hinit
    have hin : VA_TaskSwitchedIn e s = taskSwitched e s 0x81 := rfl
    have hout : VA_TaskSwitchedOut e s = taskSwitched e s 0x01 := rfl
    have hi1 : (_va_get_timestamp e s).2.VA_IS_INIT = true := by simpa using hinit
    constructor
    · intro hc
      rw [hin, hout, taskSwitched_eq, taskSwitched_eq, if_pos hc, if_pos hc,
        stack_usage_packet_tx _ _ _ _ _ (by simpa using hinit),
        stack_usage_packet_tx _ _ _ _ _ (by simpa using hinit)]
      simp only [timestamp_tx, event_packet_tx _ _ _ _ hi1]
      simp
    · intro hc
      rw [hin, hout, taskSwitched_eq, taskSwitched_eq, if_neg hc, if_neg hc,
        event_packet_tx _ _ _ _ hi1, event_packet_tx _ _ _ _ hi1]
      simp
  · intro hinc hpos
    exact stack_usage_formula e s _ hinc hpos


/-- Witness for C32: task `0x102` has ID 1 and a recorded depth of 128 words in
`demoStackState`; with a high-water mark of 40 words the stack-usage packet carries 88 and
128. -/
theorem C32_witness :
    (VA_TaskSwitchedIn demoStackEnv demoStackState).tx =
      demoStackState.tx ++
        [[0x81, 1] ++ timestampBytes (_va_get_timestamp demoStackEnv demoStackState).1,
         [0x09, 1] ++
           timestampBytes
             (_va_get_timestamp demoStackEnv
               (_va_get_timestamp demoStackEnv demoStackState).2).1 ++
           uint32Bytes 88 ++ uint32Bytes 128] :=
  (((C32_task_switch_packets demoStackEnv demoStackState 1 128 88 (by decide) (by decide) (by decide)).1
    (by decide)).1 (by decide)).1


/-- Claim C33 (initialisation empties every table), evaluated on `demoState`, in which the
queue `0x500` is registered under ID 1 and task `0x101` under ID 1.  After `VA_Init` the task
is gone and the task counter is 1 again, but `_va_find_queue_object_id 0x500` is still 1, the
first sync-object slot is still active and the sync-object counter is still 2: `VA_Init`
resets the task table and the user-function table only. -/
theorem C33_init_keeps_sync_objects :
    _va_find_queue_object_id demoState 0x500 = 1 ∧
    _va_find_queue_object_id (VA_Init demoState 168000000) 0x500 = 1 ∧
    (VA_Init demoState 168000000).next_queue_object_id = 2 ∧
    ((VA_Init demoState 168000000).queueObjectMap.take 1).map
        (fun q => (q.active, q.handle, q.id)) = [(true, 0x500, 1)] ∧
    _va_find_task_id demoState 0x101 = 1 ∧
    _va_find_task_id (VA_Init demoState 168000000) 0x101 = 0 ∧
    (VA_Init demoState 168000000).next_task_id = 1 := by
  decide


/-- Claim C34 as stated fails for the two setup encoders: on the recorder initialised at
power-on, `_va_send_setup_packet(0x70, 1, "T")` makes two transport calls, the header
`[0x70, 1, 1]` and the name `"T"`, and `_va_send_user_setup_packet(5, 3, "AB")` makes the two
calls `[0x72, 5, 3, 2]` and `"AB"`. -/
theorem C34_setup_packet_takes_two_transport_calls :
    (_va_send_setup_packet (VA_Init powerOn 168000000) 0x70 1 [84]).tx =
      (VA_Init powerOn 168000000).tx ++ [[0x70, 1, 1], [84]] ∧
    (_va_send_user_setup_packet (VA_Init powerOn 168000000) 5 3 [65, 66]).tx =
      (VA_Init powerOn 168000000).tx ++ [[0x72, 5, 3, 2], [65, 66]] ∧
    (_va_send_setup_packet (VA_Init powerOn 168000000) 0x70 1 [84]).tx.length =
      (VA_Init powerOn 168000000).tx.length + 2 := by
  decide


/-- Claim C34, amended.  On an initialised recorder each of the seven event encoders hands its
complete packet to the transport in exactly one `_va_send_bytes` call (10, 14, 11, 15, 12, 22
and 18 bytes), and each of the two setup encoders makes exactly two calls: the header
(`[code, id, name_len]` resp. `[0x72, id, type, name_len]`), then the `name_len` name
bytes. -/
theorem C34_transport_calls_per_encoder (s : State) (hinit : s.VA_IS_INIT = true) :
    (∀ c i ts, _va_send_event_packet s c i ts =
      { s with tx := s.tx ++ [[c, i] ++ timestampBytes ts] }) ∧
    (∀ i v ts, _va_send_user_event_packet s i v ts =
      { s with tx := s.tx ++ [[0x04, i] ++ timestampBytes ts ++ int32Bytes v] }) ∧
    (∀ i st ts, _va_send_user_toggle_event_packet s i st ts =
      { s with tx := s.tx ++ [[0x0A, i] ++ timestampBytes ts ++ [st % 256]] }) ∧
    (∀ c i o v ts, _va_send_notification_event_packet s c i o v ts =
      { s with tx := s.tx ++ [[c, i, o] ++ timestampBytes ts ++ uint32Bytes v] }) ∧
    (∀ m w hd ts, _va_send_mutex_contention_packet s m w hd ts =
      { s with tx := s.tx ++ [[0x0C, m, w, hd] ++ timestampBytes ts] }) ∧
    (∀ i ts p b d, _va_send_task_create_packet s i ts p b d =
      { s with tx := s.tx ++
          [[0x03, i] ++ timestampBytes ts ++ uint32Bytes p ++ uint32Bytes b ++ uint32Bytes d] }) ∧
    (∀ i ts u t, _va_send_stack_usage_packet s i ts u t =
      { s with tx := s.tx ++
          [[0x09, i] ++ timestampBytes ts ++ uint32Bytes u ++ uint32Bytes t] }) ∧
    (∀ c i n, _va_send_setup_packet s c i n =
      { s with tx := s.tx ++ [[c, i, nameLenByte n], n.take (nameLenByte n)] }) ∧
    (∀ i t n, _va_send_user_setup_packet s i t n =
      { s with tx := s.tx ++ [[0x72, i, t, nameLenByte n], n.take (nameLenByte n)] }) := by
  refine ⟨?_, ?_, ?_, ?_, ?_, ?_, ?_, ?_, ?_⟩
  · intro c i ts; exact event_packet_eq s c i ts hinit
  · intro i v ts
    simp [_va_send_user_event_packet, _va_send_bytes, hinit, timestampBytes, int32Bytes,
      VA_EVENT_USER_TRACE]
  · intro i st ts
    simp [_va_send_user_toggle_event_packet, _va_send_bytes, hinit, timestampBytes,
      VA_EVENT_USER_TOGGLE]
  · intro c i o v ts
    simp [_va_send_notification_event_packet, _va_send_bytes, hinit, timestampBytes,
      uint32Bytes]
  · intro m w hd ts; exact contention_packet_eq s m w hd ts hinit
  · intro i ts p b d
    simp [_va_send_task_create_packet, _va_send_bytes, hinit, timestampBytes, uint32Bytes,
      VA_EVENT_TASK_CREATE]
  · intro i ts u t
    simp [_va_send_stack_usage_packet, _va_send_bytes, hinit, timestampBytes, uint32Bytes,
      VA_EVENT_TASK_STACK_USAGE]
  · intro c i n; exact setup_packet_eq s c i n hinit
  · intro i t n; exact user_setup_packet_eq s i t n hinit


/-- Witness for C34: an event packet sent on the recorder initialised at power-on. -/
theorem C34_witness :
    (VA_Init powerOn 168000000).VA_IS_INIT = true ∧
    _va_send_event_packet (VA_Init powerOn 168000000) 0x81 1 1000 =
      { VA_Init powerOn 168000000 with
        tx := (VA_Init powerOn 168000000).tx ++ [[0x81, 1] ++ timestampBytes 1000] } :=
  ⟨by decide, (C34_transport_calls_per_encoder (VA_Init powerOn 168000000) (by decide)).1 0x81 1 1000⟩


/-- Claim C35 (name-bound invariant).  In every reachable state every active entry of the task
table, the sync-object table and the user-function table stores a 16-byte buffer with a
NUL-terminated name of at most 15 bytes, and the length byte that the setup encoder computes
for that name is its C length.  On an initialised recorder, each operation that writes a
table entry (`_va_assign_task_id`, `_va_assign_queue_object_id`, `VA_UpdateQueueObjectType`,
`VA_RegisterUserFunction` for a new id) sends the setup packet `[code, id, name_len]` with
`id` and `name_len` read off the entry it has just written, followed by `name_len` bytes of
the stored name. -/
theorem C35_name_bound_invariant (s : State) (hs : Reachable s) :
    (∀ t ∈ s.taskMap, t.active = true →
      nameBounded t.name ∧ nameLenByte t.name = strlen t.name) ∧
    (∀ q ∈ s.queueObjectMap, q.active = true →
      nameBounded q.name ∧ nameLenByte q.name = strlen q.name) ∧
    (∀ u ∈ s.userFunctionMap, u.active = true →
      nameBounded u.name ∧ nameLenByte u.name = strlen u.name) ∧
    (s.VA_IS_INIT = true →
      (∀ h name slot, h ≠ 0 → firstIndex (fun t => !t.active) s.taskMap = some slot →
        ∃ entry, (_va_assign_task_id s h (some name)).2.taskMap[slot]? = some entry ∧
          entry.active = true ∧
          (_va_assign_task_id s h (some name)).2.tx =
            s.tx ++ [[0x70, entry.id, strlen entry.name],
              entry.name.take (strlen entry.name)]) ∧
      (∀ h name type slot, h ≠ 0 →
        firstIndex (fun q => !q.active) s.queueObjectMap = some slot →
        ∃ entry, (_va_assign_queue_object_id s h name type).2.queueObjectMap[slot]? =
            some entry ∧
          entry.active = true ∧
          (_va_assign_queue_object_id s h name type).2.tx =
            s.tx ++ [[_va_get_setup_packet_type type, entry.id, strlen entry.name],
              entry.name.take (strlen entry.name)]) ∧
      (∀ h hint, h ≠ 0 → _va_find_queue_object_id s h ≠ 0 →
        ∃ s' front entry back, VA_UpdateQueueObjectType s h (some hint) = some s' ∧
          s'.queueObjectMap = front ++ entry :: back ∧
          (∀ y ∈ front, (y.active && y.handle == h) = false) ∧
          entry.active = true ∧ entry.handle = h ∧
          s'.tx = s.tx ++ [[_va_get_setup_packet_type (typeOfHint (some hint)), entry.id,
              strlen entry.name], entry.name.take (strlen entry.name)]) ∧
      (∀ id name slot, id ≠ 0 → _va_find_user_function_id s id = 0 →
        firstIndex (fun u => !u.active) s.userFunctionMap = some slot →
        ∃ entry, (VA_RegisterUserFunction s id (some name)).userFunctionMap[slot]? =
            some entry ∧
          entry.active = true ∧
          (VA_RegisterUserFunction s id (some name)).tx =
            s.tx ++ [[0x76, entry.id, strlen entry.name],
              entry.name.take (strlen entry.name)])) := by
  obtain ⟨ht, hq, hu⟩ := reachable_named s hs
  obtain ⟨-, -, -, -, hctr, hqctr, -, -⟩ : True ∧ True ∧ True ∧ True ∧ s.next_task_id ≠ 0 ∧
      s.next_queue_object_id ≠ 0 ∧ True ∧ True := by
    obtain ⟨⟨n, -, hn, -⟩, ⟨m, -, hm, -⟩⟩ := reachable_dense s hs
    have hn' : s.next_task_id = n + 1 := hn
    have hm' : s.next_queue_object_id = m + 1 := hm
    exact ⟨trivial, trivial, trivial, trivial, by omega, by omega, trivial, trivial⟩
  refine ⟨?_, ?_, ?_, ?_⟩
  · intro t hmem ha
    obtain ⟨x, hx⟩ := ht t hmem ha
    rw [hx]; exact storeName_bounded x
  · intro q hmem ha
    obtain ⟨x, hx⟩ := hq q hmem ha
    rw [hx]; exact storeName_bounded x
  · intro u hmem ha
    obtain ⟨x, hx⟩ := hu u hmem ha
    rw [hx]; exact storeName_bounded x
  · intro hinit
    refine ⟨?_, ?_, ?_, ?_⟩
    · intro h name slot hh hslot
      rw [assign_task_success s h name slot hslot hh hctr]
      refine ⟨newTaskEntry s h name, ?_, rfl, ?_⟩
      · rw [setup_packet_taskMap]
        exact set_getElem?_of_firstIndex _ _ _ _ hslot
      · exact setup_packet_stored _ _ _ _ (by simpa using hinit)
    · intro h name type slot hh hslot
      obtain ⟨x, hx⟩ := assign_queue_success s h slot name type hh hslot hqctr
      rw [hx]
      refine ⟨({ handle := h, id := s.next_queue_object_id, name := storeName x, type := type,
                 active := true } : VA_QueueObjectMapEntry_t), ?_, rfl, ?_⟩
      · rw [setup_packet_queueObjectMap]
        exact set_getElem?_of_firstIndex _ _ _ _ hslot
      · exact setup_packet_stored _ _ _ _ (by simpa using hinit)
    · intro h hint hh hreg
      obtain ⟨front, q, back, hmap, hfront, hqk, -, -⟩ := find_queue_object_registered s h hreg
      have hqa : q.active = true ∧ q.handle = h := by simpa using hqk
      refine ⟨_, front,
        ({ q with
            type := typeOfHint (some hint),
            name := storeName (revisedName hint) } : VA_QueueObjectMapEntry_t), back,
        update_registered s h hint hh front back q hmap hfront hqk,
        ?_, hfront, hqa.1, hqa.2, ?_⟩
      · rw [setup_packet_queueObjectMap]
      · exact setup_packet_stored _ _ _ _ (by simpa using hinit)
    · intro id name slot hid hnew hslot
      have hcall : VA_RegisterUserFunction s id (some name) =
          _va_send_setup_packet
            { s with userFunctionMap :=
                s.userFunctionMap.set slot { id := id, name := storeName name, active := true } }
            0x76 id (storeName name) := by
        simp [VA_RegisterUserFunction, hid, assign_user_function_new s id name slot hid hnew hslot,
          VA_SETUP_USER_FUNCTION_MAP]
      rw [hcall]
      refine ⟨({ id := id, name := storeName name, active := true } :
        VA_UserFunctionMapEntry_t), ?_, rfl, ?_⟩
      · rw [setup_packet_userFunctionMap]
        exact set_getElem?_of_firstIndex _ _ _ _ hslot
      · exact setup_packet_stored _ _ _ _ (by simpa using hinit)


/-- Witness for C35: `demoState` is reachable. -/
theorem C35_witness :
    Reachable demoState ∧
    (∀ t ∈ demoState.taskMap, t.active = true →
      nameBounded t.name ∧ nameLenByte t.name = strlen t.name) ∧
    (∀ q ∈ demoState.queueObjectMap, q.active = true →
      nameBounded q.name ∧ nameLenByte q.name = strlen q.name) :=
  ⟨demoState_reachable, (C35_name_bound_invariant demoState demoState_reachable).1,
   (C35_name_bound_invariant demoState demoState_reachable).2.1⟩


/-- Claim C36 (dense-table invariant).  In every reachable state, for the task table and for the
sync-object table there is an `n ≤ 32` such that the slots `0 .. n-1` are the active ones, slot
`i < n` holds ID `i + 1`, and the next-ID counter is `n + 1`.  Hence both tables have 32 slots,
the IDs of active entries are nonzero and pairwise distinct, and neither counter is 0: the
`counter == 0` failure branch of the two assignment functions is never taken. -/
theorem C36_dense_table_invariant (s : State) (hs : Reachable s) :
    (∃ n, n ≤ 32 ∧ s.next_task_id = n + 1 ∧ taskKeys s = denseKeys n ∧
      ∀ i, i < 32 → ∃ t, s.taskMap[i]? = some t ∧ (t.active = true ↔ i < n) ∧
        (t.active = true → t.id = i + 1)) ∧
    (∃ m, m ≤ 32 ∧ s.next_queue_object_id = m + 1 ∧ queueKeys s = denseKeys m ∧
      ∀ i, i < 32 → ∃ q, s.queueObjectMap[i]? = some q ∧ (q.active = true ↔ i < m) ∧
        (q.active = true → q.id = i + 1)) ∧
    s.taskMap.length = 32 ∧ s.queueObjectMap.length = 32 ∧
    s.next_task_id ≠ 0 ∧ s.next_queue_object_id ≠ 0 ∧
    (∀ (i j : Nat) (t u : VA_TaskMapEntry_t), s.taskMap[i]? = some t → s.taskMap[j]? = some u → t.active = true →
      u.active = true → t.id ≠ 0 ∧ (t.id = u.id → i = j)) ∧
    (∀ (i j : Nat) (q r : VA_QueueObjectMapEntry_t), s.queueObjectMap[i]? = some q → s.queueObjectMap[j]? = some r →
      q.active = true → r.active = true → q.id ≠ 0 ∧ (q.id = r.id → i = j)) := by
  obtain ⟨⟨n, hn, hnext, hkeys⟩, ⟨m, hm, hmnext, hmkeys⟩⟩ := reachable_dense s hs
  have hn32 : n ≤ 32 := hn
  have hm32 : m ≤ 32 := hm
  replace hnext : s.next_task_id = n + 1 := hnext
  replace hmnext : s.next_queue_object_id = m + 1 := hmnext
  replace hkeys : s.taskMap.map (fun t => (t.active, t.id)) = denseKeys n := hkeys
  replace hmkeys : s.queueObjectMap.map (fun q => (q.active, q.id)) = denseKeys m := hmkeys
  have hlen : s.taskMap.length = 32 := by
    have := congrArg List.length hkeys
    rw [List.length_map, denseKeys_length n hn] at this
    exact this
  have hqlen : s.queueObjectMap.length = 32 := by
    have := congrArg List.length hmkeys
    rw [List.length_map, denseKeys_length m hm] at this
    exact this
  have hti : ∀ i, i < 32 → ∃ t, s.taskMap[i]? = some t ∧ (t.active = true ↔ i < n) ∧
      (t.active = true → t.id = i + 1) :=
    dense_index (fun (t : VA_TaskMapEntry_t) => (t.active, t.id)) s.taskMap n hn hkeys
  have hqi : ∀ i, i < 32 → ∃ q, s.queueObjectMap[i]? = some q ∧ (q.active = true ↔ i < m) ∧
      (q.active = true → q.id = i + 1) :=
    dense_index (fun (q : VA_QueueObjectMapEntry_t) => (q.active, q.id))
      s.queueObjectMap m hm hmkeys
  refine ⟨⟨n, hn32, hnext, hkeys, hti⟩, ⟨m, hm32, hmnext, hmkeys, hqi⟩, hlen, hqlen,
    by rw [hnext]; omega, by rw [hmnext]; omega, ?_, ?_⟩
  · intro i j t u hi hj ha hb
    have hi32 : i < 32 := by
      have := (List.getElem?_eq_some.1 hi).1; omega
    have hj32 : j < 32 := by
      have := (List.getElem?_eq_some.1 hj).1; omega
    obtain ⟨t', ht', -, hid⟩ := hti i hi32
    obtain ⟨u', hu', -, hjd⟩ := hti j hj32
    rw [hi] at ht'; rw [hj] at hu'
    cases Option.some.inj ht'; cases Option.some.inj hu'
    have h1 : t.id = i + 1 := hid ha
    have h2 : u.id = j + 1 := hjd hb
    exact ⟨by omega, by omega⟩
  · intro i j t u hi hj ha hb
    have hi32 : i < 32 := by
      have := (List.getElem?_eq_some.1 hi).1; omega
    have hj32 : j < 32 := by
      have := (List.getElem?_eq_some.1 hj).1; omega
    obtain ⟨t', ht', -, hid⟩ := hqi i hi32
    obtain ⟨u', hu', -, hjd⟩ := hqi j hj32
    rw [hi] at ht'; rw [hj] at hu'
    cases Option.some.inj ht'; cases Option.some.inj hu'
    have h1 : t.id = i + 1 := hid ha
    have h2 : u.id = j + 1 := hjd hb
    exact ⟨by omega, by omega⟩


/-- Witness for C36: `demoState` is reachable, with two tasks and one sync object. -/
theorem C36_witness :
    Reachable demoState ∧ demoState.next_task_id ≠ 0 ∧ demoState.next_queue_object_id ≠ 0 ∧
    demoState.next_task_id = 3 ∧ demoState.next_queue_object_id = 2 ∧
    taskKeys demoState = denseKeys 2 ∧ queueKeys demoState = denseKeys 1 :=
  ⟨demoState_reachable, (C36_dense_table_invariant demoState demoState_reachable).2.2.2.2.1,
   (C36_dense_table_invariant demoState demoState_reachable).2.2.2.2.2.1, by decide, by decide, by decide,
   by decide⟩


/-- Claim C37 (notify correlation).  Let `D` be a task that `_va_find_task_index` finds, let the
task `S` (the current task of `e1`) call `VA_LogTaskNotifyGive(D, v)`, and let `D` then run
`VA_LogTaskNotifyTake` twice.  The give writes `S` into the `last_notifier` field of `D`'s
entry and the first take clears it; every other entry and every other field is unchanged by
the three calls.  On an initialised recorder the first take sends `[0x05, id(D), id(S), ...]`
(`id(S)` is 0 when `S` is not registered) and the second sends `[0x05, id(D), 0, ...]`, given
that no active entry holds the null handle. -/
theorem C37_notify_correlation (e1 e2 e3 : Env) (s : State) (D v v2 v3 idx : Nat)
    (hreg : _va_find_task_index s D = some idx)
    (hD2 : e2.xTaskGetCurrentTaskHandle = D) (hD3 : e3.xTaskGetCurrentTaskHandle = D)
    (hnull : _va_find_task_id s 0 = 0) :
    ∃ front t back,
      s.taskMap = front ++ t :: back ∧ front.length = idx ∧ t.active = true ∧ t.handle = D ∧
      (VA_LogTaskNotifyGive e1 s D v).taskMap =
        front ++ { t with last_notifier := e1.xTaskGetCurrentTaskHandle } :: back ∧
      (VA_LogTaskNotifyTake e2 (VA_LogTaskNotifyGive e1 s D v) v2).taskMap =
        front ++ { t with last_notifier := 0 } :: back ∧
      (VA_LogTaskNotifyTake e3
          (VA_LogTaskNotifyTake e2 (VA_LogTaskNotifyGive e1 s D v) v2) v3).taskMap =
        front ++ { t with last_notifier := 0 } :: back ∧
      (s.VA_IS_INIT = true →
        (VA_LogTaskNotifyTake e2 (VA_LogTaskNotifyGive e1 s D v) v2).tx =
          (VA_LogTaskNotifyGive e1 s D v).tx ++
            [[0x05, _va_find_task_id s D, _va_find_task_id s e1.xTaskGetCurrentTaskHandle] ++
              timestampBytes (_va_get_timestamp e2 (VA_LogTaskNotifyGive e1 s D v)).1 ++
              uint32Bytes v2] ∧
        (VA_LogTaskNotifyTake e3
            (VA_LogTaskNotifyTake e2 (VA_LogTaskNotifyGive e1 s D v) v2) v3).tx =
          (VA_LogTaskNotifyTake e2 (VA_LogTaskNotifyGive e1 s D v) v2).tx ++
            [[0x05, _va_find_task_id s D, 0] ++
              timestampBytes (_va_get_timestamp e3
                (VA_LogTaskNotifyTake e2 (VA_LogTaskNotifyGive e1 s D v) v2)).1 ++
              uint32Bytes v3]) := by
  obtain ⟨front, t, back, hmap, hlen, ht, hfront⟩ := firstIndex_some _ _ _ hreg
  have hta : t.active = true ∧ t.handle = D := by simpa using ht
  have h1 := notifyGive_taskMap e1 s D v front back t hmap hfront ht
  have hfront2 : ∀ y ∈ front, (y.active && y.handle == e2.xTaskGetCurrentTaskHandle) = false := by
    rw [hD2]; exact hfront
  have hfront3 : ∀ y ∈ front, (y.active && y.handle == e3.xTaskGetCurrentTaskHandle) = false := by
    rw [hD3]; exact hfront
  have h2 := notifyTake_taskMap e2 (VA_LogTaskNotifyGive e1 s D v) v2 front back
    { t with last_notifier := e1.xTaskGetCurrentTaskHandle } h1 hfront2 (by rw [hD2]; exact ht)
  have h3 := notifyTake_taskMap e3
    (VA_LogTaskNotifyTake e2 (VA_LogTaskNotifyGive e1 s D v) v2) v3 front back
    { t with last_notifier := 0 } h2.1 hfront3 (by rw [hD3]; exact ht)
  have hid1 : ∀ h, _va_find_task_id (VA_LogTaskNotifyGive e1 s D v) h = _va_find_task_id s h :=
    fun h => find_task_id_notifier s _ front back t _ h hmap h1
  have hid2 : ∀ h, _va_find_task_id
      (VA_LogTaskNotifyTake e2 (VA_LogTaskNotifyGive e1 s D v) v2) h = _va_find_task_id s h :=
    fun h => find_task_id_notifier s _ front back t _ h hmap h2.1
  refine ⟨front, t, back, hmap, hlen, hta.1, hta.2, h1, h2.1, h3.1, ?_⟩
  intro hinit
  have hi1 : (VA_LogTaskNotifyGive e1 s D v).VA_IS_INIT = true := by
    rw [notifyGive_init_flag]; exact hinit
  have hi2 : (VA_LogTaskNotifyTake e2 (VA_LogTaskNotifyGive e1 s D v) v2).VA_IS_INIT = true := by
    rw [notifyTake_init_flag]; exact hi1
  constructor
  · rw [notifyTake_tx e2 _ v2 hi1, h2.2, hD2, hid1, hid1]
  · rw [notifyTake_tx e3 _ v3 hi2, h3.2, hD3, hid2, hid2, hnull]


/-- Witness for C37: in `demoState` task `0x102` (ID 2) notifies task `0x101` (ID 1), which then
takes. -/
theorem C37_witness :
    _va_find_task_index demoState 0x101 = some 0 ∧
    (VA_LogTaskNotifyTake demoSelfBlockEnv
        (VA_LogTaskNotifyGive demoEnv demoState 0x101 7) 7).tx =
      (VA_LogTaskNotifyGive demoEnv demoState 0x101 7).tx ++
        [[0x05, _va_find_task_id demoState 0x101,
            _va_find_task_id demoState demoEnv.xTaskGetCurrentTaskHandle] ++
          timestampBytes (_va_get_timestamp demoSelfBlockEnv
            (VA_LogTaskNotifyGive demoEnv demoState 0x101 7)).1 ++
          uint32Bytes 7] ∧
    _va_find_task_id demoState 0x101 = 1 ∧
    _va_find_task_id demoState demoEnv.xTaskGetCurrentTaskHandle = 2 :=
  ⟨by decide,
   (C37_notify_correlation demoEnv demoSelfBlockEnv demoSelfBlockEnv demoState 0x101 7 7 7 0 (by decide) rfl rfl
      (by decide)).elim
     (fun _ hfront => hfront.elim (fun _ ht => ht.elim (fun _ hall =>
       (hall.2.2.2.2.2.2.2 (by decide)).1))),
   by decide, by decide⟩


/-- Claim C38 (single-wire chunking).  For every buffer of bytes and every length `n` within the
buffer, the ITM variant of `_va_send_bytes` on an initialised recorder makes exactly `n / 4`
word writes followed by `n % 4` byte writes, and the little-endian bytes of the words followed
by the single bytes are the first `n` bytes of the buffer: the bytes that the transport call
contributes to the stream.  Before initialisation it writes nothing.  Both loops run on the
remaining length, so the function is total; the wait for the port is left to the
hardware. -/
theorem C38_itm_chunking_preserves_stream (data : List Nat) (n : Nat) (port : List ITMWrite)
    (hb : ∀ b ∈ data, b < 256) (hn : n ≤ data.length) :
    _va_send_bytes_ITM false port data n = port ∧
    ∃ words bytes : List ITMWrite,
      _va_send_bytes_ITM true port data n = port ++ words ++ bytes ∧
      words.length = n / 4 ∧ (∀ w ∈ words, w.isWord = true) ∧
      bytes.length = n % 4 ∧ (∀ w ∈ bytes, w.isWord = false) ∧
      ((words ++ bytes).map itmBytes).flatten = data.take n ∧
      (∀ s : State, s.VA_IS_INIT = true →
        (_va_send_bytes s data n).tx = s.tx ++ [((words ++ bytes).map itmBytes).flatten]) := by
  refine ⟨rfl, ?_⟩
  obtain ⟨h1, h2, words, h3, h4, h5, h6⟩ := itmWordLoop_spec data hb n 0 port (by omega)
  have hbyte := itmByteLoop_spec data hb (n % 4) (4 * (n / 4))
    (port ++ words) (by omega)
  have hstream : ((words ++ ((data.drop (4 * (n / 4))).take (n % 4)).map ITMWrite.u8).map
      itmBytes).flatten = data.take n := by
    rw [List.map_append, List.flatten_append, h6]
    have hu8 : ∀ l : List Nat, ((l.map ITMWrite.u8).map itmBytes).flatten = l := by
      intro l
      induction l with
      | nil => rfl
      | cons a l ih =>
        rw [List.map_cons, List.map_cons, List.flatten_cons, ih]
        rfl
    rw [hu8, List.drop_zero]
    have hsplit : n = 4 * (n / 4) + n % 4 := by omega
    conv_rhs => rw [hsplit]
    rw [List.take_add]
  refine ⟨words, ((data.drop (4 * (n / 4))).take (n % 4)).map ITMWrite.u8, ?_, h4, h5, ?_, ?_,
    hstream, ?_⟩
  · simp only [_va_send_bytes_ITM, Bool.not_true, Bool.false_eq_true, if_false]
    rw [h1, h2, h3, Nat.zero_add, hbyte]
  · simp only [List.length_map, List.length_take, List.length_drop]
    omega
  · intro w hw
    obtain ⟨b, -, rfl⟩ := List.mem_map.1 hw
    rfl
  · intro s hinit
    rw [hstream, send_bytes_init s data n hinit]


/-- Witness for C38: ten bytes go out as two words and two bytes. -/
theorem C38_witness :
    _va_send_bytes_ITM true [] [1, 2, 3, 4, 5, 6, 7, 8, 9, 10] 10 =
      [ITMWrite.u32 0x04030201, ITMWrite.u32 0x08070605, ITMWrite.u8 9, ITMWrite.u8 10] ∧
    ∃ words bytes : List ITMWrite,
      _va_send_bytes_ITM true [] [1, 2, 3, 4, 5, 6, 7, 8, 9, 10] 10 = [] ++ words ++ bytes ∧
      words.length = 10 / 4 ∧ (∀ w ∈ words, w.isWord = true) ∧
      bytes.length = 10 % 4 ∧ (∀ w ∈ bytes, w.isWord = false) ∧
      ((words ++ bytes).map itmBytes).flatten = [1, 2, 3, 4, 5, 6, 7, 8, 9, 10].take 10 ∧
      (∀ s : State, s.VA_IS_INIT = true →
        (_va_send_bytes s [1, 2, 3, 4, 5, 6, 7, 8, 9, 10] 10).tx =
          s.tx ++ [((words ++ bytes).map itmBytes).flatten]) :=
  ⟨by decide, (C38_itm_chunking_preserves_stream [1, 2, 3, 4, 5, 6, 7, 8, 9, 10] 10 [] (by decide) (by decide)).2⟩


/-- Claim C39 (the clock-frequency packet is never truncated).  For every `cpu_freq < 2^32`,
`VA_Init` sends the sync marker, then the header `[0x7F, 0x00, n]` and the text "CLK:"
followed by all decimal digits of `cpu_freq`, with `n = 4 + number of digits` between 5 and
14, then the SysTick packet: neither the 40-byte buffer nor the 15-byte clamp removes a
digit. -/
theorem C39_info_packet_not_truncated (s : State) (cpu_freq : Nat) (hf : cpu_freq < 2 ^ 32) :
    (VA_Init s cpu_freq).tx =
      s.tx ++ [VA_SYNC_MARKER, [0x7F, 0x00, 4 + (decimalBytes cpu_freq).length],
        str_CLK ++ decimalBytes cpu_freq, [0x71, 1, 7], str_SysTick] ∧
    decimalBytes cpu_freq = (Nat.toDigits 10 cpu_freq).map Char.toNat ∧
    1 ≤ (decimalBytes cpu_freq).length ∧
    4 + (decimalBytes cpu_freq).length ≤ 14 := by
  have h := clk_text_nameLen cpu_freq hf
  have hlen := decimalBytes_length_le cpu_freq hf
  refine ⟨?_, rfl, ?_, by omega⟩
  · rw [init_tx, h.1, h.2]
    have ht : (str_CLK ++ decimalBytes cpu_freq).take (4 + (decimalBytes cpu_freq).length) =
        str_CLK ++ decimalBytes cpu_freq :=
      List.take_of_length_le
        (by simp only [str_CLK, List.length_append, List.length_cons, List.length_nil]; omega)
    rw [ht]
  · exact decimalBytes_length_pos cpu_freq


/-- Witness for C39: the frequency 168000000. -/
theorem C39_witness :
    (168000000 : Nat) < 2 ^ 32 ∧
    (VA_Init powerOn 168000000).tx =
      powerOn.tx ++ [VA_SYNC_MARKER, [0x7F, 0x00, 4 + (decimalBytes 168000000).length],
        str_CLK ++ decimalBytes 168000000, [0x71, 1, 7], str_SysTick] :=
  ⟨by decide, (C39_info_packet_not_truncated powerOn 168000000 (by decide)).1⟩


/-- Claim C40 (setup category and event code agree).  For every kind value `k`: mutex and
recursive mutex get the setup code `0x74` and the event code `0x07`, counting and binary
semaphore `0x73` and `0x06`, queue and every other value `0x75` and `0x08`; and for a
registered handle whose stored kind is `k`, `VA_LogQueueObjectGive` and
`VA_LogQueueObjectTake` encode their event packet with exactly that event code (with bit 7
set for give). -/
theorem C40_setup_and_event_class_agree (k : Nat) :
    ((k = VA_OBJECT_TYPE_MUTEX ∨ k = VA_OBJECT_TYPE_RECURSIVE_MUTEX) →
      _va_get_setup_packet_type k = 0x74 ∧ eventTypeOfKind k = 0x07) ∧
    ((k = VA_OBJECT_TYPE_COUNTING_SEM ∨ k = VA_OBJECT_TYPE_BINARY_SEM) →
      _va_get_setup_packet_type k = 0x73 ∧ eventTypeOfKind k = 0x06) ∧
    ((k ≠ VA_OBJECT_TYPE_MUTEX ∧ k ≠ VA_OBJECT_TYPE_RECURSIVE_MUTEX ∧
        k ≠ VA_OBJECT_TYPE_COUNTING_SEM ∧ k ≠ VA_OBJECT_TYPE_BINARY_SEM) →
      _va_get_setup_packet_type k = 0x75 ∧ eventTypeOfKind k = 0x08) ∧
    (∀ (e : Env) (s : State) (h timeout : Nat), h ≠ 0 → _va_find_queue_object_id s h ≠ 0 →
      _va_get_stored_queue_object_type e s h = k →
      VA_LogQueueObjectGive e s h timeout =
        _va_send_event_packet (_va_get_timestamp e s).2 (0x80 ||| eventTypeOfKind k)
          (_va_find_queue_object_id s h) (_va_get_timestamp e s).1 ∧
      VA_LogQueueObjectTake e s h timeout =
        _va_send_event_packet (_va_get_timestamp e s).2 (eventTypeOfKind k)
          (_va_find_queue_object_id s h) (_va_get_timestamp e s).1) := by
  refine ⟨?_, ?_, ?_, ?_⟩
  · rintro (rfl | rfl) <;> decide
  · rintro (rfl | rfl) <;> decide
  · rintro ⟨h1, h2, h3, h4⟩
    simp only [VA_OBJECT_TYPE_MUTEX, VA_OBJECT_TYPE_RECURSIVE_MUTEX, VA_OBJECT_TYPE_COUNTING_SEM,
      VA_OBJECT_TYPE_BINARY_SEM] at h1 h2 h3 h4
    simp [_va_get_setup_packet_type, eventTypeOfKind, VA_OBJECT_TYPE_MUTEX,
      VA_OBJECT_TYPE_RECURSIVE_MUTEX, VA_OBJECT_TYPE_COUNTING_SEM, VA_OBJECT_TYPE_BINARY_SEM,
      VA_OBJECT_TYPE_QUEUE, VA_SETUP_QUEUE_MAP, VA_EVENT_QUEUE, h1, h2, h3, h4]
  · intro e s h timeout hh hreg hk
    rw [give_registered e s h timeout hh hreg, take_registered e s h timeout hh hreg, hk]
    exact ⟨rfl, rfl⟩


/-- Witness for C40: the mutex `0x500` of `demoMutexState`. -/
theorem C40_witness :
    _va_get_stored_queue_object_type demoEnv demoMutexState 0x500 = 1 ∧
    VA_LogQueueObjectGive demoEnv demoMutexState 0x500 0 =
      _va_send_event_packet (_va_get_timestamp demoEnv demoMutexState).2
        (0x80 ||| eventTypeOfKind 1) (_va_find_queue_object_id demoMutexState 0x500)
        (_va_get_timestamp demoEnv demoMutexState).1 ∧
    _va_get_setup_packet_type 1 = 0x74 ∧ eventTypeOfKind 1 = 0x07 :=
  ⟨by decide,
   ((C40_setup_and_event_class_agree 1).2.2.2 demoEnv demoMutexState 0x500 0 (by decide) (by decide) (by decide)).1,
   (C40_setup_and_event_class_agree 1).1 (Or.inl rfl)⟩


end ViewAlyzer
